import Mathlib

/-!
# Fluids: a grid-based incompressible-fluid velocity solver

Shallow embedding of `src/main.js` (2D solver) and of the `Buffer` class of
`src/main3.js` (3D solver).

Modelling conventions.

* Cell values, timesteps and sample coordinates are JavaScript numbers.  In the
  namespaces `Fluids` and `Fluids3` they are modelled by the elements of an arbitrary
  linearly ordered field `α` with a floor function (`ℚ` for evaluation, `ℝ` for the
  statements about real numbers): there the arithmetic is exact.
* The namespace `Fluids.Rounded` embeds the same methods of `src/main.js` with the
  arithmetic of the code: every operation is rounded to a double and every store into a
  surface to single precision.  It decides the claims that exact arithmetic alone cannot
  settle.
* Integer-valued numbers (extents, cell coordinates, flat indices) are `Int`.
* A `Float32Array` is a `List α`.  Reading outside `0 ≤ i < length` gives `undefined`
  (`none`), writing outside that range is ignored, as for every typed array.
* A method that mutates `this` returns the new object.
-/

namespace Fluids

variable {α : Type}

/-! ## Helpers of `main.js` -/

/-- The helper `const mod = (n, d) => ((n % d) + d) % d;`.  On integers the JavaScript
remainder `%` truncates towards zero, which is `Int.tmod`. -/
def mod (n d : Int) : Int := ((n.tmod d) + d).tmod d

/-- The helper `const lerp = (a, b, s) => (a * (1 - s)) + (b * s);`. -/
def lerp [Field α] (a b s : α) : α := (a * (1 - s)) + (b * s)

/-- Typed-array read `a[i]`: `none` stands for `undefined`. -/
def readAt (a : List α) (i : Int) : Option α :=
  if 0 ≤ i then a[i.toNat]? else none

/-- Typed-array write `a[i] = v`: a write outside the array is ignored. -/
def writeAt (a : List α) (i : Int) (v : α) : List α :=
  if 0 ≤ i then a.set i.toNat v else a

/-- The loop `for (let i = 0; i < n; i++) body(i)` as a state transformer. -/
def forRange {σ : Type} (n : Int) (body : Int → σ → σ) (s : σ) : σ :=
  (List.range n.toNat).foldl (fun t (i : Nat) => body (i : Int) t) s

/-- The nested loops
`for (let i = 0; i < w; i++) { for (let j = 0; j < h; j++) { body(i, j) } }`
of every pipeline stage.  The bounds `this.width` and `this.height` are assigned in
the constructors only, so they are read once. -/
def sweep {σ : Type} (w h : Int) (body : Int → Int → σ → σ) (s : σ) : σ :=
  forRange w (fun i t => forRange h (fun j r => body i j r) t) s

/-- `new Float32Array(size)`: `size` zero cells; a negative size throws a `RangeError`. -/
def float32Array [Zero α] (size : Int) : Except String (List α) :=
  if size < 0 then .error "RangeError: Invalid typed array length"
  else .ok (List.replicate size.toNat 0)

/-! ## `class Buffer` (2D) -/

/-- The fields of `class Buffer`: `width`, `height` and the surface `a`. -/
structure Buffer (α : Type) where
  width : Int
  height : Int
  a : List α

namespace Buffer

/-- The constructor `constructor(width, height)` of `Buffer`. -/
def new [Zero α] (width height : Int) : Except String (Buffer α) := do
  let size := width * height
  let a ← float32Array size
  pure { width := width, height := height, a := a }

/-- The method `index(x, y) { return x + y * this.width; }`. -/
def index (b : Buffer α) (x y : Int) : Int := x + y * b.width

/-- The method `wrap(x, y)`:
`return mod(x, this.width) + mod(y, this.height) * this.width;`. -/
def wrap (b : Buffer α) (x y : Int) : Int :=
  mod x b.width + mod y b.height * b.width

/-- The read `this.a[this.wrap(x, y)]` of `get`, with `none` for `undefined`. -/
def get? (b : Buffer α) (x y : Int) : Option α := readAt b.a (b.wrap x y)

/-- The method `get(x, y) { return this.a[this.wrap(x, y)]; }` as a number.  The value
`undefined` of a read outside the array has no counterpart in `α`; it is represented by
`0`, and `get?` tells the two apart. -/
def get [Zero α] (b : Buffer α) (x y : Int) : α := (b.get? x y).getD 0

/-- The method `set(x, y, v) { this.a[this.index(x, y)] = v; }`. -/
def set (b : Buffer α) (x y : Int) (v : α) : Buffer α :=
  { b with a := writeAt b.a (b.index x y) v }

/-- The method `clear(v)`: `const value = v || 0;` then `this.a[i] = value` for every
`i < this.a.length`.  Among numbers `v || 0` is `v` unless `v` is `0` (or `NaN`). -/
def clear [Zero α] [DecidableEq α] (b : Buffer α) (v : α) : Buffer α :=
  let value := if v = 0 then 0 else v
  forRange b.a.length (fun i t => { t with a := writeAt t.a i value }) b

/-- The method `sample(u, v)`: bilinear interpolation between the four wrapped cells
around `(u * width, v * height)`. -/
def sample [LinearOrderedField α] [FloorRing α] (b : Buffer α) (u v : α) : α :=
  let x := u * (b.width : α)
  let y := v * (b.height : α)
  let loX := ⌊x⌋
  let hiX := loX + 1
  let loY := ⌊y⌋
  let hiY := loY + 1
  let v00 := b.get loX loY
  let v01 := b.get loX hiY
  let v10 := b.get hiX loY
  let v11 := b.get hiX hiY
  lerp (lerp v00 v10 (x - (loX : α))) (lerp v01 v11 (x - (loX : α))) (y - (loY : α))

end Buffer

/-! ## `class DoubleBuffer extends Buffer` -/

/-- The class `DoubleBuffer`: a `Buffer` with a second surface `b`. -/
structure DoubleBuffer (α : Type) extends Buffer α where
  b : List α

namespace DoubleBuffer

/-- The constructor of `DoubleBuffer`: `super(width, height)` and
`this.b = new Float32Array(this.a.length)`. -/
def new [Zero α] (width height : Int) : Except String (DoubleBuffer α) := do
  let base ← Buffer.new width height
  let b ← float32Array (base.a.length : Int)
  pure { toBuffer := base, b := b }

/-- The method `swap()`: `const t = this.a; this.a = this.b; this.b = t;`. -/
def swap (d : DoubleBuffer α) : DoubleBuffer α :=
  let t := d.a
  { d with a := d.b, b := t }

/-- The method `out(x, y, v) { return this.b[this.index(x, y)] = v; }`. -/
def out (d : DoubleBuffer α) (x y : Int) (v : α) : DoubleBuffer α :=
  { d with b := writeAt d.b (d.index x y) v }

/-- The inherited method `set` on a `DoubleBuffer`. -/
def set (d : DoubleBuffer α) (x y : Int) (v : α) : DoubleBuffer α :=
  { d with toBuffer := d.toBuffer.set x y v }

/-- The inherited method `clear` on a `DoubleBuffer`: only the surface `a` is filled. -/
def clear [Zero α] [DecidableEq α] (d : DoubleBuffer α) (v : α) : DoubleBuffer α :=
  { d with toBuffer := d.toBuffer.clear v }

end DoubleBuffer

/-! ## `class Simulation` (2D) -/

/-- The fields of the global `config` object that the solver reads. -/
structure Config (α : Type) where
  pressure : α
  vorticity : α

/-- The fields of `class Simulation`.  The field `dt` is assigned by `step`. -/
structure Simulation (α : Type) where
  width : Int
  height : Int
  velocityX : DoubleBuffer α
  velocityY : DoubleBuffer α
  curl : Buffer α
  divergence : Buffer α
  pressure : DoubleBuffer α
  iterations : Nat
  curlFactor : α
  dt : α

namespace Simulation

section stages

variable [LinearOrderedField α] [FloorRing α]

/-- The constructor `constructor(width, height)` of `Simulation`; `dt` is not assigned
before the first `step`, the model starts it at `0`. -/
def new (width height : Int) : Except String (Simulation α) := do
  let velocityX ← DoubleBuffer.new width height
  let velocityY ← DoubleBuffer.new width height
  let curl ← Buffer.new width height
  let divergence ← Buffer.new width height
  let pressure ← DoubleBuffer.new width height
  pure { width := width, height := height, velocityX := velocityX, velocityY := velocityY,
         curl := curl, divergence := divergence, pressure := pressure,
         iterations := 10, curlFactor := 1 / 10, dt := 0 }

/-- The method `stepCurl()`. -/
def stepCurl (s : Simulation α) : Simulation α :=
  sweep s.width s.height (fun i j t =>
    let w := -t.velocityY.get (i - 1) j
    let e := t.velocityY.get (i + 1) j
    let n := t.velocityX.get i (j - 1)
    let s := -t.velocityX.get i (j + 1)
    let curl := (1 / 2) * (e + w + n + s)
    { t with curl := t.curl.set i j curl }) s

/-- The method `stepVorticity()`.  `Math.sqrt` is the parameter `sqrt`; the global
`config` is the parameter `config`.  `length || 0.0001` replaces a zero length. -/
def stepVorticity (sqrt : α → α) (config : Config α) (s : Simulation α) : Simulation α :=
  let curlFactor := config.vorticity
  let r := sweep s.width s.height (fun i j t =>
    let w := t.curl.get (i - 1) j
    let e := t.curl.get (i + 1) j
    let n := t.curl.get i (j - 1)
    let s := t.curl.get i (j + 1)
    let forceX := |s| - |n|
    let forceY := |e| - |w|
    let length :=
      if sqrt (forceX * forceX + forceY * forceY) = 0 then 1 / 10000
      else sqrt (forceX * forceX + forceY * forceY)
    let forceX := forceX / length
    let forceY := forceY / length
    let c := t.curl.get i j
    let forceX := forceX * (-curlFactor * c)
    let forceY := forceY * (curlFactor * c)
    let velocityX := t.velocityX.get i j
    let velocityY := t.velocityY.get i j
    let t := { t with velocityX := t.velocityX.out i j (velocityX + forceX * t.dt) }
    { t with velocityY := t.velocityY.out i j (velocityY + forceY * t.dt) }) s
  let r := { r with velocityX := r.velocityX.swap }
  { r with velocityY := r.velocityY.swap }

/-- The method `stepDivergence()`. -/
def stepDivergence (s : Simulation α) : Simulation α :=
  sweep s.width s.height (fun i j t =>
    let w := -t.velocityX.get (i - 1) j
    let e := t.velocityX.get (i + 1) j
    let n := -t.velocityY.get i (j - 1)
    let s := t.velocityY.get i (j + 1)
    let divergence := (1 / 2) * (e + w + n + s)
    { t with divergence := t.divergence.set i j divergence }) s

/-- One pass of the outer loop of `stepPressure()`: the sweep over the cells and the
`this.pressure.swap()` that ends the iteration. -/
def pressureIteration (s : Simulation α) : Simulation α :=
  let r := sweep s.width s.height (fun i j t =>
    let w := t.pressure.get (i - 1) j
    let e := t.pressure.get (i + 1) j
    let n := t.pressure.get i (j - 1)
    let s := t.pressure.get i (j + 1)
    let divergence := t.divergence.get i j
    let pressure := (e + w + n + s - divergence) / 4
    { t with pressure := t.pressure.out i j pressure }) s
  { r with pressure := r.pressure.swap }

/-- The method `stepPressure()`: `clear(config.pressure)`, `this.iterations` passes, and
the final `this.pressure.swap()` ("Swap back after the last iteration."). -/
def stepPressure (config : Config α) (s : Simulation α) : Simulation α :=
  let s := { s with pressure := s.pressure.clear config.pressure }
  let s := forRange (s.iterations : Int) (fun _ t => pressureIteration t) s
  { s with pressure := s.pressure.swap }

/-- The method `stepSubtractGradient()`. -/
def stepSubtractGradient (s : Simulation α) : Simulation α :=
  let r := sweep s.width s.height (fun i j t =>
    let w := t.pressure.get (i - 1) j
    let e := t.pressure.get (i + 1) j
    let n := t.pressure.get i (j - 1)
    let s := t.pressure.get i (j + 1)
    let x0 := t.velocityX.get i j
    let y0 := t.velocityY.get i j
    let x := x0 - e + w
    let y := y0 - s + n
    let t := { t with velocityX := t.velocityX.out i j x }
    { t with velocityY := t.velocityY.out i j y }) s
  let r := { r with velocityX := r.velocityX.swap }
  { r with velocityY := r.velocityY.swap }

/-- The method `stepAdvection()`, with `const decay = 0.99;`. -/
def stepAdvection (s : Simulation α) : Simulation α :=
  let decay : α := 99 / 100
  let r := sweep s.width s.height (fun i j t =>
    let velocityX := t.velocityX.get i j
    let velocityY := t.velocityY.get i j
    let u := ((i : α) - velocityX * t.dt) / (t.width : α)
    let v := ((j : α) - velocityY * t.dt) / (t.height : α)
    let t := { t with velocityX := t.velocityX.out i j (t.velocityX.sample u v * decay) }
    { t with velocityY := t.velocityY.out i j (t.velocityY.sample u v * decay) }) s
  let r := { r with velocityX := r.velocityX.swap }
  { r with velocityY := r.velocityY.swap }

/-- The method `step(dt)`: the six stages in their fixed order. -/
def step (sqrt : α → α) (config : Config α) (dt : α) (s : Simulation α) : Simulation α :=
  let s := { s with dt := dt }
  let s := s.stepCurl
  let s := s.stepVorticity sqrt config
  let s := s.stepDivergence
  let s := s.stepPressure config
  let s := s.stepSubtractGradient
  s.stepAdvection

end stages

end Simulation

/-! ## Impulse injection: `advance` of `main.js` -/

/-- The built-in `Math.round(x)`: the integer nearest to `x`, a tie rounding up, that is
`⌊x + 1/2⌋`. -/
def mathRound [LinearOrderedField α] [FloorRing α] (x : α) : Int := ⌊x + 1 / 2⌋

/-- The loop `for (let i = lo; i <= hi; i++) body(i)` as a state transformer. -/
def forInclusive {σ : Type} (lo hi : Int) (body : Int → σ → σ) (s : σ) : σ :=
  (List.range (hi + 1 - lo).toNat).foldl (fun t (k : Nat) => body (lo + (k : Int)) t) s

/-- The method `setNearest(u, v, value)` of `Buffer`: `x = Math.round(u * this.width)`,
`y = Math.round(v * this.height)`, then `this.set(x, y, value)`. -/
def Buffer.setNearest [LinearOrderedField α] [FloorRing α] (b : Buffer α) (u v value : α) :
    Buffer α :=
  let x := mathRound (u * (b.width : α))
  let y := mathRound (v * (b.height : α))
  b.set x y value

/-- The inherited method `setNearest` on a `DoubleBuffer`. -/
def DoubleBuffer.setNearest [LinearOrderedField α] [FloorRing α] (d : DoubleBuffer α)
    (u v value : α) : DoubleBuffer α :=
  { d with toBuffer := d.toBuffer.setNearest u v value }

/-- An entry `{u, v, du, dv}` of the global queue `interactions`. -/
structure Interaction (α : Type) where
  u : α
  v : α
  du : α
  dv : α

/-- The globals that `advance` reads and writes: `simulation` and `interactions`. -/
structure World (α : Type) where
  simulation : Simulation α
  interactions : List (Interaction α)

/-- The body of the two nested loops of `advance`, for the offsets `i` and `j`:
`uu = i / simulation.width`, `vv = j / simulation.height`, then `setNearest` on
`velocityX` and on `velocityY`. -/
def impulseBody [LinearOrderedField α] [FloorRing α] (u v vx vy : α) (i j : Int)
    (r : Simulation α) : Simulation α :=
  let uu := (i : α) / (r.width : α)
  let vv := (j : α) / (r.height : α)
  let r := { r with velocityX := r.velocityX.setNearest (u + uu) (v + vv) vx }
  { r with velocityY := r.velocityY.setNearest (u + uu) (v + vv) vy }

/-- The block `if (interactions.length > 0) { ... }` of `advance`: the first queued
interaction is written over the cells around its position, then the queue is emptied.
`Math.sqrt` is the parameter `sqrt`; `len || 1` replaces a zero length. -/
def inject [LinearOrderedField α] [FloorRing α] (sqrt : α → α) (w : World α) : World α :=
  match w.interactions with
  | [] => w
  | first :: _ =>
    let u := first.u
    let v := first.v
    let du := first.du
    let dv := first.dv
    let len := if sqrt (du * du + dv * dv) = 0 then 1 else sqrt (du * du + dv * dv)
    let vx := du / len * 40
    let vy := dv / len * 40
    let simulation := forInclusive (-3) 3 (fun i t => forInclusive (-3) 3 (fun j r =>
      impulseBody u v vx vy i j r) t) w.simulation
    { simulation := simulation, interactions := [] }

/-- The function `advance`: the injection block, then `simulation.step(0.1)`.  The calls
`visualizer.step` and `window.requestAnimationFrame` (drawing and scheduling of the next
frame) do not touch the simulation and are left out. -/
def advance [LinearOrderedField α] [FloorRing α] (sqrt : α → α) (config : Config α)
    (w : World α) : World α :=
  let w := inject sqrt w
  { w with simulation := w.simulation.step sqrt config (1 / 10) }

/-! ## Well-formed objects

The constructors give every surface `width * height` cells; no method changes an extent
or the length of a surface. -/

/-- A `Buffer` as the constructor builds it from positive extents. -/
def Buffer.WF (b : Buffer α) : Prop :=
  0 < b.width ∧ 0 < b.height ∧ (b.a.length : Int) = b.width * b.height

/-- A `DoubleBuffer` as the constructor builds it from positive extents. -/
def DoubleBuffer.WF (d : DoubleBuffer α) : Prop :=
  d.toBuffer.WF ∧ (d.b.length : Int) = d.width * d.height

/-- A `Simulation` as the constructor builds it from positive extents: the five grids
are well formed and share the extents of the simulation. -/
def Simulation.WF (s : Simulation α) : Prop :=
  (s.velocityX.WF ∧ s.velocityX.width = s.width ∧ s.velocityX.height = s.height) ∧
  (s.velocityY.WF ∧ s.velocityY.width = s.width ∧ s.velocityY.height = s.height) ∧
  (s.curl.WF ∧ s.curl.width = s.width ∧ s.curl.height = s.height) ∧
  (s.divergence.WF ∧ s.divergence.width = s.width ∧ s.divergence.height = s.height) ∧
  (s.pressure.WF ∧ s.pressure.width = s.width ∧ s.pressure.height = s.height)

end Fluids

/-! ## `class Buffer` of `main3.js` (3D) -/

namespace Fluids3

open Fluids (mod lerp readAt writeAt float32Array)

variable {α : Type}

/-- The fields of the 3D `class Buffer`. -/
structure Buffer (α : Type) where
  width : Int
  height : Int
  depth : Int
  a : List α

namespace Buffer

/-- The constructor `constructor(width, height, depth)`. -/
def new [Zero α] (width height depth : Int) : Except String (Buffer α) := do
  let size := width * height * depth
  let a ← float32Array size
  pure { width := width, height := height, depth := depth, a := a }

/-- The method `index(x, y, z)`:
`return (x + y * this.width + z * this.width * this.height);`. -/
def index (b : Buffer α) (x y z : Int) : Int :=
  x + y * b.width + z * b.width * b.height

/-- The method `wrap(x, y, z)`: `mod(x, this.width) + mod(y, this.height) * this.width +
mod(z, this.depth) * this.width * this.height`. -/
def wrap (b : Buffer α) (x y z : Int) : Int :=
  mod x b.width + mod y b.height * b.width + mod z b.depth * b.width * b.height

/-- The read `this.a[this.wrap(x, y, z)]` of `get`, with `none` for `undefined`. -/
def get? (b : Buffer α) (x y z : Int) : Option α := readAt b.a (b.wrap x y z)

/-- The method `get(x, y, z)` as a number (`0` stands in for `undefined`). -/
def get [Zero α] (b : Buffer α) (x y z : Int) : α := (b.get? x y z).getD 0

/-- The method `set(x, y, z, v) { this.a[this.index(x, y, z)] = v; }`. -/
def set (b : Buffer α) (x y z : Int) (v : α) : Buffer α :=
  { b with a := writeAt b.a (b.index x y z) v }

/-- The method `sample(u, v, w)`: trilinear interpolation between the eight wrapped
cells around `(u * width, v * height, w * depth)`. -/
def sample [LinearOrderedField α] [FloorRing α] (b : Buffer α) (u v w : α) : α :=
  let x := u * (b.width : α)
  let y := v * (b.height : α)
  let z := w * (b.depth : α)
  let loX := ⌊x⌋
  let hiX := loX + 1
  let loY := ⌊y⌋
  let hiY := loY + 1
  let loZ := ⌊z⌋
  let hiZ := loZ + 1
  let a00 := b.get loX loY loZ
  let a01 := b.get loX hiY loZ
  let a10 := b.get hiX loY loZ
  let a11 := b.get hiX hiY loZ
  let a := lerp (lerp a00 a10 (x - (loX : α))) (lerp a01 a11 (x - (loX : α))) (y - (loY : α))
  let b00 := b.get loX loY hiZ
  let b01 := b.get loX hiY hiZ
  let b10 := b.get hiX loY hiZ
  let b11 := b.get hiX hiY hiZ
  let b := lerp (lerp b00 b10 (x - (loX : α))) (lerp b01 b11 (x - (loX : α))) (y - (loY : α))
  lerp a b (z - (loZ : α))

/-- A 3D `Buffer` as the constructor builds it from positive extents. -/
def WF (b : Buffer α) : Prop :=
  0 < b.width ∧ 0 < b.height ∧ 0 < b.depth ∧
    (b.a.length : Int) = b.width * b.height * b.depth

/-- The method `clear(v)` of the 3D `Buffer`, the same loop as in `main.js`. -/
def clear [Zero α] [DecidableEq α] (b : Buffer α) (v : α) : Buffer α :=
  let value := if v = 0 then 0 else v
  Fluids.forRange b.a.length (fun i t => { t with a := writeAt t.a i value }) b

end Buffer

/-- The 3D `class DoubleBuffer extends Buffer`. -/
structure DoubleBuffer (α : Type) extends Buffer α where
  b : List α

namespace DoubleBuffer

/-- The method `swap()`. -/
def swap (d : DoubleBuffer α) : DoubleBuffer α :=
  let t := d.a
  { d with a := d.b, b := t }

/-- The method `out(x, y, z, v) { return this.b[this.index(x, y, z)] = v; }`. -/
def out (d : DoubleBuffer α) (x y z : Int) (v : α) : DoubleBuffer α :=
  { d with b := writeAt d.b (d.index x y z) v }

/-- The inherited method `clear` on a 3D `DoubleBuffer`. -/
def clear [Zero α] [DecidableEq α] (d : DoubleBuffer α) (v : α) : DoubleBuffer α :=
  { d with toBuffer := d.toBuffer.clear v }

end DoubleBuffer

/-- The fields of the 3D `class Simulation`. -/
structure Simulation (α : Type) where
  width : Int
  height : Int
  depth : Int
  velocityX : DoubleBuffer α
  velocityY : DoubleBuffer α
  velocityZ : DoubleBuffer α
  curl : Buffer α
  divergence : Buffer α
  pressure : DoubleBuffer α
  iterations : Nat
  curlFactor : α
  dt : α

/-- The three nested loops over `i < w`, `j < h`, `k < d` of the 3D stages. -/
def sweep3 {σ : Type} (w h d : Int) (body : Int → Int → Int → σ → σ) (s : σ) : σ :=
  Fluids.forRange w (fun i t => Fluids.forRange h (fun j r =>
    Fluids.forRange d (fun k q => body i j k q) r) t) s

namespace Simulation

variable [LinearOrderedField α]

/-- One pass of the outer loop of the 3D `stepPressure()`: the sweep over the cells and
the `this.pressure.swap()` that ends the iteration. -/
def pressureIteration (s : Simulation α) : Simulation α :=
  let r := sweep3 s.width s.height s.depth (fun i j k t =>
    let w := t.pressure.get (i - 1) j k
    let e := t.pressure.get (i + 1) j k
    let n := t.pressure.get i (j - 1) k
    let s := t.pressure.get i (j + 1) k
    let u := t.pressure.get i j (k - 1)
    let d := t.pressure.get i j (k + 1)
    let divergence := t.divergence.get i j k
    let pressure := (e + w + n + s + u + d - divergence) / 8
    { t with pressure := t.pressure.out i j k pressure }) s
  { r with pressure := r.pressure.swap }

/-- The 3D method `stepPressure()`. -/
def stepPressure (config : Fluids.Config α) (s : Simulation α) : Simulation α :=
  let s := { s with pressure := s.pressure.clear config.pressure }
  let s := Fluids.forRange (s.iterations : Int) (fun _ t => pressureIteration t) s
  { s with pressure := s.pressure.swap }

end Simulation

end Fluids3

/-! ## Auxiliary definitions for the statements -/

namespace Fluids

variable {α : Type}

/-- The cells of a `w` by `h` grid, in the order in which a `sweep` visits them. -/
def cells (w h : Int) : List (Int × Int) :=
  (List.range w.toNat).flatMap fun (i : Nat) =>
    (List.range h.toNat).map fun (j : Nat) => ((i : Int), (j : Int))

/-- The surface `a` after the writes `a[i + j * w] = g i j`, for the cells `(i, j)` of
`cs` in turn. -/
def fill (w : Int) (g : Int → Int → α) (cs : List (Int × Int)) (a : List α) : List α :=
  cs.foldl (fun r c => writeAt r (c.1 + c.2 * w) (g c.1 c.2)) a

end Fluids

namespace Fluids

namespace Simulation

variable {α : Type} [LinearOrderedField α] [FloorRing α]

/-- The value that the body of `stepCurl` writes for the cell `(i, j)`. -/
def curlCell (t : Simulation α) (i j : Int) : α :=
  let w := -t.velocityY.get (i - 1) j
  let e := t.velocityY.get (i + 1) j
  let n := t.velocityX.get i (j - 1)
  let s := -t.velocityX.get i (j + 1)
  (1 / 2) * (e + w + n + s)

/-- The value that the body of `stepDivergence` writes for the cell `(i, j)`. -/
def divergenceCell (t : Simulation α) (i j : Int) : α :=
  let w := -t.velocityX.get (i - 1) j
  let e := t.velocityX.get (i + 1) j
  let n := -t.velocityY.get i (j - 1)
  let s := t.velocityY.get i (j + 1)
  (1 / 2) * (e + w + n + s)

/-- The value that the body of a pass of `stepPressure` writes for the cell `(i, j)`. -/
def pressureCell (t : Simulation α) (i j : Int) : α :=
  let w := t.pressure.get (i - 1) j
  let e := t.pressure.get (i + 1) j
  let n := t.pressure.get i (j - 1)
  let s := t.pressure.get i (j + 1)
  let divergence := t.divergence.get i j
  (e + w + n + s - divergence) / 4

/-- The value that the body of `stepVorticity` writes into `velocityX` for `(i, j)`. -/
def vorticityCellX (sqrt : α → α) (config : Config α) (t : Simulation α) (i j : Int) : α :=
  let curlFactor := config.vorticity
  let w := t.curl.get (i - 1) j
  let e := t.curl.get (i + 1) j
  let n := t.curl.get i (j - 1)
  let s := t.curl.get i (j + 1)
  let forceX := |s| - |n|
  let forceY := |e| - |w|
  let length :=
    if sqrt (forceX * forceX + forceY * forceY) = 0 then 1 / 10000
    else sqrt (forceX * forceX + forceY * forceY)
  let forceX := forceX / length
  let c := t.curl.get i j
  let forceX := forceX * (-curlFactor * c)
  let velocityX := t.velocityX.get i j
  velocityX + forceX * t.dt

/-- The value that the body of `stepVorticity` writes into `velocityY` for `(i, j)`. -/
def vorticityCellY (sqrt : α → α) (config : Config α) (t : Simulation α) (i j : Int) : α :=
  let curlFactor := config.vorticity
  let w := t.curl.get (i - 1) j
  let e := t.curl.get (i + 1) j
  let n := t.curl.get i (j - 1)
  let s := t.curl.get i (j + 1)
  let forceX := |s| - |n|
  let forceY := |e| - |w|
  let length :=
    if sqrt (forceX * forceX + forceY * forceY) = 0 then 1 / 10000
    else sqrt (forceX * forceX + forceY * forceY)
  let forceY := forceY / length
  let c := t.curl.get i j
  let forceY := forceY * (curlFactor * c)
  let velocityY := t.velocityY.get i j
  velocityY + forceY * t.dt

/-- The local `forceX` of the body of `stepVorticity` before it is normalised:
`Math.abs(s) - Math.abs(n)` with `s = curl(i, j + 1)` and `n = curl(i, j - 1)`. -/
def forceX (t : Simulation α) (i j : Int) : α :=
  let n := t.curl.get i (j - 1)
  let s := t.curl.get i (j + 1)
  |s| - |n|

/-- The local `forceY` of the body of `stepVorticity` before it is normalised:
`Math.abs(e) - Math.abs(w)` with `e = curl(i + 1, j)` and `w = curl(i - 1, j)`. -/
def forceY (t : Simulation α) (i j : Int) : α :=
  let w := t.curl.get (i - 1) j
  let e := t.curl.get (i + 1) j
  |e| - |w|

/-- The local `length` of the body of `stepVorticity`:
`Math.sqrt(forceX * forceX + forceY * forceY) || 0.0001`. -/
def forceLength (sqrt : α → α) (t : Simulation α) (i j : Int) : α :=
  if sqrt (t.forceX i j * t.forceX i j + t.forceY i j * t.forceY i j) = 0 then 1 / 10000
  else sqrt (t.forceX i j * t.forceX i j + t.forceY i j * t.forceY i j)

/-- The `velocityX` that the sentence of the spec on vorticity confinement gives for the
cell `(i, j)`: the old value plus `dt * (-f * c * gx)`, where `gx` is the x component
`|curl(i+1, j)| - |curl(i-1, j)|` of the central-difference gradient of `|curl|`,
divided by the length of that gradient (by `0.0001` when the length is 0). -/
def confinementSpecX (sqrt : α → α) (config : Config α) (t : Simulation α) (i j : Int) : α :=
  let gx := |t.curl.get (i + 1) j| - |t.curl.get (i - 1) j|
  let gy := |t.curl.get i (j + 1)| - |t.curl.get i (j - 1)|
  let len := if sqrt (gx * gx + gy * gy) = 0 then 1 / 10000 else sqrt (gx * gx + gy * gy)
  t.velocityX.get i j + t.dt * (-config.vorticity * t.curl.get i j * (gx / len))

/-- The `velocityY` that the sentence of the spec on vorticity confinement gives for the
cell `(i, j)`: the old value plus `dt * (+f * c * gy)`, where `gy` is the y component
`|curl(i, j+1)| - |curl(i, j-1)|` of the same normalised gradient. -/
def confinementSpecY (sqrt : α → α) (config : Config α) (t : Simulation α) (i j : Int) : α :=
  let gx := |t.curl.get (i + 1) j| - |t.curl.get (i - 1) j|
  let gy := |t.curl.get i (j + 1)| - |t.curl.get i (j - 1)|
  let len := if sqrt (gx * gx + gy * gy) = 0 then 1 / 10000 else sqrt (gx * gx + gy * gy)
  t.velocityY.get i j + t.dt * (config.vorticity * t.curl.get i j * (gy / len))

/-- The value that the body of `stepSubtractGradient` writes into `velocityX`. -/
def gradientCellX (t : Simulation α) (i j : Int) : α :=
  let w := t.pressure.get (i - 1) j
  let e := t.pressure.get (i + 1) j
  let x0 := t.velocityX.get i j
  x0 - e + w

/-- The value that the body of `stepSubtractGradient` writes into `velocityY`. -/
def gradientCellY (t : Simulation α) (i j : Int) : α :=
  let n := t.pressure.get i (j - 1)
  let s := t.pressure.get i (j + 1)
  let y0 := t.velocityY.get i j
  y0 - s + n

/-- The value that the body of `stepAdvection` writes into `velocityX`. -/
def advectionCellX (t : Simulation α) (i j : Int) : α :=
  let decay : α := 99 / 100
  let velocityX := t.velocityX.get i j
  let velocityY := t.velocityY.get i j
  let u := ((i : α) - velocityX * t.dt) / (t.width : α)
  let v := ((j : α) - velocityY * t.dt) / (t.height : α)
  t.velocityX.sample u v * decay

/-- The value that the body of `stepAdvection` writes into `velocityY`. -/
def advectionCellY (t : Simulation α) (i j : Int) : α :=
  let decay : α := 99 / 100
  let velocityX := t.velocityX.get i j
  let velocityY := t.velocityY.get i j
  let u := ((i : α) - velocityX * t.dt) / (t.width : α)
  let v := ((j : α) - velocityY * t.dt) / (t.height : α)
  t.velocityY.sample u v * decay

/-- The state after a stage has written `x` and `y` on the hidden surfaces of the two
velocity components and has swapped both. -/
def withVelocity (s : Simulation α) (x y : List α) : Simulation α :=
  { s with
    velocityX := { width := s.velocityX.width, height := s.velocityX.height,
                   a := x, b := s.velocityX.a }
    velocityY := { width := s.velocityY.width, height := s.velocityY.height,
                   a := y, b := s.velocityY.a } }

/-- The simulation that `new Simulation(w, h)` builds (every surface zero, curl factor
0.1), with `iterations` set to `n` and the visible velocity surfaces seeded with `vx`
and `vy`: the starting state of the concrete scenarios. -/
def seeded (w h : Int) (vx vy : List α) (n : Nat) : Simulation α :=
  { width := w, height := h,
    velocityX := { width := w, height := h, a := vx, b := List.replicate (w * h).toNat 0 },
    velocityY := { width := w, height := h, a := vy, b := List.replicate (w * h).toNat 0 },
    curl := { width := w, height := h, a := List.replicate (w * h).toNat 0 },
    divergence := { width := w, height := h, a := List.replicate (w * h).toNat 0 },
    pressure := { width := w, height := h, a := List.replicate (w * h).toNat 0,
                  b := List.replicate (w * h).toNat 0 },
    iterations := n, curlFactor := 1 / 10, dt := 0 }

/-- The projection of the claims: `stepDivergence`, `stepPressure`, then
`stepSubtractGradient`, as `step` chains them. -/
def project (config : Config α) (s : Simulation α) : Simulation α :=
  ((s.stepDivergence).stepPressure config).stepSubtractGradient

/-- The sum over all cells of `|divergence|`, the divergence being recomputed from the
velocity with the formula of `stepDivergence`. -/
def divergenceSum (s : Simulation α) : α :=
  ((cells s.width s.height).map fun c => |s.stepDivergence.divergence.get c.1 c.2|).sum

/-- The sum over all cells of `velocityX^2 + velocityY^2`. -/
def energy (s : Simulation α) : α :=
  ((cells s.width s.height).map fun c =>
    s.velocityX.get c.1 c.2 ^ 2 + s.velocityY.get c.1 c.2 ^ 2).sum

end Simulation

/-- The largest `|get(i, j)|` over the cells of a grid (0 for a grid without cells). -/
def Buffer.maxAbs [LinearOrderedField α] (b : Buffer α) : α :=
  ((cells b.width b.height).map fun c => |b.get c.1 c.2|).foldr max 0

/-- The Manhattan distance between the cells `c` and `d` on the torus of extents `w` and
`h`: along each axis the shorter of the two ways round. -/
def torusDist (w h : Int) (c d : Int × Int) : Int :=
  min ((d.1 - c.1) % w) ((c.1 - d.1) % w) + min ((d.2 - c.2) % h) ((c.2 - d.2) % h)

/-- The offsets `(i, j)`, `-3 ≤ i, j ≤ 3`, in the order in which the loops of `advance`
visit them. -/
def impulseCells : List (Int × Int) :=
  (List.range 7).flatMap fun (a : Nat) =>
    (List.range 7).map fun (b : Nat) => (-3 + (a : Int), -3 + (b : Int))

/-- The Jacobi update `J` of the spec, for a divergence `d` and a pressure `p` given as
functions on the integer coordinates:
`J(p)(i, j) = (p(i+1, j) + p(i-1, j) + p(i, j+1) + p(i, j-1) - d(i, j)) / 4`. -/
def jacobi [Field α] (d p : Int → Int → α) : Int → Int → α :=
  fun i j => (p (i + 1) j + p (i - 1) j + p i (j + 1) + p i (j - 1) - d i j) / 4

end Fluids

/-! ## The arithmetic of the code: doubles and `Float32Array`

The definitions above compute in exact arithmetic.  The namespace `Rounded` follows the
same source text with the arithmetic of the code: numbers are doubles, so every `+`, `-`,
`*`, `/` is rounded to 53 bits, and the surfaces are `Float32Array`s, so every store is
rounded to 24 bits.  The finite floats are rationals; overflow, subnormal numbers, the
sign of zero and `NaN` are left out. -/

namespace Fluids

namespace Rounded

/-- The number of halvings that bring `n` below 2, at most `k` of them. -/
def halvings : Nat → Nat → Nat
  | 0, _ => 0
  | k + 1, n => if n < 2 then 0 else halvings k (n / 2) + 1

/-- The position of the leading bit of `n`: `2^(log2 n) ≤ n < 2^(log2 n + 1)` for
`0 < n < 2^4096`, far beyond the range of the doubles. -/
def log2 (n : Nat) : Nat := halvings 4096 n

/-- The exponent `e` of `x ≠ 0`: `2^e ≤ |x| < 2^(e+1)`. -/
def exponent (x : ℚ) : Int :=
  let e : Int := (log2 x.num.natAbs : Int) - (log2 x.den : Int)
  if (2 : ℚ) ^ e ≤ |x| then e else e - 1

/-- Rounding to the nearest number with a significand of `p` bits, a tie going to the
even significand: the rounding of IEEE 754 arithmetic. -/
def roundTo (p : Nat) (x : ℚ) : ℚ :=
  if x = 0 then 0
  else
    let q : ℚ := (2 : ℚ) ^ (exponent x - (p : Int) + 1)
    let y := x / q
    let f := ⌊y⌋
    let r := y - (f : ℚ)
    let m : Int :=
      if r < 1 / 2 then f else if 1 / 2 < r then f + 1 else if f % 2 = 0 then f else f + 1
    (m : ℚ) * q

/-- The double nearest to `x`: the value of a numeric literal and of every arithmetic
result. -/
def double (x : ℚ) : ℚ := roundTo 53 x

/-- The single-precision number nearest to `x` (`Math.fround`): what a store into a
`Float32Array` keeps. -/
def fround (x : ℚ) : ℚ := roundTo 24 x

/-- The operator `+` of two numbers. -/
def add (a b : ℚ) : ℚ := double (a + b)

/-- The operator `-` of two numbers. -/
def sub (a b : ℚ) : ℚ := double (a - b)

/-- The operator `*` of two numbers. -/
def mul (a b : ℚ) : ℚ := double (a * b)

/-- The operator `/` of two numbers. -/
def div (a b : ℚ) : ℚ := double (a / b)

/-- The largest `r` with `r * r ≤ n` among the numbers below `2^k` that extend `r` by
lower bits. -/
def sqrtBits (n : Nat) : Nat → Nat → Nat
  | 0, r => r
  | k + 1, r => if (r + 2 ^ k) * (r + 2 ^ k) ≤ n then sqrtBits n k (r + 2 ^ k) else sqrtBits n k r

/-- The built-in `Math.sqrt` on a number `x ≥ 0`: the double nearest to the square root.
The root of `x * 4^s` is taken to the integer below, with `s` large enough for that
integer to have more than 55 bits; when the root is not exact, half a unit is added, which
rounds the same way as the root itself. -/
def sqrt (x : ℚ) : ℚ :=
  if x ≤ 0 then 0
  else
    let s : Nat := 56 + log2 x.den
    let y : ℚ := x * (4 : ℚ) ^ s
    let n : Nat := ⌊y⌋.toNat
    let m : Nat := sqrtBits n (log2 n / 2 + 1) 0
    let exact : Bool := decide ((m : ℚ) * (m : ℚ) = y)
    double ((if exact then (m : ℚ) else (m : ℚ) + 1 / 2) / (2 : ℚ) ^ s)

/-- The helper `lerp` on doubles. -/
def lerp (a b s : ℚ) : ℚ := add (mul a (sub 1 s)) (mul b s)

/-- Typed-array write `a[i] = v` on a `Float32Array`. -/
def store (a : List ℚ) (i : Int) (v : ℚ) : List ℚ := writeAt a i (fround v)

namespace Buffer

/-- The method `set(x, y, v)` on a `Float32Array` surface. -/
def set (b : Buffer ℚ) (x y : Int) (v : ℚ) : Buffer ℚ :=
  { b with a := store b.a (b.index x y) v }

/-- The method `clear(v)` on a `Float32Array` surface. -/
def clear (b : Buffer ℚ) (v : ℚ) : Buffer ℚ :=
  let value := if v = 0 then 0 else v
  forRange b.a.length (fun i t => { t with a := store t.a i value }) b

/-- The method `sample(u, v)` on doubles. -/
def sample (b : Buffer ℚ) (u v : ℚ) : ℚ :=
  let x := mul u (b.width : ℚ)
  let y := mul v (b.height : ℚ)
  let loX := ⌊x⌋
  let hiX := loX + 1
  let loY := ⌊y⌋
  let hiY := loY + 1
  let v00 := b.get loX loY
  let v01 := b.get loX hiY
  let v10 := b.get hiX loY
  let v11 := b.get hiX hiY
  lerp (lerp v00 v10 (sub x (loX : ℚ))) (lerp v01 v11 (sub x (loX : ℚ))) (sub y (loY : ℚ))

end Buffer

namespace DoubleBuffer

/-- The method `out(x, y, v)` on a `Float32Array` surface. -/
def out (d : DoubleBuffer ℚ) (x y : Int) (v : ℚ) : DoubleBuffer ℚ :=
  { d with b := store d.b (d.index x y) v }

/-- The inherited method `clear` on a `DoubleBuffer`. -/
def clear (d : DoubleBuffer ℚ) (v : ℚ) : DoubleBuffer ℚ :=
  { d with toBuffer := Buffer.clear d.toBuffer v }

end DoubleBuffer

namespace Simulation

/-- The method `stepCurl()` in the arithmetic of the code. -/
def stepCurl (s : Simulation ℚ) : Simulation ℚ :=
  sweep s.width s.height (fun i j t =>
    let w := -t.velocityY.get (i - 1) j
    let e := t.velocityY.get (i + 1) j
    let n := t.velocityX.get i (j - 1)
    let s := -t.velocityX.get i (j + 1)
    let curl := mul (1 / 2) (add (add (add e w) n) s)
    { t with curl := Buffer.set t.curl i j curl }) s

/-- The method `stepVorticity()` in the arithmetic of the code; `0.0001` is the double
nearest to `1/10000`. -/
def stepVorticity (config : Config ℚ) (s : Simulation ℚ) : Simulation ℚ :=
  let curlFactor := config.vorticity
  let r := sweep s.width s.height (fun i j t =>
    let w := t.curl.get (i - 1) j
    let e := t.curl.get (i + 1) j
    let n := t.curl.get i (j - 1)
    let s := t.curl.get i (j + 1)
    let forceX := sub |s| |n|
    let forceY := sub |e| |w|
    let length :=
      if sqrt (add (mul forceX forceX) (mul forceY forceY)) = 0 then double (1 / 10000)
      else sqrt (add (mul forceX forceX) (mul forceY forceY))
    let forceX := div forceX length
    let forceY := div forceY length
    let c := t.curl.get i j
    let forceX := mul forceX (mul (-curlFactor) c)
    let forceY := mul forceY (mul curlFactor c)
    let velocityX := t.velocityX.get i j
    let velocityY := t.velocityY.get i j
    let t := { t with
      velocityX := DoubleBuffer.out t.velocityX i j (add velocityX (mul forceX t.dt)) }
    { t with
      velocityY := DoubleBuffer.out t.velocityY i j (add velocityY (mul forceY t.dt)) }) s
  let r := { r with velocityX := r.velocityX.swap }
  { r with velocityY := r.velocityY.swap }

/-- The method `stepDivergence()` in the arithmetic of the code. -/
def stepDivergence (s : Simulation ℚ) : Simulation ℚ :=
  sweep s.width s.height (fun i j t =>
    let w := -t.velocityX.get (i - 1) j
    let e := t.velocityX.get (i + 1) j
    let n := -t.velocityY.get i (j - 1)
    let s := t.velocityY.get i (j + 1)
    let divergence := mul (1 / 2) (add (add (add e w) n) s)
    { t with divergence := Buffer.set t.divergence i j divergence }) s

/-- One pass of the loop of `stepPressure()` in the arithmetic of the code, with the
`swap` that ends it. -/
def pressureIteration (s : Simulation ℚ) : Simulation ℚ :=
  let r := sweep s.width s.height (fun i j t =>
    let w := t.pressure.get (i - 1) j
    let e := t.pressure.get (i + 1) j
    let n := t.pressure.get i (j - 1)
    let s := t.pressure.get i (j + 1)
    let divergence := t.divergence.get i j
    let pressure := div (sub (add (add (add e w) n) s) divergence) 4
    { t with pressure := DoubleBuffer.out t.pressure i j pressure }) s
  { r with pressure := r.pressure.swap }

/-- The method `stepPressure()` in the arithmetic of the code. -/
def stepPressure (config : Config ℚ) (s : Simulation ℚ) : Simulation ℚ :=
  let s := { s with pressure := DoubleBuffer.clear s.pressure config.pressure }
  let s := forRange (s.iterations : Int) (fun _ t => pressureIteration t) s
  { s with pressure := s.pressure.swap }

/-- The method `stepSubtractGradient()` in the arithmetic of the code: `x0 - e + w` is
`(x0 - e) + w`. -/
def stepSubtractGradient (s : Simulation ℚ) : Simulation ℚ :=
  let r := sweep s.width s.height (fun i j t =>
    let w := t.pressure.get (i - 1) j
    let e := t.pressure.get (i + 1) j
    let n := t.pressure.get i (j - 1)
    let s := t.pressure.get i (j + 1)
    let x0 := t.velocityX.get i j
    let y0 := t.velocityY.get i j
    let x := add (sub x0 e) w
    let y := add (sub y0 s) n
    let t := { t with velocityX := DoubleBuffer.out t.velocityX i j x }
    { t with velocityY := DoubleBuffer.out t.velocityY i j y }) s
  let r := { r with velocityX := r.velocityX.swap }
  { r with velocityY := r.velocityY.swap }

/-- The method `stepAdvection()` in the arithmetic of the code; `0.99` is the double
nearest to `99/100`. -/
def stepAdvection (s : Simulation ℚ) : Simulation ℚ :=
  let decay : ℚ := double (99 / 100)
  let r := sweep s.width s.height (fun i j t =>
    let velocityX := t.velocityX.get i j
    let velocityY := t.velocityY.get i j
    let u := div (sub (i : ℚ) (mul velocityX t.dt)) (t.width : ℚ)
    let v := div (sub (j : ℚ) (mul velocityY t.dt)) (t.height : ℚ)
    let t := { t with
      velocityX := DoubleBuffer.out t.velocityX i j (mul (Buffer.sample t.velocityX.toBuffer u v) decay) }
    { t with
      velocityY := DoubleBuffer.out t.velocityY i j (mul (Buffer.sample t.velocityY.toBuffer u v) decay) }) s
  let r := { r with velocityX := r.velocityX.swap }
  { r with velocityY := r.velocityY.swap }

/-- The method `step(dt)` in the arithmetic of the code. -/
def step (config : Config ℚ) (dt : ℚ) (s : Simulation ℚ) : Simulation ℚ :=
  let s := { s with dt := dt }
  let s := stepCurl s
  let s := stepVorticity config s
  let s := stepDivergence s
  let s := stepPressure config s
  let s := stepSubtractGradient s
  stepAdvection s

end Simulation

end Rounded

end Fluids

/-! # Theorems -/

namespace Fluids

variable {α : Type}

/-! ## Arithmetic of `mod` and of flat indices -/

theorem tmod_modEq (n d : Int) : n.tmod d ≡ n [ZMOD d] := by
  have h := Int.tmod_add_tdiv n d
  have h2 : n.tmod d = n - d * n.tdiv d := by omega
  rw [h2]
  exact Int.modEq_iff_dvd.mpr ⟨n.tdiv d, by ring⟩

theorem neg_lt_tmod (n : Int) {d : Int} (hd : 0 < d) : -d < n.tmod d := by
  rcases Int.lt_or_le n 0 with hn | hn
  · have h1 : (-n).tmod d < d := Int.tmod_lt_of_pos _ hd
    have h2 : (-n).tmod d = -(n.tmod d) := by
      rw [Int.tmod_def, Int.tmod_def, Int.neg_tdiv]; ring
    omega
  · have := Int.tmod_nonneg d hn
    omega

/-- For a positive modulus the helper `mod` is the Euclidean remainder. -/
theorem mod_eq_emod (n : Int) {d : Int} (hd : 0 < d) : mod n d = n % d := by
  unfold mod
  have h1 := neg_lt_tmod n hd
  rw [Int.tmod_eq_emod (by omega) (by omega)]
  rw [Int.add_emod_self]
  exact tmod_modEq n d

theorem mod_nonneg (n : Int) {d : Int} (hd : 0 < d) : 0 ≤ mod n d := by
  rw [mod_eq_emod n hd]; exact Int.emod_nonneg _ (by omega)

theorem mod_lt (n : Int) {d : Int} (hd : 0 < d) : mod n d < d := by
  rw [mod_eq_emod n hd]; exact Int.emod_lt_of_pos _ hd

theorem mod_add_mul (n k : Int) {d : Int} (hd : 0 < d) : mod (n + k * d) d = mod n d := by
  rw [mod_eq_emod _ hd, mod_eq_emod _ hd, Int.add_mul_emod_self]

theorem mod_of_inRange {n d : Int} (h0 : 0 ≤ n) (h1 : n < d) : mod n d = n := by
  rw [mod_eq_emod n (by omega)]; exact Int.emod_eq_of_lt h0 h1

/-- A flat index built from in-range coordinates lies inside the surface. -/
theorem index_bounds {w h i j : Int} (hi0 : 0 ≤ i) (hi : i < w) (hj0 : 0 ≤ j) (hj : j < h) :
    0 ≤ i + j * w ∧ i + j * w < w * h := by
  have h1 : 0 ≤ j * w := Int.mul_nonneg hj0 (by omega)
  have h2 : (j + 1) * w ≤ h * w := Int.mul_le_mul_of_nonneg_right (by omega) (by omega)
  constructor
  · omega
  · nlinarith

/-- Distinct in-range cells have distinct flat indices. -/
theorem index_inj {w i j i' j' : Int} (hi0 : 0 ≤ i) (hi : i < w) (hi0' : 0 ≤ i')
    (hi' : i' < w) (e : i + j * w = i' + j' * w) : i = i' ∧ j = j' := by
  have hj : j = j' := by
    rcases Int.lt_trichotomy j j' with h | h | h
    · exfalso
      have : (j + 1) * w ≤ j' * w := Int.mul_le_mul_of_nonneg_right (by omega) (by omega)
      nlinarith
    · exact h
    · exfalso
      have : (j' + 1) * w ≤ j * w := Int.mul_le_mul_of_nonneg_right (by omega) (by omega)
      nlinarith
  subst hj
  exact ⟨by omega, rfl⟩

/-! ## Reads and writes of a surface -/

theorem readAt_isSome {a : List α} {i : Int} (h0 : 0 ≤ i) (h1 : i < (a.length : Int)) :
    ∃ v, readAt a i = some v := by
  have hlt : i.toNat < a.length := by omega
  exact ⟨a[i.toNat], by simp [readAt, h0, List.getElem?_eq_getElem hlt]⟩

theorem length_writeAt (a : List α) (i : Int) (v : α) : (writeAt a i v).length = a.length := by
  unfold writeAt; split <;> simp

theorem readAt_writeAt_same {a : List α} {i : Int} (v : α) (h0 : 0 ≤ i)
    (h1 : i < (a.length : Int)) : readAt (writeAt a i v) i = some v := by
  have hlt : i.toNat < a.length := by omega
  simp [readAt, writeAt, h0, hlt]

theorem readAt_writeAt_ne {a : List α} {i k : Int} (v : α) (h : i ≠ k) :
    readAt (writeAt a i v) k = readAt a k := by
  unfold readAt writeAt
  by_cases hk : 0 ≤ k
  · by_cases hi : 0 ≤ i
    · have hne : i.toNat ≠ k.toNat := by omega
      simp [hk, hi, List.getElem?_set_ne hne]
    · simp [hk, hi]
  · simp [hk]

/-- Reading a cell that none of the folded writes targets. -/
theorem readAt_foldl_writeAt_of_not_mem {ι : Type} (ix : ι → Int) (val : ι → α) (k : Int) :
    ∀ (cs : List ι) (a : List α), (∀ c ∈ cs, ix c ≠ k) →
      readAt (cs.foldl (fun r c => writeAt r (ix c) (val c)) a) k = readAt a k := by
  intro cs
  induction cs with
  | nil => intro a _; rfl
  | cons c cs ih =>
    intro a h
    rw [List.foldl_cons, ih _ (fun c' hc' => h c' (List.mem_cons_of_mem _ hc'))]
    exact readAt_writeAt_ne _ (h c (List.mem_cons_self _ _))

theorem length_foldl_writeAt {ι : Type} (ix : ι → Int) (val : ι → α) :
    ∀ (cs : List ι) (a : List α),
      (cs.foldl (fun r c => writeAt r (ix c) (val c)) a).length = a.length := by
  intro cs
  induction cs with
  | nil => intro a; rfl
  | cons c cs ih => intro a; rw [List.foldl_cons, ih, length_writeAt]

/-- Reading a cell that some of the folded writes target, all of them with the value `v`. -/
theorem readAt_foldl_writeAt_of_mem {ι : Type} (ix : ι → Int) (val : ι → α) (k : Int) (v : α) :
    ∀ (cs : List ι) (a : List α), 0 ≤ k → k < (a.length : Int) →
      (∃ c ∈ cs, ix c = k) → (∀ c ∈ cs, ix c = k → val c = v) →
      readAt (cs.foldl (fun r c => writeAt r (ix c) (val c)) a) k = some v := by
  intro cs
  induction cs with
  | nil => intro a _ _ h _; obtain ⟨c, hc, _⟩ := h; cases hc
  | cons c cs ih =>
    intro a h0 h1 hex hval
    rw [List.foldl_cons]
    by_cases hcs : ∃ c' ∈ cs, ix c' = k
    · exact ih _ h0 (by rw [length_writeAt]; exact h1) hcs
        (fun c' hc' => hval c' (List.mem_cons_of_mem _ hc'))
    · have hno : ∀ c' ∈ cs, ix c' ≠ k := fun c' hc' e => hcs ⟨c', hc', e⟩
      rw [readAt_foldl_writeAt_of_not_mem ix val k cs _ hno]
      obtain ⟨c', hc', e⟩ := hex
      rcases List.mem_cons.mp hc' with rfl | hc''
      · rw [e, ← hval c' (List.mem_cons_self _ _) e]
        exact readAt_writeAt_same _ h0 h1
      · exact absurd e (hno c' hc'')

/-! ## Sweeps -/

theorem mem_cells {w h : Int} {i j : Int} :
    (i, j) ∈ cells w h ↔ (0 ≤ i ∧ i < w) ∧ (0 ≤ j ∧ j < h) := by
  unfold cells
  simp only [List.mem_flatMap, List.mem_map, List.mem_range, Prod.mk.injEq]
  constructor
  · rintro ⟨a, ha, b, hb, rfl, rfl⟩
    omega
  · rintro ⟨⟨hi0, hi⟩, hj0, hj⟩
    exact ⟨i.toNat, by omega, j.toNat, by omega, by omega, by omega⟩

theorem foldl_flatMap_eq {σ ι κ : Type} (f : ι → List κ) (g : σ → κ → σ) :
    ∀ (l : List ι) (s : σ),
      (l.flatMap f).foldl g s = l.foldl (fun t a => (f a).foldl g t) s := by
  intro l
  induction l with
  | nil => intro s; rfl
  | cons a l ih => intro s; rw [List.flatMap_cons, List.foldl_append, ih, List.foldl_cons]

/-- The nested loops of a stage visit the cells of `cells w h` in turn. -/
theorem sweep_eq_foldl {σ : Type} (w h : Int) (body : Int → Int → σ → σ) (s : σ) :
    sweep w h body s = (cells w h).foldl (fun t c => body c.1 c.2 t) s := by
  unfold sweep forRange cells
  rw [foldl_flatMap_eq]
  simp only [List.foldl_map]

/-- A fold whose body rewrites one component of the state (read by `get`, replaced by
`put`) without reading it elsewhere rewrites that component only. -/
theorem foldl_lens {σ τ ι : Type} (get : σ → τ) (put : τ → σ → σ) (upd : σ → ι → τ → τ)
    (body : ι → σ → σ)
    (hbody : ∀ c t, body c t = put (upd t c (get t)) t)
    (hgp : ∀ a t, get (put a t) = a)
    (hpp : ∀ a a' t, put a (put a' t) = put a t)
    (hpg : ∀ t, put (get t) t = t)
    (hupd : ∀ a t, upd (put a t) = upd t) :
    ∀ (cs : List ι) (s : σ),
      cs.foldl (fun t c => body c t) s = put (cs.foldl (fun r c => upd s c r) (get s)) s := by
  intro cs
  induction cs with
  | nil => intro s; exact (hpg s).symm
  | cons c cs ih =>
    intro s
    rw [List.foldl_cons, List.foldl_cons, ih, hbody, hgp, hpp, hupd]

theorem foldl_pair {ι τ₁ τ₂ : Type} (f : ι → τ₁ → τ₁) (g : ι → τ₂ → τ₂) :
    ∀ (cs : List ι) (a : τ₁) (b : τ₂),
      cs.foldl (fun r c => (f c r.1, g c r.2)) (a, b)
        = (cs.foldl (fun r c => f c r) a, cs.foldl (fun r c => g c r) b) := by
  intro cs
  induction cs with
  | nil => intro a b; rfl
  | cons c cs ih => intro a b; rw [List.foldl_cons, ih]; rfl

theorem length_fill (w : Int) (g : Int → Int → α) (cs : List (Int × Int)) (a : List α) :
    (fill w g cs a).length = a.length :=
  length_foldl_writeAt (fun c : Int × Int => c.1 + c.2 * w) (fun c => g c.1 c.2) cs a

/-- After the writes of `cs`, all in range, a cell of `cs` holds the value written for it. -/
theorem readAt_fill_of_mem {w h : Int} (g : Int → Int → α) (a : List α)
    (hl : (a.length : Int) = w * h) (cs : List (Int × Int))
    (hin : ∀ c ∈ cs, (0 ≤ c.1 ∧ c.1 < w) ∧ (0 ≤ c.2 ∧ c.2 < h))
    {i j : Int} (hi0 : 0 ≤ i) (hi : i < w) (hj0 : 0 ≤ j) (hj : j < h) (hmem : (i, j) ∈ cs) :
    readAt (fill w g cs a) (i + j * w) = some (g i j) := by
  have hb := index_bounds hi0 hi hj0 hj
  refine readAt_foldl_writeAt_of_mem (fun c : Int × Int => c.1 + c.2 * w)
    (fun c => g c.1 c.2) _ _ cs a hb.1 (by rw [hl]; exact hb.2) ⟨(i, j), hmem, rfl⟩ ?_
  rintro ⟨i', j'⟩ hc e
  obtain ⟨⟨h1, h2⟩, _, _⟩ := hin _ hc
  obtain ⟨rfl, rfl⟩ := index_inj h1 h2 hi0 hi e
  rfl

/-- After a full sweep every in-range cell holds the value written for it. -/
theorem readAt_fill_cells {w h : Int} (g : Int → Int → α) (a : List α)
    (hl : (a.length : Int) = w * h) {i j : Int} (hi0 : 0 ≤ i) (hi : i < w) (hj0 : 0 ≤ j)
    (hj : j < h) : readAt (fill w g (cells w h) a) (i + j * w) = some (g i j) :=
  readAt_fill_of_mem g a hl (cells w h) (fun _ hc => mem_cells.mp hc) hi0 hi hj0 hj
    (mem_cells.mpr ⟨⟨hi0, hi⟩, hj0, hj⟩)

/-! ## Wrapped reads -/

theorem Buffer.wrap_eq (b : Buffer α) (hw : 0 < b.width) (hh : 0 < b.height) (x y : Int) :
    b.wrap x y = x % b.width + y % b.height * b.width := by
  unfold Buffer.wrap
  rw [mod_eq_emod x hw, mod_eq_emod y hh]

theorem Buffer.wrap_bounds (b : Buffer α) (hw : 0 < b.width) (hh : 0 < b.height)
    (x y : Int) : 0 ≤ b.wrap x y ∧ b.wrap x y < b.width * b.height :=
  index_bounds (mod_nonneg x hw) (mod_lt x hw) (mod_nonneg y hh) (mod_lt y hh)

theorem Buffer.wrap_add_mul (b : Buffer α) (hw : 0 < b.width) (hh : 0 < b.height)
    (x y k m : Int) : b.wrap (x + k * b.width) (y + m * b.height) = b.wrap x y := by
  unfold Buffer.wrap
  rw [mod_add_mul x k hw, mod_add_mul y m hh]

end Fluids

namespace Fluids3

open Fluids

variable {α : Type}

theorem Buffer.wrap3_bounds (b : Buffer α) (hw : 0 < b.width) (hh : 0 < b.height)
    (hd : 0 < b.depth) (x y z : Int) :
    0 ≤ b.wrap x y z ∧ b.wrap x y z < b.width * b.height * b.depth := by
  have hxy := index_bounds (mod_nonneg x hw) (mod_lt x hw) (mod_nonneg y hh) (mod_lt y hh)
  have hwh : 0 < b.width * b.height := Int.mul_pos hw hh
  have hz := index_bounds hxy.1 hxy.2 (mod_nonneg z hd) (mod_lt z hd)
  have e : b.wrap x y z
      = mod x b.width + mod y b.height * b.width + mod z b.depth * (b.width * b.height) := by
    unfold Buffer.wrap; ring
  rw [e]
  exact hz

theorem Buffer.wrap3_add_mul (b : Buffer α) (hw : 0 < b.width) (hh : 0 < b.height)
    (hd : 0 < b.depth) (x y z k m n : Int) :
    b.wrap (x + k * b.width) (y + m * b.height) (z + n * b.depth) = b.wrap x y z := by
  unfold Buffer.wrap
  rw [mod_add_mul x k hw, mod_add_mul y m hh, mod_add_mul z n hd]

end Fluids3

namespace Fluids

variable {α : Type}

theorem Buffer.get?_shift (b : Buffer α) (hw : 0 < b.width) (hh : 0 < b.height)
    (x y k m : Int) : b.get? (x + k * b.width) (y + m * b.height) = b.get? x y := by
  unfold Buffer.get?
  rw [Buffer.wrap_add_mul b hw hh]

theorem Buffer.get_shift [Zero α] (b : Buffer α) (hw : 0 < b.width) (hh : 0 < b.height)
    (x y k m : Int) : b.get (x + k * b.width) (y + m * b.height) = b.get x y := by
  unfold Buffer.get
  rw [Buffer.get?_shift b hw hh]

/-! ## Interpolation -/

section interpolation

variable [LinearOrderedField α]

theorem le_lerp {lo a b s : α} (ha : lo ≤ a) (hb : lo ≤ b) (h0 : 0 ≤ s) (h1 : s ≤ 1) :
    lo ≤ lerp a b s := by
  unfold lerp
  have h2 : 0 ≤ 1 - s := by linarith
  have e1 : lo * (1 - s) ≤ a * (1 - s) := mul_le_mul_of_nonneg_right ha h2
  have e2 : lo * s ≤ b * s := mul_le_mul_of_nonneg_right hb h0
  nlinarith

theorem lerp_le {hi a b s : α} (ha : a ≤ hi) (hb : b ≤ hi) (h0 : 0 ≤ s) (h1 : s ≤ 1) :
    lerp a b s ≤ hi := by
  unfold lerp
  have h2 : 0 ≤ 1 - s := by linarith
  have e1 : a * (1 - s) ≤ hi * (1 - s) := mul_le_mul_of_nonneg_right ha h2
  have e2 : b * s ≤ hi * s := mul_le_mul_of_nonneg_right hb h0
  nlinarith

theorem frac_nonneg [FloorRing α] (x : α) : 0 ≤ x - (⌊x⌋ : α) :=
  sub_nonneg.mpr (Int.floor_le x)

theorem frac_le_one [FloorRing α] (x : α) : x - (⌊x⌋ : α) ≤ 1 := by
  have := Int.lt_floor_add_one x
  linarith

/-- The value of `sample` lies in every interval that holds the four corner cells. -/
theorem Buffer.sample_mem [FloorRing α] (b : Buffer α) (u v lo hi : α)
    (h : ∀ x y : Int, lo ≤ b.get x y ∧ b.get x y ≤ hi) :
    lo ≤ b.sample u v ∧ b.sample u v ≤ hi := by
  unfold Buffer.sample
  exact ⟨le_lerp (le_lerp (h _ _).1 (h _ _).1 (frac_nonneg _) (frac_le_one _))
      (le_lerp (h _ _).1 (h _ _).1 (frac_nonneg _) (frac_le_one _))
      (frac_nonneg _) (frac_le_one _),
    lerp_le (lerp_le (h _ _).2 (h _ _).2 (frac_nonneg _) (frac_le_one _))
      (lerp_le (h _ _).2 (h _ _).2 (frac_nonneg _) (frac_le_one _))
      (frac_nonneg _) (frac_le_one _)⟩

end interpolation

/-! ## C1, C2: wrapped reads -/

/-- C1 (wrap invariance of `get`).  For a `Buffer` with positive extents, shifting the
coordinates by integer multiples of the extents does not change what `get` reads: the
read itself (`get?`) and the number returned (`get`) are the same.  The same holds along
the three axes of the 3D `Buffer` of `main3.js`. -/
theorem get_wrap_invariance [Zero α] (b : Buffer α) (c : Fluids3.Buffer α)
    (hw : 0 < b.width) (hh : 0 < b.height)
    (hw3 : 0 < c.width) (hh3 : 0 < c.height) (hd3 : 0 < c.depth) :
    (∀ x y k m : Int,
      b.get? (x + k * b.width) (y + m * b.height) = b.get? x y ∧
      b.get (x + k * b.width) (y + m * b.height) = b.get x y) ∧
    (∀ x y z k m n : Int,
      c.get? (x + k * c.width) (y + m * c.height) (z + n * c.depth) = c.get? x y z ∧
      c.get (x + k * c.width) (y + m * c.height) (z + n * c.depth) = c.get x y z) := by
  refine ⟨fun x y k m => ?_, fun x y z k m n => ?_⟩
  · exact ⟨Buffer.get?_shift b hw hh x y k m, Buffer.get_shift b hw hh x y k m⟩
  · have e : c.get? (x + k * c.width) (y + m * c.height) (z + n * c.depth) = c.get? x y z := by
      unfold Fluids3.Buffer.get?
      rw [Fluids3.Buffer.wrap3_add_mul c hw3 hh3 hd3]
    exact ⟨e, by unfold Fluids3.Buffer.get; rw [e]⟩

/-- C1, at a 2 x 2 grid and a 2 x 1 x 2 grid of rationals. -/
theorem get_wrap_invariance_witness :
    ((0 : Int) < 2 ∧ (0 : Int) < 1) ∧
    ((∀ x y k m : Int,
      (Buffer.mk 2 2 [1, 2, 3, 4] : Buffer ℚ).get? (x + k * 2) (y + m * 2)
          = (Buffer.mk 2 2 [1, 2, 3, 4] : Buffer ℚ).get? x y ∧
      (Buffer.mk 2 2 [1, 2, 3, 4] : Buffer ℚ).get (x + k * 2) (y + m * 2)
          = (Buffer.mk 2 2 [1, 2, 3, 4] : Buffer ℚ).get x y) ∧
    (∀ x y z k m n : Int,
      (Fluids3.Buffer.mk 2 1 2 [1, 2, 3, 4] : Fluids3.Buffer ℚ).get?
          (x + k * 2) (y + m * 1) (z + n * 2)
          = (Fluids3.Buffer.mk 2 1 2 [1, 2, 3, 4] : Fluids3.Buffer ℚ).get? x y z ∧
      (Fluids3.Buffer.mk 2 1 2 [1, 2, 3, 4] : Fluids3.Buffer ℚ).get
          (x + k * 2) (y + m * 1) (z + n * 2)
          = (Fluids3.Buffer.mk 2 1 2 [1, 2, 3, 4] : Fluids3.Buffer ℚ).get x y z)) :=
  ⟨⟨by decide, by decide⟩,
   get_wrap_invariance (Buffer.mk 2 2 [1, 2, 3, 4]) (Fluids3.Buffer.mk 2 1 2 [1, 2, 3, 4])
     (by decide) (by decide) (by decide) (by decide) (by decide)⟩

/-- C2 (`get` never fails).  For a well-formed `Buffer` (positive extents, a surface of
`width * height` cells) and every integer coordinate, the flat index computed by `wrap`
lies in `[0, width * height)` and the read of `get` finds a stored cell (it is not
`undefined`); likewise with `[0, width * height * depth)` for the 3D `Buffer`. -/
theorem get_never_fails (b : Buffer α) (c : Fluids3.Buffer α) (hb : b.WF) (hc : c.WF) :
    (∀ x y : Int, 0 ≤ b.wrap x y ∧ b.wrap x y < b.width * b.height ∧
      ∃ v, b.get? x y = some v) ∧
    (∀ x y z : Int, 0 ≤ c.wrap x y z ∧ c.wrap x y z < c.width * c.height * c.depth ∧
      ∃ v, c.get? x y z = some v) := by
  obtain ⟨hw, hh, hl⟩ := hb
  obtain ⟨hw3, hh3, hd3, hl3⟩ := hc
  refine ⟨fun x y => ?_, fun x y z => ?_⟩
  · have hb := Buffer.wrap_bounds b hw hh x y
    exact ⟨hb.1, hb.2, readAt_isSome hb.1 (by rw [hl]; exact hb.2)⟩
  · have hb := Fluids3.Buffer.wrap3_bounds c hw3 hh3 hd3 x y z
    exact ⟨hb.1, hb.2, readAt_isSome hb.1 (by rw [hl3]; exact hb.2)⟩

/-- C2, at a 2 x 2 grid and a 2 x 1 x 2 grid of rationals. -/
theorem get_never_fails_witness :
    ((Buffer.mk 2 2 [1, 2, 3, 4] : Buffer ℚ).WF ∧
      (Fluids3.Buffer.mk 2 1 2 [1, 2, 3, 4] : Fluids3.Buffer ℚ).WF) ∧
    ((∀ x y : Int, 0 ≤ (Buffer.mk 2 2 [1, 2, 3, 4] : Buffer ℚ).wrap x y ∧
        (Buffer.mk 2 2 [1, 2, 3, 4] : Buffer ℚ).wrap x y < 2 * 2 ∧
        ∃ v, (Buffer.mk 2 2 [1, 2, 3, 4] : Buffer ℚ).get? x y = some v) ∧
      (∀ x y z : Int, 0 ≤ (Fluids3.Buffer.mk 2 1 2 [1, 2, 3, 4] : Fluids3.Buffer ℚ).wrap x y z ∧
        (Fluids3.Buffer.mk 2 1 2 [1, 2, 3, 4] : Fluids3.Buffer ℚ).wrap x y z < 2 * 1 * 2 ∧
        ∃ v, (Fluids3.Buffer.mk 2 1 2 [1, 2, 3, 4] : Fluids3.Buffer ℚ).get? x y z = some v)) :=
  ⟨⟨by simp [Buffer.WF], by simp [Fluids3.Buffer.WF]⟩,
   get_never_fails (Buffer.mk 2 2 [1, 2, 3, 4]) (Fluids3.Buffer.mk 2 1 2 [1, 2, 3, 4])
     (by simp [Buffer.WF]) (by simp [Fluids3.Buffer.WF])⟩

/-! ## C3, C10: `sample` -/

/-- C3, amended to exact arithmetic (sampling bounds).  Over exact arithmetic, for every
`Buffer` and all `u`, `v`, with `x = u * width` and
`y = v * height`, the value `sample(u, v)` lies between the minimum and the maximum of
the four wrapped corner values `get(⌊x⌋, ⌊y⌋)`, `get(⌊x⌋ + 1, ⌊y⌋)`, `get(⌊x⌋, ⌊y⌋ + 1)`,
`get(⌊x⌋ + 1, ⌊y⌋ + 1)`; the 3D `sample` lies between the minimum and the maximum of its
eight corner values. -/
theorem sample_bounds [LinearOrderedField α] [FloorRing α] (b : Buffer α)
    (c : Fluids3.Buffer α) (u v w : α) :
    (min (min (b.get ⌊u * b.width⌋ ⌊v * b.height⌋) (b.get (⌊u * b.width⌋ + 1) ⌊v * b.height⌋))
        (min (b.get ⌊u * b.width⌋ (⌊v * b.height⌋ + 1))
          (b.get (⌊u * b.width⌋ + 1) (⌊v * b.height⌋ + 1))) ≤ b.sample u v ∧
      b.sample u v ≤
        max (max (b.get ⌊u * b.width⌋ ⌊v * b.height⌋) (b.get (⌊u * b.width⌋ + 1) ⌊v * b.height⌋))
          (max (b.get ⌊u * b.width⌋ (⌊v * b.height⌋ + 1))
            (b.get (⌊u * b.width⌋ + 1) (⌊v * b.height⌋ + 1)))) ∧
    (min
        (min (min (c.get ⌊u * c.width⌋ ⌊v * c.height⌋ ⌊w * c.depth⌋)
            (c.get (⌊u * c.width⌋ + 1) ⌊v * c.height⌋ ⌊w * c.depth⌋))
          (min (c.get ⌊u * c.width⌋ (⌊v * c.height⌋ + 1) ⌊w * c.depth⌋)
            (c.get (⌊u * c.width⌋ + 1) (⌊v * c.height⌋ + 1) ⌊w * c.depth⌋)))
        (min (min (c.get ⌊u * c.width⌋ ⌊v * c.height⌋ (⌊w * c.depth⌋ + 1))
            (c.get (⌊u * c.width⌋ + 1) ⌊v * c.height⌋ (⌊w * c.depth⌋ + 1)))
          (min (c.get ⌊u * c.width⌋ (⌊v * c.height⌋ + 1) (⌊w * c.depth⌋ + 1))
            (c.get (⌊u * c.width⌋ + 1) (⌊v * c.height⌋ + 1) (⌊w * c.depth⌋ + 1))))
        ≤ c.sample u v w ∧
      c.sample u v w ≤
        max
          (max (max (c.get ⌊u * c.width⌋ ⌊v * c.height⌋ ⌊w * c.depth⌋)
              (c.get (⌊u * c.width⌋ + 1) ⌊v * c.height⌋ ⌊w * c.depth⌋))
            (max (c.get ⌊u * c.width⌋ (⌊v * c.height⌋ + 1) ⌊w * c.depth⌋)
              (c.get (⌊u * c.width⌋ + 1) (⌊v * c.height⌋ + 1) ⌊w * c.depth⌋)))
          (max (max (c.get ⌊u * c.width⌋ ⌊v * c.height⌋ (⌊w * c.depth⌋ + 1))
              (c.get (⌊u * c.width⌋ + 1) ⌊v * c.height⌋ (⌊w * c.depth⌋ + 1)))
            (max (c.get ⌊u * c.width⌋ (⌊v * c.height⌋ + 1) (⌊w * c.depth⌋ + 1))
              (c.get (⌊u * c.width⌋ + 1) (⌊v * c.height⌋ + 1) (⌊w * c.depth⌋ + 1))))) := by
  refine ⟨⟨?_, ?_⟩, ⟨?_, ?_⟩⟩
  · unfold Buffer.sample
    refine le_lerp (le_lerp ?_ ?_ (frac_nonneg _) (frac_le_one _))
      (le_lerp ?_ ?_ (frac_nonneg _) (frac_le_one _)) (frac_nonneg _) (frac_le_one _)
    · exact le_trans (min_le_left _ _) (min_le_left _ _)
    · exact le_trans (min_le_left _ _) (min_le_right _ _)
    · exact le_trans (min_le_right _ _) (min_le_left _ _)
    · exact le_trans (min_le_right _ _) (min_le_right _ _)
  · unfold Buffer.sample
    refine lerp_le (lerp_le ?_ ?_ (frac_nonneg _) (frac_le_one _))
      (lerp_le ?_ ?_ (frac_nonneg _) (frac_le_one _)) (frac_nonneg _) (frac_le_one _)
    · exact le_trans (le_max_left _ _) (le_max_left _ _)
    · exact le_trans (le_max_right _ _) (le_max_left _ _)
    · exact le_trans (le_max_left _ _) (le_max_right _ _)
    · exact le_trans (le_max_right _ _) (le_max_right _ _)
  · unfold Fluids3.Buffer.sample
    refine le_lerp
      (le_lerp (le_lerp ?_ ?_ (frac_nonneg _) (frac_le_one _))
        (le_lerp ?_ ?_ (frac_nonneg _) (frac_le_one _)) (frac_nonneg _) (frac_le_one _))
      (le_lerp (le_lerp ?_ ?_ (frac_nonneg _) (frac_le_one _))
        (le_lerp ?_ ?_ (frac_nonneg _) (frac_le_one _)) (frac_nonneg _) (frac_le_one _))
      (frac_nonneg _) (frac_le_one _)
    · exact le_trans (min_le_left _ _) (le_trans (min_le_left _ _) (min_le_left _ _))
    · exact le_trans (min_le_left _ _) (le_trans (min_le_left _ _) (min_le_right _ _))
    · exact le_trans (min_le_left _ _) (le_trans (min_le_right _ _) (min_le_left _ _))
    · exact le_trans (min_le_left _ _) (le_trans (min_le_right _ _) (min_le_right _ _))
    · exact le_trans (min_le_right _ _) (le_trans (min_le_left _ _) (min_le_left _ _))
    · exact le_trans (min_le_right _ _) (le_trans (min_le_left _ _) (min_le_right _ _))
    · exact le_trans (min_le_right _ _) (le_trans (min_le_right _ _) (min_le_left _ _))
    · exact le_trans (min_le_right _ _) (le_trans (min_le_right _ _) (min_le_right _ _))
  · unfold Fluids3.Buffer.sample
    refine lerp_le
      (lerp_le (lerp_le ?_ ?_ (frac_nonneg _) (frac_le_one _))
        (lerp_le ?_ ?_ (frac_nonneg _) (frac_le_one _)) (frac_nonneg _) (frac_le_one _))
      (lerp_le (lerp_le ?_ ?_ (frac_nonneg _) (frac_le_one _))
        (lerp_le ?_ ?_ (frac_nonneg _) (frac_le_one _)) (frac_nonneg _) (frac_le_one _))
      (frac_nonneg _) (frac_le_one _)
    · exact le_trans (le_trans (le_max_left _ _) (le_max_left _ _)) (le_max_left _ _)
    · exact le_trans (le_trans (le_max_right _ _) (le_max_left _ _)) (le_max_left _ _)
    · exact le_trans (le_trans (le_max_left _ _) (le_max_right _ _)) (le_max_left _ _)
    · exact le_trans (le_trans (le_max_right _ _) (le_max_right _ _)) (le_max_left _ _)
    · exact le_trans (le_trans (le_max_left _ _) (le_max_left _ _)) (le_max_right _ _)
    · exact le_trans (le_trans (le_max_right _ _) (le_max_left _ _)) (le_max_right _ _)
    · exact le_trans (le_trans (le_max_left _ _) (le_max_right _ _)) (le_max_right _ _)
    · exact le_trans (le_trans (le_max_right _ _) (le_max_right _ _)) (le_max_right _ _)

/-- C10, amended to exact arithmetic (`sample` is periodic in normalized coordinates).
Over exact arithmetic, for a `Buffer` with positive extents, all `u`, `v` and all integers
`k`, `m`: `sample(u + k, v + m) = sample(u, v)`. -/
theorem sample_periodic [LinearOrderedField α] [FloorRing α] (b : Buffer α)
    (hw : 0 < b.width) (hh : 0 < b.height) (u v : α) (k m : Int) :
    b.sample (u + (k : α)) (v + (m : α)) = b.sample u v := by
  have ex : (u + (k : α)) * (b.width : α) = u * (b.width : α) + ((k * b.width : Int) : α) := by
    push_cast; ring
  have ey : (v + (m : α)) * (b.height : α) = v * (b.height : α) + ((m * b.height : Int) : α) := by
    push_cast; ring
  unfold Buffer.sample
  simp only [ex, ey, Int.floor_add_int]
  have g1 := Buffer.get_shift b hw hh ⌊u * (b.width : α)⌋ ⌊v * (b.height : α)⌋ k m
  have g2 := Buffer.get_shift b hw hh (⌊u * (b.width : α)⌋ + 1) ⌊v * (b.height : α)⌋ k m
  have g3 := Buffer.get_shift b hw hh ⌊u * (b.width : α)⌋ (⌊v * (b.height : α)⌋ + 1) k m
  have g4 := Buffer.get_shift b hw hh (⌊u * (b.width : α)⌋ + 1) (⌊v * (b.height : α)⌋ + 1) k m
  have r1 : ∀ a : Int, a + k * b.width + 1 = a + 1 + k * b.width := fun a => by ring
  have r2 : ∀ a : Int, a + m * b.height + 1 = a + 1 + m * b.height := fun a => by ring
  simp only [r1, r2, g1, g2, g3, g4]
  push_cast
  ring_nf

/-- C10, at a 2 x 2 grid of rationals. -/
theorem sample_periodic_witness :
    ((0 : Int) < 2 ∧ (0 : Int) < 2) ∧
    (Buffer.mk 2 2 [1, 2, 3, 4] : Buffer ℚ).sample (1 / 3 + ((5 : Int) : ℚ))
        (3 / 4 + ((-2 : Int) : ℚ))
      = (Buffer.mk 2 2 [1, 2, 3, 4] : Buffer ℚ).sample (1 / 3) (3 / 4) :=
  ⟨⟨by decide, by decide⟩,
   sample_periodic (Buffer.mk 2 2 [1, 2, 3, 4]) (by decide) (by decide) (1 / 3) (3 / 4) 5 (-2)⟩

/-! ## Grids filled by a sweep -/

theorem Buffer.get?_congr (b : Buffer α) (hw : 0 < b.width) (hh : 0 < b.height)
    {x y x' y' : Int} (hx : x % b.width = x' % b.width) (hy : y % b.height = y' % b.height) :
    b.get? x y = b.get? x' y' := by
  unfold Buffer.get?
  rw [Buffer.wrap_eq b hw hh, Buffer.wrap_eq b hw hh, hx, hy]

theorem Buffer.get_congr [Zero α] (b : Buffer α) (hw : 0 < b.width) (hh : 0 < b.height)
    {x y x' y' : Int} (hx : x % b.width = x' % b.width) (hy : y % b.height = y' % b.height) :
    b.get x y = b.get x' y' := by
  unfold Buffer.get
  rw [Buffer.get?_congr b hw hh hx hy]

/-- What `get` reads from a surface that a full sweep has filled with `g`. -/
theorem get_fill [Zero α] {w h : Int} (hw : 0 < w) (hh : 0 < h) (g : Int → Int → α)
    (a : List α) (hl : (a.length : Int) = w * h) (x y : Int) :
    (Buffer.mk w h (fill w g (cells w h) a)).get x y = g (x % w) (y % h) := by
  unfold Buffer.get Buffer.get?
  rw [Buffer.wrap_eq _ hw hh]
  show (readAt (fill w g (cells w h) a) (x % w + y % h * w)).getD 0 = g (x % w) (y % h)
  rw [readAt_fill_cells g a hl (Int.emod_nonneg _ (by omega)) (Int.emod_lt_of_pos _ hw)
    (Int.emod_nonneg _ (by omega)) (Int.emod_lt_of_pos _ hh)]
  rfl

/-! ## The stages as single updates -/

/-- A sweep that writes one value per cell on the hidden surface of each velocity
component, computed without reading those hidden surfaces. -/
theorem velocity_sweep_eq (cellX cellY : Simulation α → Int → Int → α)
    (hX : ∀ (x y : List α) (t : Simulation α),
      cellX { t with velocityX := { t.velocityX with b := x },
                     velocityY := { t.velocityY with b := y } } = cellX t)
    (hY : ∀ (x y : List α) (t : Simulation α),
      cellY { t with velocityX := { t.velocityX with b := x },
                     velocityY := { t.velocityY with b := y } } = cellY t)
    (s : Simulation α) :
    sweep s.width s.height (fun i j t =>
        { t with velocityX := t.velocityX.out i j (cellX t i j),
                 velocityY := t.velocityY.out i j (cellY t i j) }) s
      = { s with
          velocityX := { s.velocityX with
            b := fill s.velocityX.width (cellX s) (cells s.width s.height) s.velocityX.b },
          velocityY := { s.velocityY with
            b := fill s.velocityY.width (cellY s) (cells s.width s.height) s.velocityY.b } } := by
  rw [sweep_eq_foldl]
  have h := foldl_lens (fun t : Simulation α => (t.velocityX.b, t.velocityY.b))
    (fun r t => { t with velocityX := { t.velocityX with b := r.1 },
                         velocityY := { t.velocityY with b := r.2 } })
    (fun t (c : Int × Int) r =>
      (writeAt r.1 (c.1 + c.2 * t.velocityX.width) (cellX t c.1 c.2),
       writeAt r.2 (c.1 + c.2 * t.velocityY.width) (cellY t c.1 c.2)))
    (fun (c : Int × Int) t =>
      { t with velocityX := t.velocityX.out c.1 c.2 (cellX t c.1 c.2),
               velocityY := t.velocityY.out c.1 c.2 (cellY t c.1 c.2) })
    (fun _ _ => rfl) (fun _ _ => rfl) (fun _ _ _ => rfl) (fun _ => rfl)
    (fun r t => by
      funext c q
      simp only [hX r.1 r.2 t, hY r.1 r.2 t])
    (cells s.width s.height) s
  rw [h]
  exact congrArg
    (fun r : List α × List α =>
      { s with velocityX := { s.velocityX with b := r.1 },
               velocityY := { s.velocityY with b := r.2 } })
    (foldl_pair
      (fun (c : Int × Int) a => writeAt a (c.1 + c.2 * s.velocityX.width) (cellX s c.1 c.2))
      (fun (c : Int × Int) a => writeAt a (c.1 + c.2 * s.velocityY.width) (cellY s c.1 c.2))
      (cells s.width s.height) s.velocityX.b s.velocityY.b)

section stages

variable [LinearOrderedField α]

theorem Simulation.stepCurl_eq (s : Simulation α) :
    s.stepCurl = { s with curl := { s.curl with
      a := fill s.curl.width s.curlCell (cells s.width s.height) s.curl.a } } := by
  unfold Simulation.stepCurl
  rw [sweep_eq_foldl]
  exact foldl_lens (fun t : Simulation α => t.curl.a)
    (fun a t => { t with curl := { t.curl with a := a } })
    (fun t (c : Int × Int) a => writeAt a (c.1 + c.2 * t.curl.width) (t.curlCell c.1 c.2))
    _ (fun _ _ => rfl) (fun _ _ => rfl) (fun _ _ _ => rfl) (fun _ => rfl) (fun _ _ => rfl)
    (cells s.width s.height) s

theorem Simulation.stepDivergence_eq (s : Simulation α) :
    s.stepDivergence = { s with divergence := { s.divergence with
      a := fill s.divergence.width s.divergenceCell (cells s.width s.height) s.divergence.a } } := by
  unfold Simulation.stepDivergence
  rw [sweep_eq_foldl]
  exact foldl_lens (fun t : Simulation α => t.divergence.a)
    (fun a t => { t with divergence := { t.divergence with a := a } })
    (fun t (c : Int × Int) a =>
      writeAt a (c.1 + c.2 * t.divergence.width) (t.divergenceCell c.1 c.2))
    _ (fun _ _ => rfl) (fun _ _ => rfl) (fun _ _ _ => rfl) (fun _ => rfl) (fun _ _ => rfl)
    (cells s.width s.height) s

theorem Simulation.pressureIteration_eq (s : Simulation α) :
    s.pressureIteration = { s with pressure :=
      { width := s.pressure.width, height := s.pressure.height,
        a := fill s.pressure.width s.pressureCell (cells s.width s.height) s.pressure.b,
        b := s.pressure.a } } := by
  unfold Simulation.pressureIteration
  rw [sweep_eq_foldl]
  have h := foldl_lens (fun t : Simulation α => t.pressure.b)
    (fun a t => { t with pressure := { t.pressure with b := a } })
    (fun t (c : Int × Int) a =>
      writeAt a (c.1 + c.2 * t.pressure.width) (t.pressureCell c.1 c.2))
    (fun (c : Int × Int) t =>
      { t with pressure := t.pressure.out c.1 c.2 (t.pressureCell c.1 c.2) })
    (fun _ _ => rfl) (fun _ _ => rfl) (fun _ _ _ => rfl) (fun _ => rfl) (fun _ _ => rfl)
    (cells s.width s.height) s
  exact congrArg (fun r : Simulation α => { r with pressure := r.pressure.swap }) h

theorem Simulation.stepVorticity_eq (sqrt : α → α) (config : Config α) (s : Simulation α) :
    s.stepVorticity sqrt config
      = s.withVelocity
          (fill s.velocityX.width (Simulation.vorticityCellX sqrt config s)
            (cells s.width s.height) s.velocityX.b)
          (fill s.velocityY.width (Simulation.vorticityCellY sqrt config s)
            (cells s.width s.height) s.velocityY.b) := by
  have h := velocity_sweep_eq (Simulation.vorticityCellX sqrt config)
    (Simulation.vorticityCellY sqrt config) (fun _ _ _ => rfl) (fun _ _ _ => rfl) s
  unfold Simulation.stepVorticity
  exact congrArg (fun r : Simulation α =>
    { r with velocityX := r.velocityX.swap, velocityY := r.velocityY.swap }) h

theorem Simulation.stepSubtractGradient_eq (s : Simulation α) :
    s.stepSubtractGradient
      = s.withVelocity
          (fill s.velocityX.width s.gradientCellX (cells s.width s.height) s.velocityX.b)
          (fill s.velocityY.width s.gradientCellY (cells s.width s.height) s.velocityY.b) := by
  have h := velocity_sweep_eq Simulation.gradientCellX Simulation.gradientCellY
    (fun _ _ _ => rfl) (fun _ _ _ => rfl) s
  unfold Simulation.stepSubtractGradient
  exact congrArg (fun r : Simulation α =>
    { r with velocityX := r.velocityX.swap, velocityY := r.velocityY.swap }) h

theorem Simulation.stepAdvection_eq [FloorRing α] (s : Simulation α) :
    s.stepAdvection
      = s.withVelocity
          (fill s.velocityX.width s.advectionCellX (cells s.width s.height) s.velocityX.b)
          (fill s.velocityY.width s.advectionCellY (cells s.width s.height) s.velocityY.b) := by
  have h := velocity_sweep_eq Simulation.advectionCellX Simulation.advectionCellY
    (fun _ _ _ => rfl) (fun _ _ _ => rfl) s
  unfold Simulation.stepAdvection
  exact congrArg (fun r : Simulation α =>
    { r with velocityX := r.velocityX.swap, velocityY := r.velocityY.swap }) h

end stages

/-! ## C4: writes through `out`, then one `swap` -/

theorem foldl_out_eq (f : Int → Int → α) (cs : List (Int × Int)) (d : DoubleBuffer α) :
    cs.foldl (fun t c => t.out c.1 c.2 (f c.1 c.2)) d
      = { d with b := fill d.width f cs d.b } :=
  foldl_lens (fun t : DoubleBuffer α => t.b) (fun a t => { t with b := a })
    (fun t (c : Int × Int) a => writeAt a (c.1 + c.2 * t.width) (f c.1 c.2))
    (fun (c : Int × Int) t => t.out c.1 c.2 (f c.1 c.2))
    (fun _ _ => rfl) (fun _ _ => rfl) (fun _ _ _ => rfl) (fun _ => rfl) (fun _ _ => rfl) cs d

/-- C4 (swap pairing).  Take a well-formed `DoubleBuffer`, a function `f` on cells and a
list `cs` of calls that holds every in-range cell and in-range cells only.  After
`out(i, j, f(i, j))` for the cells of `cs` in turn and one `swap`, `get(i, j)` reads a
stored cell and returns `f(i, j)` for every in-range cell, whatever the two surfaces
held before.  The nested loops of a pipeline stage (`sweep`) are such a list of calls. -/
theorem swap_pairing [Zero α] (d : DoubleBuffer α) (hd : d.WF) (f : Int → Int → α)
    (cs : List (Int × Int))
    (hin : ∀ c ∈ cs, (0 ≤ c.1 ∧ c.1 < d.width) ∧ (0 ≤ c.2 ∧ c.2 < d.height))
    (hall : ∀ i j : Int, 0 ≤ i → i < d.width → 0 ≤ j → j < d.height → (i, j) ∈ cs)
    (i j : Int) (hi0 : 0 ≤ i) (hi : i < d.width) (hj0 : 0 ≤ j) (hj : j < d.height) :
    ((cs.foldl (fun t c => t.out c.1 c.2 (f c.1 c.2)) d).swap.get? i j = some (f i j) ∧
      (cs.foldl (fun t c => t.out c.1 c.2 (f c.1 c.2)) d).swap.get i j = f i j) ∧
    ((sweep d.width d.height (fun i j t => t.out i j (f i j)) d).swap.get? i j = some (f i j) ∧
      (sweep d.width d.height (fun i j t => t.out i j (f i j)) d).swap.get i j = f i j) := by
  obtain ⟨⟨hw, hh, _⟩, hl⟩ := hd
  have key : ∀ cs : List (Int × Int),
      (∀ c ∈ cs, (0 ≤ c.1 ∧ c.1 < d.width) ∧ (0 ≤ c.2 ∧ c.2 < d.height)) → (i, j) ∈ cs →
      (cs.foldl (fun t c => t.out c.1 c.2 (f c.1 c.2)) d).swap.get? i j = some (f i j) := by
    intro cs hin hmem
    rw [foldl_out_eq]
    show readAt (fill d.width f cs d.b) (mod i d.width + mod j d.height * d.width) = _
    rw [mod_of_inRange hi0 hi, mod_of_inRange hj0 hj]
    exact readAt_fill_of_mem f d.b hl cs hin hi0 hi hj0 hj hmem
  have k1 := key cs hin (hall i j hi0 hi hj0 hj)
  have k2 := key (cells d.width d.height) (fun _ hc => mem_cells.mp hc)
    (mem_cells.mpr ⟨⟨hi0, hi⟩, hj0, hj⟩)
  rw [← sweep_eq_foldl d.width d.height (fun i j t => t.out i j (f i j)) d] at k2
  refine ⟨⟨k1, ?_⟩, ⟨k2, ?_⟩⟩
  · show ((cs.foldl (fun t c => t.out c.1 c.2 (f c.1 c.2)) d).swap.get? i j).getD 0 = f i j
    rw [k1]; rfl
  · show ((sweep d.width d.height (fun i j t => t.out i j (f i j)) d).swap.get? i j).getD 0
      = f i j
    rw [k2]; rfl

/-- C4, at a 2 x 2 grid of rationals, the four cells written column by column, read back
at the cell `(1, 1)`. -/
theorem swap_pairing_witness :
    ((DoubleBuffer.mk (Buffer.mk 2 2 [1, 2, 3, 4]) [5, 6, 7, 8] : DoubleBuffer ℚ).WF ∧
      (∀ c ∈ [((0 : Int), (0 : Int)), (0, 1), (1, 0), (1, 1)],
        (0 ≤ c.1 ∧ c.1 < 2) ∧ (0 ≤ c.2 ∧ c.2 < 2)) ∧
      (∀ i j : Int, 0 ≤ i → i < 2 → 0 ≤ j → j < 2 →
        (i, j) ∈ [((0 : Int), (0 : Int)), (0, 1), (1, 0), (1, 1)])) ∧
    ((([((0 : Int), (0 : Int)), (0, 1), (1, 0), (1, 1)].foldl
          (fun t c => t.out c.1 c.2 ((c.1 : ℚ) + 10 * (c.2 : ℚ)))
          (DoubleBuffer.mk (Buffer.mk 2 2 [1, 2, 3, 4]) [5, 6, 7, 8] : DoubleBuffer ℚ)).swap.get? 1 1
        = some (((1 : Int) : ℚ) + 10 * ((1 : Int) : ℚ)) ∧
      ([((0 : Int), (0 : Int)), (0, 1), (1, 0), (1, 1)].foldl
          (fun t c => t.out c.1 c.2 ((c.1 : ℚ) + 10 * (c.2 : ℚ)))
          (DoubleBuffer.mk (Buffer.mk 2 2 [1, 2, 3, 4]) [5, 6, 7, 8] : DoubleBuffer ℚ)).swap.get 1 1
        = ((1 : Int) : ℚ) + 10 * ((1 : Int) : ℚ)) ∧
    ((sweep 2 2 (fun i j t => t.out i j ((i : ℚ) + 10 * (j : ℚ)))
          (DoubleBuffer.mk (Buffer.mk 2 2 [1, 2, 3, 4]) [5, 6, 7, 8] : DoubleBuffer ℚ)).swap.get? 1 1
        = some (((1 : Int) : ℚ) + 10 * ((1 : Int) : ℚ)) ∧
      (sweep 2 2 (fun i j t => t.out i j ((i : ℚ) + 10 * (j : ℚ)))
          (DoubleBuffer.mk (Buffer.mk 2 2 [1, 2, 3, 4]) [5, 6, 7, 8] : DoubleBuffer ℚ)).swap.get 1 1
        = ((1 : Int) : ℚ) + 10 * ((1 : Int) : ℚ))) :=
  have hin : ∀ c ∈ [((0 : Int), (0 : Int)), (0, 1), (1, 0), (1, 1)],
      (0 ≤ c.1 ∧ c.1 < 2) ∧ (0 ≤ c.2 ∧ c.2 < 2) := by decide
  have hall : ∀ i j : Int, 0 ≤ i → i < 2 → 0 ≤ j → j < 2 →
      (i, j) ∈ [((0 : Int), (0 : Int)), (0, 1), (1, 0), (1, 1)] := by
    intro i j hi0 hi hj0 hj
    interval_cases i <;> interval_cases j <;> simp
  ⟨⟨by simp [DoubleBuffer.WF, Buffer.WF], hin, hall⟩,
   swap_pairing (DoubleBuffer.mk (Buffer.mk 2 2 [1, 2, 3, 4]) [5, 6, 7, 8])
     (by simp [DoubleBuffer.WF, Buffer.WF]) (fun i j => (i : ℚ) + 10 * (j : ℚ)) _ hin hall
     1 1 (by decide) (by decide) (by decide) (by decide)⟩

/-! ## C9: `set` -/

/-- C9, as stated, fails: `set` computes its flat index with `index`, which does not
wrap.  On a 2 x 2 grid of zeros, `set(2, 0, 5)` writes the cell `(0, 1)`: afterwards
`get(2, 0)` is still `0` and `get(0, 1)`, which is not congruent to `(2, 0)`, has
changed; `set(-1, 0, 5)` writes nothing at all. -/
theorem set_does_not_wrap :
    ((Buffer.mk 2 2 [0, 0, 0, 0] : Buffer ℚ).set 2 0 5).get 2 0 = 0 ∧
    ((Buffer.mk 2 2 [0, 0, 0, 0] : Buffer ℚ).set 2 0 5).get 2 0 ≠ 5 ∧
    ¬ ((0 : Int) % 2 = 2 % 2 ∧ (1 : Int) % 2 = 0 % 2) ∧
    ((Buffer.mk 2 2 [0, 0, 0, 0] : Buffer ℚ).set 2 0 5).get 0 1
      ≠ (Buffer.mk 2 2 [0, 0, 0, 0] : Buffer ℚ).get 0 1 ∧
    (Buffer.mk 2 2 [0, 0, 0, 0] : Buffer ℚ).set (-1) 0 5 = Buffer.mk 2 2 [0, 0, 0, 0] ∧
    ((Buffer.mk 2 2 [0, 0, 0, 0] : Buffer ℚ).set (-1) 0 5).get (-1) 0 ≠ 5 := by
  have m0 : mod 0 2 = 0 := by decide
  have m1 : mod 1 2 = 1 := by decide
  have m2 : mod 2 2 = 0 := by decide
  have m3 : mod (-1) 2 = 1 := by decide
  refine ⟨?_, ?_, by decide, ?_, ?_, ?_⟩ <;>
    simp [Buffer.set, Buffer.get, Buffer.get?, Buffer.wrap, Buffer.index, readAt, writeAt,
      m0, m1, m2, m3]

/-- C9, amended to in-range coordinates.  For a well-formed `Buffer`, an in-range cell
`(x, y)` (`0 ≤ x < width`, `0 ≤ y < height`) and a value `v`: after `set(x, y, v)` the
call `get(x, y)` returns `v`, and `get` at every integer coordinate that is not
congruent to `(x, y)` modulo the extents is unchanged. -/
theorem set_get_inRange [Zero α] (b : Buffer α) (hb : b.WF) (x y : Int) (v : α)
    (hx0 : 0 ≤ x) (hx : x < b.width) (hy0 : 0 ≤ y) (hy : y < b.height) :
    (b.set x y v).get x y = v ∧
    ∀ x' y' : Int, ¬ (x' % b.width = x % b.width ∧ y' % b.height = y % b.height) →
      (b.set x y v).get x' y' = b.get x' y' := by
  obtain ⟨hw, hh, hl⟩ := hb
  have hb := index_bounds hx0 hx hy0 hy
  constructor
  · show (readAt (writeAt b.a (x + y * b.width) v)
      (mod x b.width + mod y b.height * b.width)).getD 0 = v
    rw [mod_of_inRange hx0 hx, mod_of_inRange hy0 hy,
      readAt_writeAt_same v hb.1 (by rw [hl]; exact hb.2)]
    rfl
  · intro x' y' hne
    show (readAt (writeAt b.a (x + y * b.width) v)
      (mod x' b.width + mod y' b.height * b.width)).getD 0
        = (readAt b.a (mod x' b.width + mod y' b.height * b.width)).getD 0
    rw [readAt_writeAt_ne]
    intro e
    rw [mod_eq_emod x' hw, mod_eq_emod y' hh] at e
    obtain ⟨e1, e2⟩ := index_inj hx0 hx (Int.emod_nonneg _ (by omega))
      (Int.emod_lt_of_pos _ hw) e
    apply hne
    rw [← e1, ← e2]
    exact ⟨(Int.emod_eq_of_lt hx0 hx).symm, (Int.emod_eq_of_lt hy0 hy).symm⟩

/-- C9 amended, at the cell `(1, 0)` of a 2 x 2 grid of rationals. -/
theorem set_get_inRange_witness :
    ((Buffer.mk 2 2 [1, 2, 3, 4] : Buffer ℚ).WF ∧ (0 : Int) ≤ 1 ∧ (1 : Int) < 2 ∧
      (0 : Int) ≤ 0 ∧ (0 : Int) < 2) ∧
    (((Buffer.mk 2 2 [1, 2, 3, 4] : Buffer ℚ).set 1 0 7).get 1 0 = 7 ∧
      ∀ x' y' : Int, ¬ (x' % 2 = 1 % 2 ∧ y' % 2 = 0 % 2) →
        ((Buffer.mk 2 2 [1, 2, 3, 4] : Buffer ℚ).set 1 0 7).get x' y'
          = (Buffer.mk 2 2 [1, 2, 3, 4] : Buffer ℚ).get x' y') :=
  ⟨⟨by simp [Buffer.WF], by decide, by decide, by decide, by decide⟩,
   set_get_inRange (Buffer.mk 2 2 [1, 2, 3, 4]) (by simp [Buffer.WF]) 1 0 7
     (by decide) (by decide) (by decide) (by decide)⟩

/-! ## `clear` and repeated passes -/

theorem readAt_natCast (a : List α) (k : Nat) : readAt a (k : Int) = a[k]? := by
  simp [readAt]

theorem foldl_writeAt_range (v : α) (a : List α) :
    (List.range a.length).foldl (fun r (i : Nat) => writeAt r (i : Int) v) a
      = List.replicate a.length v := by
  apply List.ext_getElem?
  intro k
  rw [← readAt_natCast, ← readAt_natCast]
  by_cases hk : k < a.length
  · rw [readAt_foldl_writeAt_of_mem (fun i : Nat => (i : Int)) (fun _ => v) (k : Int) v
      (List.range a.length) a (by omega) (by omega) ⟨k, List.mem_range.mpr hk, rfl⟩
      (fun _ _ _ => rfl)]
    rw [readAt_natCast, List.getElem?_replicate, if_pos hk]
  · rw [readAt_natCast, readAt_natCast, List.getElem?_eq_none, List.getElem?_eq_none]
    · rw [List.length_replicate]; omega
    · rw [length_foldl_writeAt (fun i : Nat => (i : Int)) (fun _ => v)]; omega

/-- The loop of `clear` fills the surface `a` with the value. -/
theorem Buffer.clear_eq [Zero α] [DecidableEq α] (b : Buffer α) (v : α) :
    b.clear v = { b with a := List.replicate b.a.length v } := by
  have hv : (if v = 0 then 0 else v) = v := by split <;> simp_all
  unfold Buffer.clear forRange
  rw [Int.toNat_ofNat, hv]
  have h := foldl_lens (fun t : Buffer α => t.a) (fun a t => { t with a := a })
    (fun _ (i : Nat) a => writeAt a (i : Int) v)
    (fun (i : Nat) t => { t with a := writeAt t.a (i : Int) v })
    (fun _ _ => rfl) (fun _ _ => rfl) (fun _ _ _ => rfl) (fun _ => rfl) (fun _ _ => rfl)
    (List.range b.a.length) b
  rw [h]
  exact congrArg (fun a => { b with a := a }) (foldl_writeAt_range v b.a)

/-- A loop whose body ignores the counter iterates the body. -/
theorem forRange_const {σ : Type} (f : σ → σ) (n : Nat) (s : σ) :
    forRange (n : Int) (fun _ t => f t) s = f^[n] s := by
  unfold forRange
  rw [Int.toNat_ofNat]
  induction n with
  | zero => rfl
  | succ n ih =>
    rw [List.range_succ, List.foldl_append, ih, Function.iterate_succ_apply']
    rfl

/-- What `get` reads from a surface whose cells all hold `v`. -/
theorem get_replicate [Zero α] {w h : Int} (hw : 0 < w) (hh : 0 < h) (n : Nat)
    (hn : (n : Int) = w * h) (v : α) (x y : Int) :
    (Buffer.mk w h (List.replicate n v)).get x y = v := by
  unfold Buffer.get Buffer.get?
  have hb := Buffer.wrap_bounds (Buffer.mk w h (List.replicate n v)) hw hh x y
  have h1 : ((Buffer.mk w h (List.replicate n v)).wrap x y).toNat < n := by
    have : (Buffer.mk w h (List.replicate n v)).wrap x y < (n : Int) := by rw [hn]; exact hb.2
    omega
  simp [readAt, hb.1, List.getElem?_replicate, h1]

theorem emod_add_one (x w : Int) : (x % w + 1) % w = (x + 1) % w :=
  Int.emod_add_emod x w 1

theorem emod_sub_one (x w : Int) : (x % w - 1) % w = (x - 1) % w := by
  rw [Int.sub_eq_add_neg, Int.sub_eq_add_neg]
  exact Int.emod_add_emod x w (-1)

/-! ## Reads around a wrapped cell -/

section neighbours

variable [Zero α]

theorem Buffer.get_emod (b : Buffer α) (hw : 0 < b.width) (hh : 0 < b.height) (x y : Int) :
    b.get (x % b.width) (y % b.height) = b.get x y :=
  Buffer.get_congr b hw hh (Int.emod_emod _ _) (Int.emod_emod _ _)

theorem Buffer.get_emod_east (b : Buffer α) (hw : 0 < b.width) (hh : 0 < b.height)
    (x y : Int) : b.get (x % b.width + 1) (y % b.height) = b.get (x + 1) y :=
  Buffer.get_congr b hw hh (emod_add_one _ _) (Int.emod_emod _ _)

theorem Buffer.get_emod_west (b : Buffer α) (hw : 0 < b.width) (hh : 0 < b.height)
    (x y : Int) : b.get (x % b.width - 1) (y % b.height) = b.get (x - 1) y :=
  Buffer.get_congr b hw hh (emod_sub_one _ _) (Int.emod_emod _ _)

theorem Buffer.get_emod_south (b : Buffer α) (hw : 0 < b.width) (hh : 0 < b.height)
    (x y : Int) : b.get (x % b.width) (y % b.height + 1) = b.get x (y + 1) :=
  Buffer.get_congr b hw hh (Int.emod_emod _ _) (emod_add_one _ _)

theorem Buffer.get_emod_north (b : Buffer α) (hw : 0 < b.width) (hh : 0 < b.height)
    (x y : Int) : b.get (x % b.width) (y % b.height - 1) = b.get x (y - 1) :=
  Buffer.get_congr b hw hh (Int.emod_emod _ _) (emod_sub_one _ _)

end neighbours

/-! ## The pressure solve -/

section pressure

variable [LinearOrderedField α]

/-- The value written by a pass of the pressure solve is the Jacobi update of the
visible pressure. -/
theorem Simulation.pressureCell_emod (t : Simulation α) (hw : 0 < t.width) (hh : 0 < t.height)
    (hpw : t.pressure.width = t.width) (hph : t.pressure.height = t.height)
    (hdw : t.divergence.width = t.width) (hdh : t.divergence.height = t.height) (x y : Int) :
    t.pressureCell (x % t.width) (y % t.height)
      = jacobi t.divergence.get t.pressure.toBuffer.get x y := by
  have hw1 : 0 < t.pressure.width := by rw [hpw]; exact hw
  have hh1 : 0 < t.pressure.height := by rw [hph]; exact hh
  have hw2 : 0 < t.divergence.width := by rw [hdw]; exact hw
  have hh2 : 0 < t.divergence.height := by rw [hdh]; exact hh
  have e1 := Buffer.get_emod_east t.pressure.toBuffer hw1 hh1 x y
  have e2 := Buffer.get_emod_west t.pressure.toBuffer hw1 hh1 x y
  have e3 := Buffer.get_emod_south t.pressure.toBuffer hw1 hh1 x y
  have e4 := Buffer.get_emod_north t.pressure.toBuffer hw1 hh1 x y
  have e5 := Buffer.get_emod t.divergence hw2 hh2 x y
  rw [hpw, hph] at e1 e2 e3 e4
  rw [hdw, hdh] at e5
  unfold Simulation.pressureCell jacobi
  simp only [e1, e2, e3, e4, e5]
  ring

/-- One pass of the pressure solve: the visible surface becomes the Jacobi update of the
former visible surface, which becomes the hidden one. -/
theorem Simulation.pressureIteration_spec (t : Simulation α) (hp : t.pressure.WF)
    (hpw : t.pressure.width = t.width) (hph : t.pressure.height = t.height)
    (hdw : t.divergence.width = t.width) (hdh : t.divergence.height = t.height) :
    ∃ P : DoubleBuffer α, t.pressureIteration = { t with pressure := P } ∧
      P.WF ∧ P.width = t.width ∧ P.height = t.height ∧
      P.toBuffer.get = jacobi t.divergence.get t.pressure.toBuffer.get ∧
      P.b = t.pressure.a := by
  obtain ⟨⟨hw1, hh1, hla⟩, hlb⟩ := hp
  have hw : 0 < t.width := by rw [← hpw]; exact hw1
  have hh : 0 < t.height := by rw [← hph]; exact hh1
  refine ⟨_, t.pressureIteration_eq, ⟨⟨hw1, hh1, ?_⟩, hla⟩, hpw, hph, ?_, rfl⟩
  · show ((fill _ _ _ _).length : Int) = _
    rw [length_fill]; exact hlb
  · funext x y
    rw [← t.pressureCell_emod hw hh hpw hph hdw hdh x y, ← hpw, ← hph]
    exact get_fill hw1 hh1 _ _ hlb x y

/-- The state after `n` passes of the pressure solve. -/
theorem Simulation.pressureIteration_iterate (t : Simulation α) (hp : t.pressure.WF)
    (hpw : t.pressure.width = t.width) (hph : t.pressure.height = t.height)
    (hdw : t.divergence.width = t.width) (hdh : t.divergence.height = t.height) (n : Nat) :
    ∃ P : DoubleBuffer α, Simulation.pressureIteration^[n] t = { t with pressure := P } ∧
      P.WF ∧ P.width = t.width ∧ P.height = t.height ∧
      P.toBuffer.get = (jacobi t.divergence.get)^[n] t.pressure.toBuffer.get ∧
      (1 ≤ n → P.swap.toBuffer.get = (jacobi t.divergence.get)^[n - 1] t.pressure.toBuffer.get) := by
  induction n with
  | zero => exact ⟨t.pressure, rfl, hp, hpw, hph, rfl, fun h => absurd h (by omega)⟩
  | succ n ih =>
    obtain ⟨P, hP, hPwf, hPw, hPh, hPget, _⟩ := ih
    obtain ⟨Q, hQ, hQwf, hQw, hQh, hQget, hQb⟩ :=
      Simulation.pressureIteration_spec { t with pressure := P } hPwf hPw hPh hdw hdh
    refine ⟨Q, ?_, hQwf, hQw, hQh, ?_, fun _ => ?_⟩
    · rw [Function.iterate_succ_apply', hP, hQ]
    · rw [Function.iterate_succ_apply', hQget, hPget]
    · show (Buffer.mk Q.width Q.height Q.b).get = _
      rw [hQb, hQw, hQh, ← hPw, ← hPh, Nat.add_sub_cancel, ← hPget]

end pressure

/-! ## What each stage leaves behind -/

theorem Simulation.wf_pos {s : Simulation α} (hs : s.WF) : 0 < s.width ∧ 0 < s.height := by
  obtain ⟨⟨⟨⟨hw, hh, _⟩, _⟩, e1, e2⟩, _⟩ := hs
  rw [← e1, ← e2]
  exact ⟨hw, hh⟩

theorem DoubleBuffer.wf_swap {d : DoubleBuffer α} (hd : d.WF) : d.swap.WF := by
  obtain ⟨⟨hw, hh, hla⟩, hlb⟩ := hd
  exact ⟨⟨hw, hh, hlb⟩, hla⟩

section specs

variable [LinearOrderedField α]

/-- The pressure solve: the pressure grid alone changes; with `N ≥ 1` passes the visible
surface holds the iterate `N - 1` of the Jacobi update and the hidden one the iterate
`N`, both started from the uniform baseline. -/
theorem Simulation.stepPressure_spec (config : Config α) (s : Simulation α) (hs : s.WF) :
    ∃ P : DoubleBuffer α, s.stepPressure config = { s with pressure := P } ∧
      ({ s with pressure := P } : Simulation α).WF ∧
      (1 ≤ s.iterations → P.toBuffer.get
        = (jacobi s.divergence.get)^[s.iterations - 1] (fun _ _ => config.pressure)) ∧
      P.swap.toBuffer.get
        = (jacobi s.divergence.get)^[s.iterations] (fun _ _ => config.pressure) := by
  obtain ⟨hx, hy, hc, ⟨hd, hdw, hdh⟩, ⟨hp, hpw, hph⟩⟩ := hs
  obtain ⟨⟨hw1, hh1, hla⟩, hlb⟩ := hp
  have hclear : (s.pressure.clear config.pressure).toBuffer.get
      = fun _ _ => config.pressure := by
    funext x y
    show (s.pressure.toBuffer.clear config.pressure).get x y = _
    rw [Buffer.clear_eq]
    exact get_replicate hw1 hh1 _ hla _ x y
  have hwf : (s.pressure.clear config.pressure).WF := by
    refine ⟨?_, ?_⟩
    · show (s.pressure.toBuffer.clear config.pressure).WF
      rw [Buffer.clear_eq]
      exact ⟨hw1, hh1, by rw [List.length_replicate]; exact hla⟩
    · show ((s.pressure.clear config.pressure).b.length : Int)
        = (s.pressure.toBuffer.clear config.pressure).width
          * (s.pressure.toBuffer.clear config.pressure).height
      rw [Buffer.clear_eq]
      exact hlb
  have hcw : (s.pressure.clear config.pressure).width = s.width := by
    show (s.pressure.toBuffer.clear config.pressure).width = _
    rw [Buffer.clear_eq]; exact hpw
  have hch : (s.pressure.clear config.pressure).height = s.height := by
    show (s.pressure.toBuffer.clear config.pressure).height = _
    rw [Buffer.clear_eq]; exact hph
  obtain ⟨P, hP, hPwf, hPw, hPh, hPget, hPswap⟩ :=
    Simulation.pressureIteration_iterate
      { s with pressure := s.pressure.clear config.pressure } hwf hcw hch hdw hdh s.iterations
  refine ⟨P.swap, ?_, ⟨hx, hy, hc, ⟨hd, hdw, hdh⟩, ⟨DoubleBuffer.wf_swap hPwf, hPw, hPh⟩⟩, ?_, ?_⟩
  · unfold Simulation.stepPressure
    show (fun r : Simulation α => { r with pressure := r.pressure.swap })
      (forRange (s.iterations : Int) (fun _ t => t.pressureIteration)
        { s with pressure := s.pressure.clear config.pressure }) = _
    rw [forRange_const, hP]
  · intro hN
    rw [hPswap hN]
    exact congrArg _ hclear
  · show P.toBuffer.get = _
    rw [hPget]
    exact congrArg _ hclear

theorem Simulation.stepCurl_spec (s : Simulation α) (hs : s.WF) :
    ∃ C : Buffer α, s.stepCurl = { s with curl := C } ∧
      ({ s with curl := C } : Simulation α).WF ∧
      ∀ x y : Int, C.get x y = s.curlCell (x % s.width) (y % s.height) := by
  obtain ⟨hx, hy, ⟨⟨hw, hh, hl⟩, hcw, hch⟩, hd, hp⟩ := hs
  refine ⟨_, s.stepCurl_eq, ⟨hx, hy, ⟨⟨hw, hh, ?_⟩, hcw, hch⟩, hd, hp⟩, fun x y => ?_⟩
  · show ((fill _ _ _ _).length : Int) = _
    rw [length_fill]; exact hl
  · rw [← hcw, ← hch]
    exact get_fill hw hh _ _ hl x y

theorem Simulation.stepDivergence_spec (s : Simulation α) (hs : s.WF) :
    ∃ D : Buffer α, s.stepDivergence = { s with divergence := D } ∧
      ({ s with divergence := D } : Simulation α).WF ∧
      ∀ x y : Int, D.get x y = s.divergenceCell (x % s.width) (y % s.height) := by
  obtain ⟨hx, hy, hc, ⟨⟨hw, hh, hl⟩, hdw, hdh⟩, hp⟩ := hs
  refine ⟨_, s.stepDivergence_eq, ⟨hx, hy, hc, ⟨⟨hw, hh, ?_⟩, hdw, hdh⟩, hp⟩, fun x y => ?_⟩
  · show ((fill _ _ _ _).length : Int) = _
    rw [length_fill]; exact hl
  · rw [← hdw, ← hdh]
    exact get_fill hw hh _ _ hl x y

/-- A stage that fills the hidden velocity surfaces with `gX` and `gY` and swaps. -/
theorem Simulation.withVelocity_fill_spec (s : Simulation α) (hs : s.WF)
    (gX gY : Int → Int → α) :
    (s.withVelocity (fill s.velocityX.width gX (cells s.width s.height) s.velocityX.b)
        (fill s.velocityY.width gY (cells s.width s.height) s.velocityY.b)).WF ∧
    (∀ x y : Int,
      (s.withVelocity (fill s.velocityX.width gX (cells s.width s.height) s.velocityX.b)
        (fill s.velocityY.width gY (cells s.width s.height) s.velocityY.b)).velocityX.get x y
        = gX (x % s.width) (y % s.height)) ∧
    (∀ x y : Int,
      (s.withVelocity (fill s.velocityX.width gX (cells s.width s.height) s.velocityX.b)
        (fill s.velocityY.width gY (cells s.width s.height) s.velocityY.b)).velocityY.get x y
        = gY (x % s.width) (y % s.height)) := by
  obtain ⟨⟨⟨⟨hxw, hxh, hxa⟩, hxb⟩, hx1, hx2⟩, ⟨⟨⟨hyw, hyh, hya⟩, hyb⟩, hy1, hy2⟩, hc, hd, hp⟩ := hs
  refine ⟨⟨⟨⟨⟨hxw, hxh, ?_⟩, hxa⟩, hx1, hx2⟩, ⟨⟨⟨hyw, hyh, ?_⟩, hya⟩, hy1, hy2⟩, hc, hd, hp⟩,
    fun x y => ?_, fun x y => ?_⟩
  · show ((fill _ _ _ _).length : Int) = _
    rw [length_fill]; exact hxb
  · show ((fill _ _ _ _).length : Int) = _
    rw [length_fill]; exact hyb
  · rw [← hx1, ← hx2]
    exact get_fill hxw hxh _ _ hxb x y
  · rw [← hy1, ← hy2]
    exact get_fill hyw hyh _ _ hyb x y

end specs

/-! ## C5: uniform flow -/

theorem jacobi_zero_const [LinearOrderedField α] (c : α) :
    jacobi (fun _ _ => (0 : α)) (fun _ _ => c) = fun _ _ => c := by
  funext x y
  unfold jacobi
  ring

theorem get_of_inRange [Zero α] (b : Buffer α) (hw : 0 < b.width) (hh : 0 < b.height) (a : α)
    (h : ∀ i j : Int, 0 ≤ i → i < b.width → 0 ≤ j → j < b.height → b.get i j = a)
    (x y : Int) : b.get x y = a := by
  rw [← Buffer.get_emod b hw hh x y]
  exact h _ _ (Int.emod_nonneg _ (by omega)) (Int.emod_lt_of_pos _ hw)
    (Int.emod_nonneg _ (by omega)) (Int.emod_lt_of_pos _ hh)

/-- With a zero vorticity factor, curl and vorticity confinement leave a well-formed
simulation well formed and do not change what `get` reads from the velocity. -/
theorem Simulation.vorticity_off [LinearOrderedField α] (sqrt : α → α) (config : Config α)
    (s : Simulation α) (hs : s.WF) (hcurl : config.vorticity = 0) :
    (s.stepCurl.stepVorticity sqrt config).WF ∧
    (∀ x y : Int,
      (s.stepCurl.stepVorticity sqrt config).velocityX.get x y = s.velocityX.get x y) ∧
    (∀ x y : Int,
      (s.stepCurl.stepVorticity sqrt config).velocityY.get x y = s.velocityY.get x y) ∧
    (s.stepCurl.stepVorticity sqrt config).width = s.width ∧
    (s.stepCurl.stepVorticity sqrt config).height = s.height ∧
    (s.stepCurl.stepVorticity sqrt config).iterations = s.iterations ∧
    (s.stepCurl.stepVorticity sqrt config).dt = s.dt := by
  obtain ⟨C, hC, hCwf, -⟩ := s.stepCurl_spec hs
  rw [hC, Simulation.stepVorticity_eq]
  obtain ⟨hVwf, hVx, hVy⟩ := Simulation.withVelocity_fill_spec _ hCwf
    (Simulation.vorticityCellX sqrt config { s with curl := C })
    (Simulation.vorticityCellY sqrt config { s with curl := C })
  obtain ⟨⟨⟨⟨hxw, hxh, _⟩, _⟩, hx1, hx2⟩, ⟨⟨⟨hyw, hyh, _⟩, _⟩, hy1, hy2⟩, _⟩ := hs
  refine ⟨hVwf, fun x y => ?_, fun x y => ?_, rfl, rfl, rfl, rfl⟩
  · rw [hVx x y]
    unfold Simulation.vorticityCellX
    simp only [hcurl, neg_zero, zero_mul, mul_zero, add_zero]
    show s.velocityX.toBuffer.get (x % s.width) (y % s.height) = _
    rw [← hx1, ← hx2]
    exact Buffer.get_emod _ hxw hxh x y
  · rw [hVy x y]
    unfold Simulation.vorticityCellY
    simp only [hcurl, neg_zero, zero_mul, mul_zero, add_zero]
    show s.velocityY.toBuffer.get (x % s.width) (y % s.height) = _
    rw [← hy1, ← hy2]
    exact Buffer.get_emod _ hyw hyh x y

/-- C5 (uniform-flow scenario).  Take a well-formed 2D `Simulation` with at least one
pressure pass (the constructor sets 10) whose `velocityX` is `a` and whose `velocityY`
is `b` at every cell.  With curl factor 0 and pressure baseline 0, after `step(dt)` the
divergence grid reads 0 and the visible pressure reads 0 at every coordinate. -/
theorem uniform_flow_scenario [LinearOrderedField α] [FloorRing α] (sqrt : α → α)
    (config : Config α) (s : Simulation α) (a b dt : α) (hs : s.WF)
    (hN : 1 ≤ s.iterations)
    (hvx : ∀ i j : Int, 0 ≤ i → i < s.width → 0 ≤ j → j < s.height → s.velocityX.get i j = a)
    (hvy : ∀ i j : Int, 0 ≤ i → i < s.width → 0 ≤ j → j < s.height → s.velocityY.get i j = b)
    (hcurl : config.vorticity = 0) (hbase : config.pressure = 0) (x y : Int) :
    (s.step sqrt config dt).divergence.get x y = 0 ∧
    (s.step sqrt config dt).pressure.get x y = 0 := by
  have hs0 : ({ s with dt := dt } : Simulation α).WF := hs
  obtain ⟨hVwf, hVx, hVy, hVw, hVh, hVn, -⟩ :=
    Simulation.vorticity_off sqrt config { s with dt := dt } hs0 hcurl
  obtain ⟨⟨⟨⟨hxw, hxh, _⟩, _⟩, hx1, hx2⟩, ⟨⟨⟨hyw, hyh, _⟩, _⟩, hy1, hy2⟩, _⟩ := hs
  have hX : ∀ x y : Int, s.velocityX.get x y = a :=
    get_of_inRange _ hxw hxh a (by rw [hx1, hx2]; exact hvx)
  have hY : ∀ x y : Int, s.velocityY.get x y = b :=
    get_of_inRange _ hyw hyh b (by rw [hy1, hy2]; exact hvy)
  obtain ⟨D, hD, hDwf, hDget⟩ := Simulation.stepDivergence_spec _ hVwf
  have hD0 : D.get = fun _ _ => (0 : α) := by
    funext x y
    rw [hDget x y]
    unfold Simulation.divergenceCell
    simp only [hVx, hVy]
    show (1 / 2 : α) * (s.velocityX.get _ _ + -s.velocityX.get _ _ + -s.velocityY.get _ _
      + s.velocityY.get _ _) = 0
    simp only [hX, hY]
    ring
  obtain ⟨P, hP, hPwf, hPget, -⟩ := Simulation.stepPressure_spec config _ hDwf
  have hP0 : P.toBuffer.get = fun _ _ => (0 : α) := by
    rw [hPget (by rw [hVn]; exact hN)]
    show (jacobi D.get)^[_] _ = _
    rw [hD0, hbase]
    exact Function.iterate_fixed (jacobi_zero_const 0) _
  have e : s.step sqrt config dt
      = (({ ((({ s with dt := dt } : Simulation α).stepCurl.stepVorticity sqrt config)) with
            divergence := D, pressure := P } : Simulation α).stepSubtractGradient).stepAdvection := by
    unfold Simulation.step
    simp only [hD, hP]
  rw [e, Simulation.stepAdvection_eq, Simulation.stepSubtractGradient_eq]
  constructor
  · show D.get x y = 0
    rw [hD0]
  · show P.toBuffer.get x y = 0
    rw [hP0]

/-- C5, at the scenario of the spec: a 4 x 4 grid, `velocityX` 5 and `velocityY` 0
everywhere, `dt = 0.1`, ten pressure passes, read at the cell `(1, 2)`. -/
theorem uniform_flow_scenario_witness :
    ((Simulation.mk 4 4
        ⟨⟨4, 4, List.replicate 16 5⟩, List.replicate 16 0⟩
        ⟨⟨4, 4, List.replicate 16 0⟩, List.replicate 16 0⟩
        ⟨4, 4, List.replicate 16 0⟩ ⟨4, 4, List.replicate 16 0⟩
        ⟨⟨4, 4, List.replicate 16 0⟩, List.replicate 16 0⟩ 10 (1 / 10) 0 : Simulation ℚ).WF ∧
      (1 ≤ 10) ∧ (Config.mk 0 0 : Config ℚ).vorticity = 0 ∧
      (Config.mk 0 0 : Config ℚ).pressure = 0) ∧
    (((Simulation.mk 4 4
        ⟨⟨4, 4, List.replicate 16 5⟩, List.replicate 16 0⟩
        ⟨⟨4, 4, List.replicate 16 0⟩, List.replicate 16 0⟩
        ⟨4, 4, List.replicate 16 0⟩ ⟨4, 4, List.replicate 16 0⟩
        ⟨⟨4, 4, List.replicate 16 0⟩, List.replicate 16 0⟩ 10 (1 / 10) 0 : Simulation ℚ).step
          Rat.sqrt (Config.mk 0 0) (1 / 10)).divergence.get 1 2 = 0 ∧
      ((Simulation.mk 4 4
        ⟨⟨4, 4, List.replicate 16 5⟩, List.replicate 16 0⟩
        ⟨⟨4, 4, List.replicate 16 0⟩, List.replicate 16 0⟩
        ⟨4, 4, List.replicate 16 0⟩ ⟨4, 4, List.replicate 16 0⟩
        ⟨⟨4, 4, List.replicate 16 0⟩, List.replicate 16 0⟩ 10 (1 / 10) 0 : Simulation ℚ).step
          Rat.sqrt (Config.mk 0 0) (1 / 10)).pressure.get 1 2 = 0) :=
  ⟨⟨by simp [Simulation.WF, DoubleBuffer.WF, Buffer.WF], by decide, rfl, rfl⟩,
   uniform_flow_scenario Rat.sqrt (Config.mk 0 0) _ 5 0 (1 / 10)
     (by simp [Simulation.WF, DoubleBuffer.WF, Buffer.WF]) (by decide)
     (fun i j _ _ _ _ => get_replicate (by decide) (by decide) 16 (by decide) 5 i j)
     (fun i j _ _ _ _ => get_replicate (by decide) (by decide) 16 (by decide) 0 i j)
     rfl rfl 1 2⟩

/-! ## Evaluation of a sweep on a concrete grid -/

/-- The surface left by a full sweep, cell by cell in the order of the flat index. -/
theorem fill_cells_eq_map {w h : Int} (hw : 0 < w) (g : Int → Int → α)
    (a : List α) (hl : (a.length : Int) = w * h) :
    fill w g (cells w h) a
      = (List.range a.length).map fun (k : Nat) => g ((k : Int) % w) ((k : Int) / w) := by
  apply List.ext_getElem?
  intro k
  by_cases hk : k < a.length
  · have hkw : (k : Int) < w * h := by omega
    have e : (k : Int) = (k : Int) % w + (k : Int) / w * w := by
      have := Int.emod_add_ediv (k : Int) w
      rw [Int.mul_comm] at this
      omega
    have hj0 : 0 ≤ (k : Int) / w := Int.ediv_nonneg (by omega) (by omega)
    have hj : (k : Int) / w < h := by
      apply Int.ediv_lt_of_lt_mul hw
      rw [Int.mul_comm]; exact hkw
    have key := readAt_fill_cells g a hl (Int.emod_nonneg (k : Int) (by omega))
      (Int.emod_lt_of_pos (k : Int) hw) hj0 hj
    rw [← e, readAt_natCast] at key
    rw [key, List.getElem?_map, List.getElem?_range hk]
    rfl
  · rw [List.getElem?_eq_none, List.getElem?_eq_none]
    · rw [List.length_map, List.length_range]; omega
    · rw [length_fill]; omega

/-! ## C6: the projection and the divergence -/

section projection

variable [LinearOrderedField α]

theorem Simulation.divergenceCell_emod (t : Simulation α) (ht : t.WF) (x y : Int) :
    t.divergenceCell (x % t.width) (y % t.height)
      = (1 / 2) * ((t.velocityX.get (x + 1) y - t.velocityX.get (x - 1) y)
          + (t.velocityY.get x (y + 1) - t.velocityY.get x (y - 1))) := by
  obtain ⟨⟨⟨⟨hxw, hxh, _⟩, _⟩, hx1, hx2⟩, ⟨⟨⟨hyw, hyh, _⟩, _⟩, hy1, hy2⟩, _⟩ := ht
  have e1 := Buffer.get_emod_east t.velocityX.toBuffer hxw hxh x y
  have e2 := Buffer.get_emod_west t.velocityX.toBuffer hxw hxh x y
  have e3 := Buffer.get_emod_south t.velocityY.toBuffer hyw hyh x y
  have e4 := Buffer.get_emod_north t.velocityY.toBuffer hyw hyh x y
  rw [hx1, hx2] at e1 e2
  rw [hy1, hy2] at e3 e4
  unfold Simulation.divergenceCell
  simp only [e1, e2, e3, e4]
  ring

theorem Simulation.gradientCellX_emod (t : Simulation α) (ht : t.WF) (x y : Int) :
    t.gradientCellX (x % t.width) (y % t.height)
      = t.velocityX.get x y - (t.pressure.get (x + 1) y - t.pressure.get (x - 1) y) := by
  obtain ⟨⟨⟨⟨hxw, hxh, _⟩, _⟩, hx1, hx2⟩, _, _, _, ⟨⟨⟨hpw, hph, _⟩, _⟩, hp1, hp2⟩⟩ := ht
  have e1 := Buffer.get_emod_east t.pressure.toBuffer hpw hph x y
  have e2 := Buffer.get_emod_west t.pressure.toBuffer hpw hph x y
  have e3 := Buffer.get_emod t.velocityX.toBuffer hxw hxh x y
  rw [hp1, hp2] at e1 e2
  rw [hx1, hx2] at e3
  unfold Simulation.gradientCellX
  simp only [e1, e2, e3]
  ring

theorem Simulation.gradientCellY_emod (t : Simulation α) (ht : t.WF) (x y : Int) :
    t.gradientCellY (x % t.width) (y % t.height)
      = t.velocityY.get x y - (t.pressure.get x (y + 1) - t.pressure.get x (y - 1)) := by
  obtain ⟨_, ⟨⟨⟨hyw, hyh, _⟩, _⟩, hy1, hy2⟩, _, _, ⟨⟨⟨hpw, hph, _⟩, _⟩, hp1, hp2⟩⟩ := ht
  have e1 := Buffer.get_emod_south t.pressure.toBuffer hpw hph x y
  have e2 := Buffer.get_emod_north t.pressure.toBuffer hpw hph x y
  have e3 := Buffer.get_emod t.velocityY.toBuffer hyw hyh x y
  rw [hp1, hp2] at e1 e2
  rw [hy1, hy2] at e3
  unfold Simulation.gradientCellY
  simp only [e1, e2, e3]
  ring

/-- Gradient subtraction: the velocity read after the stage, at every coordinate. -/
theorem Simulation.stepSubtractGradient_spec (t : Simulation α) (ht : t.WF) :
    t.stepSubtractGradient.WF ∧
    (∀ x y : Int, t.stepSubtractGradient.velocityX.get x y
      = t.velocityX.get x y - (t.pressure.get (x + 1) y - t.pressure.get (x - 1) y)) ∧
    (∀ x y : Int, t.stepSubtractGradient.velocityY.get x y
      = t.velocityY.get x y - (t.pressure.get x (y + 1) - t.pressure.get x (y - 1))) := by
  rw [Simulation.stepSubtractGradient_eq]
  obtain ⟨hwf, hX, hY⟩ := Simulation.withVelocity_fill_spec t ht t.gradientCellX t.gradientCellY
  exact ⟨hwf, fun x y => by rw [hX, t.gradientCellX_emod ht],
    fun x y => by rw [hY, t.gradientCellY_emod ht]⟩

/-- The divergence grid after `stepDivergence`, at every coordinate. -/
theorem Simulation.stepDivergence_get (t : Simulation α) (ht : t.WF) (x y : Int) :
    t.stepDivergence.divergence.get x y
      = (1 / 2) * ((t.velocityX.get (x + 1) y - t.velocityX.get (x - 1) y)
          + (t.velocityY.get x (y + 1) - t.velocityY.get x (y - 1))) := by
  obtain ⟨D, hD, -, hDget⟩ := t.stepDivergence_spec ht
  rw [hD]
  show D.get x y = _
  rw [hDget, t.divergenceCell_emod ht]

theorem Simulation.stepSubtractGradient_pressure (t : Simulation α) :
    t.stepSubtractGradient.pressure = t.pressure := by
  rw [Simulation.stepSubtractGradient_eq]; rfl

end projection

/-- C6, amended.  Over exact arithmetic, for a well-formed 2D simulation, the divergence
recomputed after the projection (`stepDivergence`, `stepPressure`,
`stepSubtractGradient`) is, at every cell, the divergence before the projection minus
half the stride-2 Laplacian
`p(i+2, j) + p(i-2, j) + p(i, j+2) + p(i, j-2) - 4 p(i, j)` of the pressure `p` that
`stepSubtractGradient` has read, the surface that `stepPressure` leaves visible.  No
decrease of the sum of `|divergence|` follows. -/
theorem projection_divergence [LinearOrderedField α] (config : Config α) (s : Simulation α)
    (hs : s.WF) (x y : Int) :
    (s.project config).stepDivergence.divergence.get x y
        = s.stepDivergence.divergence.get x y
          - (1 / 2) * ((s.project config).pressure.get (x + 2) y
              + (s.project config).pressure.get (x - 2) y
              + (s.project config).pressure.get x (y + 2)
              + (s.project config).pressure.get x (y - 2)
              - 4 * (s.project config).pressure.get x y) := by
  obtain ⟨D, hD, hDwf, -⟩ := s.stepDivergence_spec hs
  obtain ⟨P, hP, hPwf, -, -⟩ := Simulation.stepPressure_spec config _ hDwf
  have e : s.project config
      = ({ s with divergence := D, pressure := P } : Simulation α).stepSubtractGradient := by
    unfold Simulation.project
    rw [hD, hP]
  obtain ⟨hGwf, hGx, hGy⟩ := Simulation.stepSubtractGradient_spec _ hPwf
  have hpr : (s.project config).pressure = P := by
    rw [e, Simulation.stepSubtractGradient_pressure]
  rw [hpr, e, Simulation.stepDivergence_get _ hGwf, Simulation.stepDivergence_get s hs]
  simp only [hGx, hGy]
  have a1 : x + 1 + 1 = x + 2 := by ring
  have a2 : x + 1 - 1 = x := by ring
  have a3 : x - 1 + 1 = x := by ring
  have a4 : x - 1 - 1 = x - 2 := by ring
  have b1 : y + 1 + 1 = y + 2 := by ring
  have b2 : y + 1 - 1 = y := by ring
  have b3 : y - 1 + 1 = y := by ring
  have b4 : y - 1 - 1 = y - 2 := by ring
  simp only [a1, a2, a3, a4, b1, b2, b3, b4]
  show _ = _ - (1 / 2) * (P.toBuffer.get (x + 2) y + P.toBuffer.get (x - 2) y
    + P.toBuffer.get x (y + 2) + P.toBuffer.get x (y - 2) - 4 * P.toBuffer.get x y)
  show (1 / 2 : α) * ((s.velocityX.get (x + 1) y
        - (P.toBuffer.get (x + 2) y - P.toBuffer.get x y)
      - (s.velocityX.get (x - 1) y - (P.toBuffer.get x y - P.toBuffer.get (x - 2) y)))
    + (s.velocityY.get x (y + 1) - (P.toBuffer.get x (y + 2) - P.toBuffer.get x y)
      - (s.velocityY.get x (y - 1) - (P.toBuffer.get x y - P.toBuffer.get x (y - 2))))) = _
  ring

/-! ## The stages on a concrete grid -/

theorem Simulation.withVelocity_fill_eq_map (s : Simulation α) (hs : s.WF)
    (gX gY : Int → Int → α) :
    s.withVelocity (fill s.velocityX.width gX (cells s.width s.height) s.velocityX.b)
        (fill s.velocityY.width gY (cells s.width s.height) s.velocityY.b)
      = s.withVelocity
          ((List.range s.velocityX.b.length).map fun (k : Nat) =>
            gX ((k : Int) % s.width) ((k : Int) / s.width))
          ((List.range s.velocityY.b.length).map fun (k : Nat) =>
            gY ((k : Int) % s.width) ((k : Int) / s.width)) := by
  obtain ⟨⟨⟨⟨hxw, _, _⟩, hxb⟩, hx1, hx2⟩, ⟨⟨⟨hyw, _, _⟩, hyb⟩, hy1, hy2⟩, _⟩ := hs
  have e1 := fill_cells_eq_map hxw gX s.velocityX.b hxb
  have e2 := fill_cells_eq_map hyw gY s.velocityY.b hyb
  rw [hx1, hx2] at e1
  rw [hy1, hy2] at e2
  rw [hx1, hy1, e1, e2]

section evaluation

variable [LinearOrderedField α]

theorem Simulation.stepCurl_eq_map (s : Simulation α) (hs : s.WF) :
    s.stepCurl = { s with curl := { s.curl with
      a := (List.range s.curl.a.length).map fun (k : Nat) =>
        s.curlCell ((k : Int) % s.width) ((k : Int) / s.width) } } := by
  obtain ⟨_, _, ⟨⟨hw, _, hl⟩, hcw, hch⟩, _, _⟩ := hs
  have e := fill_cells_eq_map hw s.curlCell s.curl.a hl
  rw [hcw, hch] at e
  rw [Simulation.stepCurl_eq, hcw, e]

theorem Simulation.stepDivergence_eq_map (s : Simulation α) (hs : s.WF) :
    s.stepDivergence = { s with divergence := { s.divergence with
      a := (List.range s.divergence.a.length).map fun (k : Nat) =>
        s.divergenceCell ((k : Int) % s.width) ((k : Int) / s.width) } } := by
  obtain ⟨_, _, _, ⟨⟨hw, _, hl⟩, hdw, hdh⟩, _⟩ := hs
  have e := fill_cells_eq_map hw s.divergenceCell s.divergence.a hl
  rw [hdw, hdh] at e
  rw [Simulation.stepDivergence_eq, hdw, e]

theorem Simulation.pressureIteration_eq_map (s : Simulation α) (hs : s.WF) :
    s.pressureIteration = { s with pressure :=
      { width := s.pressure.width, height := s.pressure.height,
        a := (List.range s.pressure.b.length).map fun (k : Nat) =>
          s.pressureCell ((k : Int) % s.width) ((k : Int) / s.width),
        b := s.pressure.a } } := by
  obtain ⟨_, _, _, _, ⟨⟨⟨hw, _, _⟩, hl⟩, hpw, hph⟩⟩ := hs
  have e := fill_cells_eq_map hw s.pressureCell s.pressure.b hl
  rw [hpw, hph] at e
  rw [Simulation.pressureIteration_eq, hpw, e]

/-- The pressure solve as the composition of `clear`, the passes and the final swap. -/
theorem Simulation.stepPressure_unfold (config : Config α) (s : Simulation α) (n : Nat)
    (P Q : DoubleBuffer α) (hn : s.iterations = n)
    (hclear : s.pressure.clear config.pressure = P)
    (hiter : Simulation.pressureIteration^[n] { s with pressure := P } = { s with pressure := Q }) :
    s.stepPressure config = { s with pressure := Q.swap } := by
  subst hn hclear
  unfold Simulation.stepPressure
  show (fun r : Simulation α => { r with pressure := r.pressure.swap })
      (forRange (s.iterations : Int) (fun _ t => t.pressureIteration)
        { s with pressure := s.pressure.clear config.pressure }) = _
  rw [forRange_const, hiter]

end evaluation

/-- C6 amended, at the 3 x 1 grid with `velocityX = [1, 0, 0]`, ten passes, at the cell
`(1, 0)`. -/
theorem projection_divergence_witness :
    (Simulation.seeded 3 1 [1, 0, 0] [0, 0, 0] 10 : Simulation ℚ).WF ∧
    ((Simulation.seeded 3 1 [1, 0, 0] [0, 0, 0] 10 : Simulation ℚ).project (Config.mk 0 0)).stepDivergence.divergence.get 1 0
        = (Simulation.seeded 3 1 [1, 0, 0] [0, 0, 0] 10 : Simulation ℚ).stepDivergence.divergence.get 1 0
          - (1 / 2) * (((Simulation.seeded 3 1 [1, 0, 0] [0, 0, 0] 10 : Simulation ℚ).project (Config.mk 0 0)).pressure.get (1 + 2) 0
              + ((Simulation.seeded 3 1 [1, 0, 0] [0, 0, 0] 10 : Simulation ℚ).project (Config.mk 0 0)).pressure.get (1 - 2) 0
              + ((Simulation.seeded 3 1 [1, 0, 0] [0, 0, 0] 10 : Simulation ℚ).project (Config.mk 0 0)).pressure.get 1 (0 + 2)
              + ((Simulation.seeded 3 1 [1, 0, 0] [0, 0, 0] 10 : Simulation ℚ).project (Config.mk 0 0)).pressure.get 1 (0 - 2)
              - 4 * ((Simulation.seeded 3 1 [1, 0, 0] [0, 0, 0] 10 : Simulation ℚ).project (Config.mk 0 0)).pressure.get 1 0) :=
  ⟨by simp [Simulation.WF, DoubleBuffer.WF, Buffer.WF, Simulation.seeded],
   projection_divergence (Config.mk 0 0) (Simulation.seeded 3 1 [1, 0, 0] [0, 0, 0] 10)
     (by simp [Simulation.WF, DoubleBuffer.WF, Buffer.WF, Simulation.seeded]) 1 0⟩

section scenario6

set_option maxHeartbeats 4000000
set_option linter.unreachableTactic false
set_option linter.unusedTactic false

/-- C6, as stated, fails.  On a 5 x 2 grid whose only non-zero velocity is
`velocityX = 1` at the cell `(0, 0)`, with the configured 10 passes and baseline 0, the
sum of `|divergence|` is `1` before the projection and `633669 / 524288 > 1` after it. -/
theorem projection_can_increase_divergence :
    (Simulation.seeded 5 2 [1, 0, 0, 0, 0, 0, 0, 0, 0, 0] [0, 0, 0, 0, 0, 0, 0, 0, 0, 0] 10 : Simulation ℚ).divergenceSum = 1 ∧
    ((Simulation.seeded 5 2 [1, 0, 0, 0, 0, 0, 0, 0, 0, 0] [0, 0, 0, 0, 0, 0, 0, 0, 0, 0] 10 : Simulation ℚ).project
        (Config.mk 0 0)).divergenceSum = 633669 / 524288 ∧
    ¬ (((Simulation.seeded 5 2 [1, 0, 0, 0, 0, 0, 0, 0, 0, 0] [0, 0, 0, 0, 0, 0, 0, 0, 0, 0] 10 : Simulation ℚ).project
          (Config.mk 0 0)).divergenceSum
        < (Simulation.seeded 5 2 [1, 0, 0, 0, 0, 0, 0, 0, 0, 0] [0, 0, 0, 0, 0, 0, 0, 0, 0, 0] 10 : Simulation ℚ).divergenceSum) := by
  have h0 : (Simulation.seeded 5 2 [1, 0, 0, 0, 0, 0, 0, 0, 0, 0] [0, 0, 0, 0, 0, 0, 0, 0, 0, 0] 10 : Simulation ℚ)
      = (Simulation.mk 5 2
        ⟨⟨5, 2, [1, 0, 0, 0, 0, 0, 0, 0, 0, 0]⟩,
          [0, 0, 0, 0, 0, 0, 0, 0, 0, 0]⟩
        ⟨⟨5, 2, [0, 0, 0, 0, 0, 0, 0, 0, 0, 0]⟩,
          [0, 0, 0, 0, 0, 0, 0, 0, 0, 0]⟩
        ⟨5, 2, [0, 0, 0, 0, 0, 0, 0, 0, 0, 0]⟩
        ⟨5, 2, [0, 0, 0, 0, 0, 0, 0, 0, 0, 0]⟩
        ⟨⟨5, 2, [0, 0, 0, 0, 0, 0, 0, 0, 0, 0]⟩,
          [0, 0, 0, 0, 0, 0, 0, 0, 0, 0]⟩
        10 (1 / 10) 0 : Simulation ℚ) := rfl
  have hD : (Simulation.mk 5 2
      ⟨⟨5, 2, [1, 0, 0, 0, 0, 0, 0, 0, 0, 0]⟩,
        [0, 0, 0, 0, 0, 0, 0, 0, 0, 0]⟩
      ⟨⟨5, 2, [0, 0, 0, 0, 0, 0, 0, 0, 0, 0]⟩,
        [0, 0, 0, 0, 0, 0, 0, 0, 0, 0]⟩
      ⟨5, 2, [0, 0, 0, 0, 0, 0, 0, 0, 0, 0]⟩
      ⟨5, 2, [0, 0, 0, 0, 0, 0, 0, 0, 0, 0]⟩
      ⟨⟨5, 2, [0, 0, 0, 0, 0, 0, 0, 0, 0, 0]⟩,
        [0, 0, 0, 0, 0, 0, 0, 0, 0, 0]⟩
      10 (1 / 10) 0 : Simulation ℚ).stepDivergence
      = (Simulation.mk 5 2
        ⟨⟨5, 2, [1, 0, 0, 0, 0, 0, 0, 0, 0, 0]⟩,
          [0, 0, 0, 0, 0, 0, 0, 0, 0, 0]⟩
        ⟨⟨5, 2, [0, 0, 0, 0, 0, 0, 0, 0, 0, 0]⟩,
          [0, 0, 0, 0, 0, 0, 0, 0, 0, 0]⟩
        ⟨5, 2, [0, 0, 0, 0, 0, 0, 0, 0, 0, 0]⟩
        ⟨5, 2, [0, -1 / 2, 0, 0, 1 / 2, 0, 0, 0, 0, 0]⟩
        ⟨⟨5, 2, [0, 0, 0, 0, 0, 0, 0, 0, 0, 0]⟩,
          [0, 0, 0, 0, 0, 0, 0, 0, 0, 0]⟩
        10 (1 / 10) 0 : Simulation ℚ) := by
    rw [Simulation.stepDivergence_eq_map _ (by simp [Simulation.WF, DoubleBuffer.WF, Buffer.WF])]
    simp [List.range_succ, Simulation.divergenceCell, Buffer.get, Buffer.get?, Buffer.wrap,
      readAt, mod_eq_emod]
    norm_num
  have hPress : (Simulation.mk 5 2
      ⟨⟨5, 2, [1, 0, 0, 0, 0, 0, 0, 0, 0, 0]⟩,
        [0, 0, 0, 0, 0, 0, 0, 0, 0, 0]⟩
      ⟨⟨5, 2, [0, 0, 0, 0, 0, 0, 0, 0, 0, 0]⟩,
        [0, 0, 0, 0, 0, 0, 0, 0, 0, 0]⟩
      ⟨5, 2, [0, 0, 0, 0, 0, 0, 0, 0, 0, 0]⟩
      ⟨5, 2, [0, -1 / 2, 0, 0, 1 / 2, 0, 0, 0, 0, 0]⟩
      ⟨⟨5, 2, [0, 0, 0, 0, 0, 0, 0, 0, 0, 0]⟩,
        [0, 0, 0, 0, 0, 0, 0, 0, 0, 0]⟩
      10 (1 / 10) 0 : Simulation ℚ).stepPressure (Config.mk 0 0)
      = (Simulation.mk 5 2
        ⟨⟨5, 2, [1, 0, 0, 0, 0, 0, 0, 0, 0, 0]⟩,
          [0, 0, 0, 0, 0, 0, 0, 0, 0, 0]⟩
        ⟨⟨5, 2, [0, 0, 0, 0, 0, 0, 0, 0, 0, 0]⟩,
          [0, 0, 0, 0, 0, 0, 0, 0, 0, 0]⟩
        ⟨5, 2, [0, 0, 0, 0, 0, 0, 0, 0, 0, 0]⟩
        ⟨5, 2, [0, -1 / 2, 0, 0, 1 / 2, 0, 0, 0, 0, 0]⟩
        ⟨⟨5, 2, [0, 101437 / 524288, 25359 / 524288, -25359 / 524288, -101437 / 524288, 0,
            6603 / 65536, 1575 / 32768, -1575 / 32768, -6603 / 65536]⟩,
          [0, 393151 / 2097152, 63239 / 1048576, -63239 / 1048576, -393151 / 2097152, 0,
            114037 / 1048576, 39171 / 1048576, -39171 / 1048576, -114037 / 1048576]⟩
        10 (1 / 10) 0 : Simulation ℚ) := by
    obtain ⟨S, hS⟩ : ∃ S : Simulation ℚ, S = (Simulation.mk 5 2
        ⟨⟨5, 2, [1, 0, 0, 0, 0, 0, 0, 0, 0, 0]⟩,
          [0, 0, 0, 0, 0, 0, 0, 0, 0, 0]⟩
        ⟨⟨5, 2, [0, 0, 0, 0, 0, 0, 0, 0, 0, 0]⟩,
          [0, 0, 0, 0, 0, 0, 0, 0, 0, 0]⟩
        ⟨5, 2, [0, 0, 0, 0, 0, 0, 0, 0, 0, 0]⟩
        ⟨5, 2, [0, -1 / 2, 0, 0, 1 / 2, 0, 0, 0, 0, 0]⟩
        ⟨⟨5, 2, [0, 0, 0, 0, 0, 0, 0, 0, 0, 0]⟩,
          [0, 0, 0, 0, 0, 0, 0, 0, 0, 0]⟩
        10 (1 / 10) 0 : Simulation ℚ) := ⟨_, rfl⟩
    rw [← hS]
    have step : ∀ A B A' : List ℚ, A.length = 10 → B.length = 10 →
        ((List.range B.length).map fun (k : Nat) =>
          ({ S with pressure := ⟨⟨5, 2, A⟩, B⟩ } : Simulation ℚ).pressureCell
            ((k : Int) % 5) ((k : Int) / 5)) = A' →
        ({ S with pressure := ⟨⟨5, 2, A⟩, B⟩ } : Simulation ℚ).pressureIteration
          = { S with pressure := ⟨⟨5, 2, A'⟩, A⟩ } := by
      intro A B A' hlA hl hA
      subst hA
      rw [Simulation.pressureIteration_eq_map _ (by
        subst hS
        simp [Simulation.WF, DoubleBuffer.WF, Buffer.WF, hlA, hl])]
      subst hS
      rfl
    have h1 := step
      [0, 0, 0, 0, 0, 0, 0, 0, 0, 0]
      [0, 0, 0, 0, 0, 0, 0, 0, 0, 0]
      [0, 1 / 8, 0, 0, -1 / 8, 0, 0, 0, 0, 0]
      rfl rfl (by
      subst hS
      simp [List.range_succ, Simulation.pressureCell, Buffer.get, Buffer.get?, Buffer.wrap,
        readAt, mod_eq_emod]
      norm_num)
    have h2 := step
      [0, 1 / 8, 0, 0, -1 / 8, 0, 0, 0, 0, 0]
      [0, 0, 0, 0, 0, 0, 0, 0, 0, 0]
      [0, 1 / 8, 1 / 32, -1 / 32, -1 / 8, 0, 1 / 16, 0, 0, -1 / 16]
      rfl rfl (by
      subst hS
      simp [List.range_succ, Simulation.pressureCell, Buffer.get, Buffer.get?, Buffer.wrap,
        readAt, mod_eq_emod]
      norm_num)
    have h3 := step
      [0, 1 / 8, 1 / 32, -1 / 32, -1 / 8, 0, 1 / 16, 0, 0, -1 / 16]
      [0, 1 / 8, 0, 0, -1 / 8, 0, 0, 0, 0, 0]
      [0, 21 / 128, 3 / 128, -3 / 128, -21 / 128, 0, 1 / 16, 1 / 32, -1 / 32, -1 / 16]
      rfl rfl (by
      subst hS
      simp [List.range_succ, Simulation.pressureCell, Buffer.get, Buffer.get?, Buffer.wrap,
        readAt, mod_eq_emod]
      norm_num)
    have h4 := step
      [0, 21 / 128, 3 / 128, -3 / 128, -21 / 128, 0, 1 / 16, 1 / 32, -1 / 32, -1 / 16]
      [0, 1 / 8, 1 / 32, -1 / 32, -1 / 8, 0, 1 / 16, 0, 0, -1 / 16]
      [0, 83 / 512, 13 / 256, -13 / 256, -83 / 512, 0, 23 / 256, 5 / 256, -5 / 256, -23 / 256]
      rfl rfl (by
      subst hS
      simp [List.range_succ, Simulation.pressureCell, Buffer.get, Buffer.get?, Buffer.wrap,
        readAt, mod_eq_emod]
      norm_num)
    have h5 := step
      [0, 83 / 512, 13 / 256, -13 / 256, -83 / 512, 0, 23 / 256, 5 / 256, -5 / 256, -23 / 256]
      [0, 21 / 128, 3 / 128, -3 / 128, -21 / 128, 0, 1 / 16, 1 / 32, -1 / 32, -1 / 16]
      [0, 187 / 1024, 77 / 2048, -77 / 2048, -187 / 1024, 0, 11 / 128, 11 / 256, -11 / 256,
      -11 / 128]
      rfl rfl (by
      subst hS
      simp [List.range_succ, Simulation.pressureCell, Buffer.get, Buffer.get?, Buffer.wrap,
        readAt, mod_eq_emod]
      norm_num)
    have h6 := step
      [0, 187 / 1024, 77 / 2048, -77 / 2048, -187 / 1024, 0, 11 / 128, 11 / 256, -11 / 256,
      -11 / 128]
      [0, 83 / 512, 13 / 256, -13 / 256, -83 / 512, 0, 23 / 256, 5 / 256, -5 / 256, -23 / 256]
      [0, 1453 / 8192, 473 / 8192, -473 / 8192, -1453 / 8192, 0, 209 / 2048, 121 / 4096, -121 / 4096,
      -209 / 2048]
      rfl rfl (by
      subst hS
      simp [List.range_succ, Simulation.pressureCell, Buffer.get, Buffer.get?, Buffer.wrap,
        readAt, mod_eq_emod]
      norm_num)
    have h7 := step
      [0, 1453 / 8192, 473 / 8192, -473 / 8192, -1453 / 8192, 0, 209 / 2048, 121 / 4096, -121 / 4096,
      -209 / 2048]
      [0, 187 / 1024, 77 / 2048, -77 / 2048, -187 / 1024, 0, 11 / 128, 11 / 256, -11 / 256,
      -11 / 128]
      [0, 6241 / 32768, 183 / 4096, -183 / 4096, -6241 / 32768, 0, 787 / 8192, 385 / 8192,
      -385 / 8192, -787 / 8192]
      rfl rfl (by
      subst hS
      simp [List.range_succ, Simulation.pressureCell, Buffer.get, Buffer.get?, Buffer.wrap,
        readAt, mod_eq_emod]
      norm_num)
    have h8 := step
      [0, 6241 / 32768, 183 / 4096, -183 / 4096, -6241 / 32768, 0, 787 / 8192, 385 / 8192,
      -385 / 8192, -787 / 8192]
      [0, 1453 / 8192, 473 / 8192, -473 / 8192, -1453 / 8192, 0, 209 / 2048, 121 / 4096, -121 / 4096,
      -209 / 2048]
      [0, 1509 / 8192, 7857 / 131072, -7857 / 131072, -1509 / 8192, 0, 7011 / 65536, 567 / 16384,
      -567 / 16384, -7011 / 65536]
      rfl rfl (by
      subst hS
      simp [List.range_succ, Simulation.pressureCell, Buffer.get, Buffer.get?, Buffer.wrap,
        readAt, mod_eq_emod]
      norm_num)
    have h9 := step
      [0, 1509 / 8192, 7857 / 131072, -7857 / 131072, -1509 / 8192, 0, 7011 / 65536, 567 / 16384,
      -567 / 16384, -7011 / 65536]
      [0, 6241 / 32768, 183 / 4096, -183 / 4096, -6241 / 32768, 0, 787 / 8192, 385 / 8192,
      -385 / 8192, -787 / 8192]
      [0, 101437 / 524288, 25359 / 524288, -25359 / 524288, -101437 / 524288, 0, 6603 / 65536,
      1575 / 32768, -1575 / 32768, -6603 / 65536]
      rfl rfl (by
      subst hS
      simp [List.range_succ, Simulation.pressureCell, Buffer.get, Buffer.get?, Buffer.wrap,
        readAt, mod_eq_emod]
      norm_num)
    have h10 := step
      [0, 101437 / 524288, 25359 / 524288, -25359 / 524288, -101437 / 524288, 0, 6603 / 65536,
      1575 / 32768, -1575 / 32768, -6603 / 65536]
      [0, 1509 / 8192, 7857 / 131072, -7857 / 131072, -1509 / 8192, 0, 7011 / 65536, 567 / 16384,
      -567 / 16384, -7011 / 65536]
      [0, 393151 / 2097152, 63239 / 1048576, -63239 / 1048576, -393151 / 2097152, 0,
      114037 / 1048576, 39171 / 1048576, -39171 / 1048576, -114037 / 1048576]
      rfl rfl (by
      subst hS
      simp [List.range_succ, Simulation.pressureCell, Buffer.get, Buffer.get?, Buffer.wrap,
        readAt, mod_eq_emod]
      norm_num)
    have hc : S.pressure.clear (Config.mk (0 : ℚ) 0).pressure
        = ⟨⟨5, 2, [0, 0, 0, 0, 0, 0, 0, 0, 0, 0]⟩,
          [0, 0, 0, 0, 0, 0, 0, 0, 0, 0]⟩ := by
      subst hS
      simp [DoubleBuffer.clear, Buffer.clear_eq, List.replicate]
    have hi : Simulation.pressureIteration^[10]
          { S with pressure := ⟨⟨5, 2, [0, 0, 0, 0, 0, 0, 0, 0, 0, 0]⟩,
            [0, 0, 0, 0, 0, 0, 0, 0, 0, 0]⟩ }
        = { S with pressure := ⟨⟨5, 2, [0, 393151 / 2097152, 63239 / 1048576, -63239 / 1048576, -393151 / 2097152, 0,
            114037 / 1048576, 39171 / 1048576, -39171 / 1048576, -114037 / 1048576]⟩,
            [0, 101437 / 524288, 25359 / 524288, -25359 / 524288, -101437 / 524288, 0, 6603 / 65536,
            1575 / 32768, -1575 / 32768, -6603 / 65536]⟩ } := by
      rw [Function.iterate_succ_apply, h1, Function.iterate_succ_apply, h2, Function.iterate_succ_apply, h3, Function.iterate_succ_apply, h4, Function.iterate_succ_apply, h5, Function.iterate_succ_apply, h6, Function.iterate_succ_apply, h7, Function.iterate_succ_apply, h8, Function.iterate_succ_apply, h9, Function.iterate_succ_apply, h10,
        Function.iterate_zero_apply]
    have hn : S.iterations = 10 := by rw [hS]
    have hP := Simulation.stepPressure_unfold (Config.mk 0 0) S 10 _ _ hn hc hi
    rw [hP]
    subst hS
    rfl
  have hG : (Simulation.mk 5 2
      ⟨⟨5, 2, [1, 0, 0, 0, 0, 0, 0, 0, 0, 0]⟩,
        [0, 0, 0, 0, 0, 0, 0, 0, 0, 0]⟩
      ⟨⟨5, 2, [0, 0, 0, 0, 0, 0, 0, 0, 0, 0]⟩,
        [0, 0, 0, 0, 0, 0, 0, 0, 0, 0]⟩
      ⟨5, 2, [0, 0, 0, 0, 0, 0, 0, 0, 0, 0]⟩
      ⟨5, 2, [0, -1 / 2, 0, 0, 1 / 2, 0, 0, 0, 0, 0]⟩
      ⟨⟨5, 2, [0, 101437 / 524288, 25359 / 524288, -25359 / 524288, -101437 / 524288, 0, 6603 / 65536,
          1575 / 32768, -1575 / 32768, -6603 / 65536]⟩,
        [0, 393151 / 2097152, 63239 / 1048576, -63239 / 1048576, -393151 / 2097152, 0,
          114037 / 1048576, 39171 / 1048576, -39171 / 1048576, -114037 / 1048576]⟩
      10 (1 / 10) 0 : Simulation ℚ).stepSubtractGradient
      = (Simulation.mk 5 2
        ⟨⟨5, 2, [160707 / 262144, -25359 / 524288, 31699 / 131072, 31699 / 131072, -25359 / 524288,
            -6603 / 32768, -1575 / 32768, 9753 / 65536, 9753 / 65536, -1575 / 32768]⟩,
          [1, 0, 0, 0, 0, 0, 0, 0, 0, 0]⟩
        ⟨⟨5, 2, [0, 0, 0, 0, 0, 0, 0, 0, 0, 0]⟩,
          [0, 0, 0, 0, 0, 0, 0, 0, 0, 0]⟩
        ⟨5, 2, [0, 0, 0, 0, 0, 0, 0, 0, 0, 0]⟩
        ⟨5, 2, [0, -1 / 2, 0, 0, 1 / 2, 0, 0, 0, 0, 0]⟩
        ⟨⟨5, 2, [0, 101437 / 524288, 25359 / 524288, -25359 / 524288, -101437 / 524288, 0,
            6603 / 65536, 1575 / 32768, -1575 / 32768, -6603 / 65536]⟩,
          [0, 393151 / 2097152, 63239 / 1048576, -63239 / 1048576, -393151 / 2097152, 0,
            114037 / 1048576, 39171 / 1048576, -39171 / 1048576, -114037 / 1048576]⟩
        10 (1 / 10) 0 : Simulation ℚ) := by
    rw [Simulation.stepSubtractGradient_eq, Simulation.withVelocity_fill_eq_map _ (by simp [Simulation.WF, DoubleBuffer.WF, Buffer.WF])]
    simp [List.range_succ, Simulation.gradientCellX, Simulation.gradientCellY, Simulation.withVelocity, Buffer.get, Buffer.get?, Buffer.wrap,
      readAt, mod_eq_emod]
    norm_num
  have hD2 : (Simulation.mk 5 2
      ⟨⟨5, 2, [160707 / 262144, -25359 / 524288, 31699 / 131072, 31699 / 131072, -25359 / 524288,
          -6603 / 32768, -1575 / 32768, 9753 / 65536, 9753 / 65536, -1575 / 32768]⟩,
        [1, 0, 0, 0, 0, 0, 0, 0, 0, 0]⟩
      ⟨⟨5, 2, [0, 0, 0, 0, 0, 0, 0, 0, 0, 0]⟩,
        [0, 0, 0, 0, 0, 0, 0, 0, 0, 0]⟩
      ⟨5, 2, [0, 0, 0, 0, 0, 0, 0, 0, 0, 0]⟩
      ⟨5, 2, [0, -1 / 2, 0, 0, 1 / 2, 0, 0, 0, 0, 0]⟩
      ⟨⟨5, 2, [0, 101437 / 524288, 25359 / 524288, -25359 / 524288, -101437 / 524288, 0, 6603 / 65536,
          1575 / 32768, -1575 / 32768, -6603 / 65536]⟩,
        [0, 393151 / 2097152, 63239 / 1048576, -63239 / 1048576, -393151 / 2097152, 0,
          114037 / 1048576, 39171 / 1048576, -39171 / 1048576, -114037 / 1048576]⟩
      10 (1 / 10) 0 : Simulation ℚ).stepDivergence
      = (Simulation.mk 5 2
        ⟨⟨5, 2, [160707 / 262144, -25359 / 524288, 31699 / 131072, 31699 / 131072, -25359 / 524288,
            -6603 / 32768, -1575 / 32768, 9753 / 65536, 9753 / 65536, -1575 / 32768]⟩,
          [1, 0, 0, 0, 0, 0, 0, 0, 0, 0]⟩
        ⟨⟨5, 2, [0, 0, 0, 0, 0, 0, 0, 0, 0, 0]⟩,
          [0, 0, 0, 0, 0, 0, 0, 0, 0, 0]⟩
        ⟨5, 2, [0, 0, 0, 0, 0, 0, 0, 0, 0, 0]⟩
        ⟨5, 2, [0, -97309 / 524288, 152155 / 1048576, -152155 / 1048576, 97309 / 524288, 0,
            22959 / 131072, 12903 / 131072, -12903 / 131072, -22959 / 131072]⟩
        ⟨⟨5, 2, [0, 101437 / 524288, 25359 / 524288, -25359 / 524288, -101437 / 524288, 0,
            6603 / 65536, 1575 / 32768, -1575 / 32768, -6603 / 65536]⟩,
          [0, 393151 / 2097152, 63239 / 1048576, -63239 / 1048576, -393151 / 2097152, 0,
            114037 / 1048576, 39171 / 1048576, -39171 / 1048576, -114037 / 1048576]⟩
        10 (1 / 10) 0 : Simulation ℚ) := by
    rw [Simulation.stepDivergence_eq_map _ (by simp [Simulation.WF, DoubleBuffer.WF, Buffer.WF])]
    simp [List.range_succ, Simulation.divergenceCell, Buffer.get, Buffer.get?, Buffer.wrap,
      readAt, mod_eq_emod]
    norm_num
  have hproj : (Simulation.seeded 5 2 [1, 0, 0, 0, 0, 0, 0, 0, 0, 0] [0, 0, 0, 0, 0, 0, 0, 0, 0, 0] 10 : Simulation ℚ).project
        (Config.mk 0 0)
      = (Simulation.mk 5 2
        ⟨⟨5, 2, [160707 / 262144, -25359 / 524288, 31699 / 131072, 31699 / 131072, -25359 / 524288,
            -6603 / 32768, -1575 / 32768, 9753 / 65536, 9753 / 65536, -1575 / 32768]⟩,
          [1, 0, 0, 0, 0, 0, 0, 0, 0, 0]⟩
        ⟨⟨5, 2, [0, 0, 0, 0, 0, 0, 0, 0, 0, 0]⟩,
          [0, 0, 0, 0, 0, 0, 0, 0, 0, 0]⟩
        ⟨5, 2, [0, 0, 0, 0, 0, 0, 0, 0, 0, 0]⟩
        ⟨5, 2, [0, -1 / 2, 0, 0, 1 / 2, 0, 0, 0, 0, 0]⟩
        ⟨⟨5, 2, [0, 101437 / 524288, 25359 / 524288, -25359 / 524288, -101437 / 524288, 0,
            6603 / 65536, 1575 / 32768, -1575 / 32768, -6603 / 65536]⟩,
          [0, 393151 / 2097152, 63239 / 1048576, -63239 / 1048576, -393151 / 2097152, 0,
            114037 / 1048576, 39171 / 1048576, -39171 / 1048576, -114037 / 1048576]⟩
        10 (1 / 10) 0 : Simulation ℚ) := by
    unfold Simulation.project
    rw [h0, hD, hPress, hG]
  have e1 : (Simulation.seeded 5 2 [1, 0, 0, 0, 0, 0, 0, 0, 0, 0] [0, 0, 0, 0, 0, 0, 0, 0, 0, 0] 10 : Simulation ℚ).divergenceSum = 1 := by
    unfold Simulation.divergenceSum
    rw [h0, hD]
    simp [cells, List.range_succ, Buffer.get, Buffer.get?, Buffer.wrap, readAt, mod_eq_emod]
    norm_num [abs_of_nonneg, abs_of_nonpos]
  have e2 : ((Simulation.seeded 5 2 [1, 0, 0, 0, 0, 0, 0, 0, 0, 0] [0, 0, 0, 0, 0, 0, 0, 0, 0, 0] 10 : Simulation ℚ).project
        (Config.mk 0 0)).divergenceSum = 633669 / 524288 := by
    rw [hproj]
    unfold Simulation.divergenceSum
    rw [hD2]
    simp [cells, List.range_succ, Buffer.get, Buffer.get?, Buffer.wrap, readAt, mod_eq_emod]
    norm_num [abs_of_nonneg, abs_of_nonpos]
  refine ⟨e1, e2, ?_⟩
  rw [e1, e2]
  norm_num

end scenario6

/-! ## C7: the surface that the pressure solve leaves visible -/

section scenario7

set_option maxHeartbeats 4000000
set_option linter.unreachableTactic false
set_option linter.unusedTactic false

/-- C7 fails on the code.  On a 3 x 1 grid with `velocityX = [1, 0, 0]`, ten passes and
baseline 0, after `stepDivergence` and `stepPressure` the visible pressure at the cell
`(1, 0)` is `87381 / 524288`, the value of the ninth Jacobi iterate, while the tenth
iterate `J^10(0)(1, 0)`, which C7 says is visible, is `349525 / 2097152`: the final
"swap back" of `stepPressure` hides the values of the last pass. -/
theorem stepPressure_shows_previous_iterate :
    (((Simulation.seeded 3 1 [1, 0, 0] [0, 0, 0] 10 : Simulation ℚ).stepDivergence).stepPressure
        (Config.mk 0 0)).pressure.get 1 0 = 87381 / 524288 ∧
    (jacobi ((Simulation.seeded 3 1 [1, 0, 0] [0, 0, 0] 10 : Simulation ℚ).stepDivergence).divergence.get)^[10]
        (fun _ _ => (0 : ℚ)) 1 0 = 349525 / 2097152 := by
  have h0 : (Simulation.seeded 3 1 [1, 0, 0] [0, 0, 0] 10 : Simulation ℚ)
      = (Simulation.mk 3 1
        ⟨⟨3, 1, [1, 0, 0]⟩,
          [0, 0, 0]⟩
        ⟨⟨3, 1, [0, 0, 0]⟩,
          [0, 0, 0]⟩
        ⟨3, 1, [0, 0, 0]⟩
        ⟨3, 1, [0, 0, 0]⟩
        ⟨⟨3, 1, [0, 0, 0]⟩,
          [0, 0, 0]⟩
        10 (1 / 10) 0 : Simulation ℚ) := rfl
  have hD : (Simulation.mk 3 1
      ⟨⟨3, 1, [1, 0, 0]⟩,
        [0, 0, 0]⟩
      ⟨⟨3, 1, [0, 0, 0]⟩,
        [0, 0, 0]⟩
      ⟨3, 1, [0, 0, 0]⟩
      ⟨3, 1, [0, 0, 0]⟩
      ⟨⟨3, 1, [0, 0, 0]⟩,
        [0, 0, 0]⟩
      10 (1 / 10) 0 : Simulation ℚ).stepDivergence
      = (Simulation.mk 3 1
        ⟨⟨3, 1, [1, 0, 0]⟩,
          [0, 0, 0]⟩
        ⟨⟨3, 1, [0, 0, 0]⟩,
          [0, 0, 0]⟩
        ⟨3, 1, [0, 0, 0]⟩
        ⟨3, 1, [0, -1 / 2, 1 / 2]⟩
        ⟨⟨3, 1, [0, 0, 0]⟩,
          [0, 0, 0]⟩
        10 (1 / 10) 0 : Simulation ℚ) := by
    rw [Simulation.stepDivergence_eq_map _ (by simp [Simulation.WF, DoubleBuffer.WF, Buffer.WF])]
    simp [List.range_succ, Simulation.divergenceCell, Buffer.get, Buffer.get?, Buffer.wrap,
      readAt, mod_eq_emod]
    norm_num
  rw [h0, hD]
  obtain ⟨S, hS⟩ : ∃ S : Simulation ℚ, S = (Simulation.mk 3 1
      ⟨⟨3, 1, [1, 0, 0]⟩,
        [0, 0, 0]⟩
      ⟨⟨3, 1, [0, 0, 0]⟩,
        [0, 0, 0]⟩
      ⟨3, 1, [0, 0, 0]⟩
      ⟨3, 1, [0, -1 / 2, 1 / 2]⟩
      ⟨⟨3, 1, [0, 0, 0]⟩,
        [0, 0, 0]⟩
      10 (1 / 10) 0 : Simulation ℚ) := ⟨_, rfl⟩
  rw [← hS]
  have step : ∀ A B A' : List ℚ, A.length = 3 → B.length = 3 →
      ((List.range B.length).map fun (k : Nat) =>
        ({ S with pressure := ⟨⟨3, 1, A⟩, B⟩ } : Simulation ℚ).pressureCell
          ((k : Int) % 3) ((k : Int) / 3)) = A' →
      ({ S with pressure := ⟨⟨3, 1, A⟩, B⟩ } : Simulation ℚ).pressureIteration
        = { S with pressure := ⟨⟨3, 1, A'⟩, A⟩ } := by
    intro A B A' hlA hl hA
    subst hA
    rw [Simulation.pressureIteration_eq_map _ (by
      subst hS
      simp [Simulation.WF, DoubleBuffer.WF, Buffer.WF, hlA, hl])]
    subst hS
    rfl
  have h1 := step
    [0, 0, 0]
    [0, 0, 0]
    [0, 1 / 8, -1 / 8]
    rfl rfl (by
    subst hS
    simp [List.range_succ, Simulation.pressureCell, Buffer.get, Buffer.get?, Buffer.wrap,
      readAt, mod_eq_emod]
    norm_num)
  have h2 := step
    [0, 1 / 8, -1 / 8]
    [0, 0, 0]
    [0, 5 / 32, -5 / 32]
    rfl rfl (by
    subst hS
    simp [List.range_succ, Simulation.pressureCell, Buffer.get, Buffer.get?, Buffer.wrap,
      readAt, mod_eq_emod]
    norm_num)
  have h3 := step
    [0, 5 / 32, -5 / 32]
    [0, 1 / 8, -1 / 8]
    [0, 21 / 128, -21 / 128]
    rfl rfl (by
    subst hS
    simp [List.range_succ, Simulation.pressureCell, Buffer.get, Buffer.get?, Buffer.wrap,
      readAt, mod_eq_emod]
    norm_num)
  have h4 := step
    [0, 21 / 128, -21 / 128]
    [0, 5 / 32, -5 / 32]
    [0, 85 / 512, -85 / 512]
    rfl rfl (by
    subst hS
    simp [List.range_succ, Simulation.pressureCell, Buffer.get, Buffer.get?, Buffer.wrap,
      readAt, mod_eq_emod]
    norm_num)
  have h5 := step
    [0, 85 / 512, -85 / 512]
    [0, 21 / 128, -21 / 128]
    [0, 341 / 2048, -341 / 2048]
    rfl rfl (by
    subst hS
    simp [List.range_succ, Simulation.pressureCell, Buffer.get, Buffer.get?, Buffer.wrap,
      readAt, mod_eq_emod]
    norm_num)
  have h6 := step
    [0, 341 / 2048, -341 / 2048]
    [0, 85 / 512, -85 / 512]
    [0, 1365 / 8192, -1365 / 8192]
    rfl rfl (by
    subst hS
    simp [List.range_succ, Simulation.pressureCell, Buffer.get, Buffer.get?, Buffer.wrap,
      readAt, mod_eq_emod]
    norm_num)
  have h7 := step
    [0, 1365 / 8192, -1365 / 8192]
    [0, 341 / 2048, -341 / 2048]
    [0, 5461 / 32768, -5461 / 32768]
    rfl rfl (by
    subst hS
    simp [List.range_succ, Simulation.pressureCell, Buffer.get, Buffer.get?, Buffer.wrap,
      readAt, mod_eq_emod]
    norm_num)
  have h8 := step
    [0, 5461 / 32768, -5461 / 32768]
    [0, 1365 / 8192, -1365 / 8192]
    [0, 21845 / 131072, -21845 / 131072]
    rfl rfl (by
    subst hS
    simp [List.range_succ, Simulation.pressureCell, Buffer.get, Buffer.get?, Buffer.wrap,
      readAt, mod_eq_emod]
    norm_num)
  have h9 := step
    [0, 21845 / 131072, -21845 / 131072]
    [0, 5461 / 32768, -5461 / 32768]
    [0, 87381 / 524288, -87381 / 524288]
    rfl rfl (by
    subst hS
    simp [List.range_succ, Simulation.pressureCell, Buffer.get, Buffer.get?, Buffer.wrap,
      readAt, mod_eq_emod]
    norm_num)
  have h10 := step
    [0, 87381 / 524288, -87381 / 524288]
    [0, 21845 / 131072, -21845 / 131072]
    [0, 349525 / 2097152, -349525 / 2097152]
    rfl rfl (by
    subst hS
    simp [List.range_succ, Simulation.pressureCell, Buffer.get, Buffer.get?, Buffer.wrap,
      readAt, mod_eq_emod]
    norm_num)
  have hc : S.pressure.clear (Config.mk (0 : ℚ) 0).pressure
      = ⟨⟨3, 1, [0, 0, 0]⟩,
        [0, 0, 0]⟩ := by
    subst hS
    simp [DoubleBuffer.clear, Buffer.clear_eq, List.replicate]
  have hi : Simulation.pressureIteration^[10]
        { S with pressure := ⟨⟨3, 1, [0, 0, 0]⟩,
          [0, 0, 0]⟩ }
      = { S with pressure := ⟨⟨3, 1, [0, 349525 / 2097152, -349525 / 2097152]⟩,
          [0, 87381 / 524288, -87381 / 524288]⟩ } := by
    rw [Function.iterate_succ_apply, h1, Function.iterate_succ_apply, h2, Function.iterate_succ_apply, h3, Function.iterate_succ_apply, h4, Function.iterate_succ_apply, h5, Function.iterate_succ_apply, h6, Function.iterate_succ_apply, h7, Function.iterate_succ_apply, h8, Function.iterate_succ_apply, h9, Function.iterate_succ_apply, h10,
      Function.iterate_zero_apply]
  have hn : S.iterations = 10 := by rw [hS]
  have hP := Simulation.stepPressure_unfold (Config.mk 0 0) S 10 _ _ hn hc hi
  obtain ⟨P, hP', -, -, hswap⟩ := Simulation.stepPressure_spec (Config.mk 0 0) S (by
    subst hS
    simp [Simulation.WF, DoubleBuffer.WF, Buffer.WF])
  have hPQ := congrArg Simulation.pressure (hP'.symm.trans hP)
  constructor
  · rw [hP]
    simp [DoubleBuffer.swap, Buffer.get, Buffer.get?, Buffer.wrap, readAt, mod_eq_emod]
  · have e := congrFun (congrFun hswap 1) 0
    rw [hn] at e
    refine e.symm.trans ?_
    rw [show P = _ from hPQ]
    simp [DoubleBuffer.swap, Buffer.get, Buffer.get?, Buffer.wrap, readAt, mod_eq_emod]

end scenario7

/-! ## C8: the sum of squared velocities -/

theorem length_flatMap_const {ι κ : Type} (f : ι → List κ) (m : Nat)
    (hf : ∀ i, (f i).length = m) : ∀ l : List ι, (l.flatMap f).length = l.length * m := by
  intro l
  induction l with
  | nil => simp
  | cons a l ih =>
    rw [List.flatMap_cons, List.length_append, hf, ih, List.length_cons, Nat.succ_mul]
    omega

theorem length_cells (w h : Int) : (cells w h).length = w.toNat * h.toNat := by
  unfold cells
  rw [length_flatMap_const _ h.toNat (fun _ => by rw [List.length_map, List.length_range]),
    List.length_range]

theorem get_abs_le_of_inRange [LinearOrderedField α] (b : Buffer α) (hw : 0 < b.width)
    (hh : 0 < b.height) (M : α)
    (h : ∀ i j : Int, 0 ≤ i → i < b.width → 0 ≤ j → j < b.height → |b.get i j| ≤ M)
    (x y : Int) : |b.get x y| ≤ M := by
  rw [← Buffer.get_emod b hw hh x y]
  exact h _ _ (Int.emod_nonneg _ (by omega)) (Int.emod_lt_of_pos _ hw)
    (Int.emod_nonneg _ (by omega)) (Int.emod_lt_of_pos _ hh)

theorem Buffer.sample_abs_le [LinearOrderedField α] [FloorRing α] (b : Buffer α) (M : α)
    (h : ∀ x y : Int, |b.get x y| ≤ M) (u v : α) : |b.sample u v| ≤ M := by
  have := Buffer.sample_mem b u v (-M) M (fun x y => abs_le.mp (h x y))
  exact abs_le.mpr this

theorem sq_damped_le [LinearOrderedField α] {x M : α} (h : |x| ≤ M) :
    (x * (99 / 100)) ^ 2 ≤ (99 / 100) ^ 2 * M ^ 2 := by
  have h0 : 0 ≤ |x| := abs_nonneg x
  have h1 : x ^ 2 ≤ M ^ 2 := by
    rw [← sq_abs x]
    exact pow_le_pow_left₀ h0 h 2
  have h2 : (0 : α) ≤ (99 / 100) ^ 2 := by positivity
  calc (x * (99 / 100)) ^ 2 = (99 / 100) ^ 2 * x ^ 2 := by ring
    _ ≤ (99 / 100) ^ 2 * M ^ 2 := mul_le_mul_of_nonneg_left h1 h2

/-- C8, amended to the advection stage and to a bound by the largest velocity.  Over
exact arithmetic, for a well-formed 2D simulation and every `dt`, if `|velocityX| ≤ Mx` and `|velocityY| ≤ My`
at every cell before `stepAdvection`, then the sum over all cells of
`velocityX^2 + velocityY^2` after the stage is at most
`width * height * 0.99^2 * (Mx^2 + My^2)`.  The sum itself can grow. -/
theorem advection_energy_bound [LinearOrderedField α] [FloorRing α] (s : Simulation α)
    (hs : s.WF) (Mx My : α)
    (hx : ∀ i j : Int, 0 ≤ i → i < s.width → 0 ≤ j → j < s.height →
      |s.velocityX.get i j| ≤ Mx)
    (hy : ∀ i j : Int, 0 ≤ i → i < s.width → 0 ≤ j → j < s.height →
      |s.velocityY.get i j| ≤ My) :
    s.stepAdvection.energy
      ≤ ((s.width * s.height : Int) : α) * ((99 / 100) ^ 2 * (Mx ^ 2 + My ^ 2)) := by
  obtain ⟨hwf, hX, hY⟩ := Simulation.withVelocity_fill_spec s hs s.advectionCellX s.advectionCellY
  obtain ⟨hw, hh⟩ := Simulation.wf_pos hs
  obtain ⟨⟨⟨⟨hxw, hxh, _⟩, _⟩, hx1, hx2⟩, ⟨⟨⟨hyw, hyh, _⟩, _⟩, hy1, hy2⟩, _⟩ := hs
  have hx' : ∀ x y : Int, |s.velocityX.toBuffer.get x y| ≤ Mx :=
    get_abs_le_of_inRange _ hxw hxh Mx (by rw [hx1, hx2]; exact hx)
  have hy' : ∀ x y : Int, |s.velocityY.toBuffer.get x y| ≤ My :=
    get_abs_le_of_inRange _ hyw hyh My (by rw [hy1, hy2]; exact hy)
  rw [Simulation.stepAdvection_eq]
  unfold Simulation.energy
  have hb : ∀ c ∈ (cells s.width s.height).map (fun c : Int × Int =>
      (s.withVelocity
          (fill s.velocityX.width s.advectionCellX (cells s.width s.height) s.velocityX.b)
          (fill s.velocityY.width s.advectionCellY (cells s.width s.height)
            s.velocityY.b)).velocityX.get c.1 c.2 ^ 2
        + (s.withVelocity
          (fill s.velocityX.width s.advectionCellX (cells s.width s.height) s.velocityX.b)
          (fill s.velocityY.width s.advectionCellY (cells s.width s.height)
            s.velocityY.b)).velocityY.get c.1 c.2 ^ 2),
      c ≤ (99 / 100) ^ 2 * (Mx ^ 2 + My ^ 2) := by
    intro c hc
    obtain ⟨⟨i, j⟩, -, rfl⟩ := List.mem_map.mp hc
    show _ ^ 2 + _ ^ 2 ≤ _
    rw [hX, hY, mul_add]
    exact add_le_add (sq_damped_le (Buffer.sample_abs_le _ Mx hx' _ _))
      (sq_damped_le (Buffer.sample_abs_le _ My hy' _ _))
  have hsum := List.sum_le_card_nsmul _ _ hb
  rw [List.length_map, length_cells, nsmul_eq_mul] at hsum
  have hcast : ((s.width.toNat * s.height.toNat : ℕ) : α) = ((s.width * s.height : Int) : α) := by
    have e : ((s.width.toNat * s.height.toNat : ℕ) : Int) = s.width * s.height := by
      push_cast
      rw [Int.toNat_of_nonneg (by omega), Int.toNat_of_nonneg (by omega)]
    rw [← e]
    push_cast
    rfl
  rw [hcast] at hsum
  exact hsum

/-- C8 amended, at the 2 x 1 grid with `velocityX = [1000, 10]` and `velocityY = 0`,
with the bounds 1000 and 0. -/
theorem advection_energy_bound_witness :
    ((Simulation.seeded 2 1 [1000, 10] [0, 0] 10 : Simulation ℚ).WF ∧
      (∀ i j : Int, 0 ≤ i → i < (Simulation.seeded 2 1 [1000, 10] [0, 0] 10 : Simulation ℚ).width →
        0 ≤ j → j < (Simulation.seeded 2 1 [1000, 10] [0, 0] 10 : Simulation ℚ).height →
        |(Simulation.seeded 2 1 [1000, 10] [0, 0] 10 : Simulation ℚ).velocityX.get i j| ≤ 1000) ∧
      (∀ i j : Int, 0 ≤ i → i < (Simulation.seeded 2 1 [1000, 10] [0, 0] 10 : Simulation ℚ).width →
        0 ≤ j → j < (Simulation.seeded 2 1 [1000, 10] [0, 0] 10 : Simulation ℚ).height →
        |(Simulation.seeded 2 1 [1000, 10] [0, 0] 10 : Simulation ℚ).velocityY.get i j| ≤ 0)) ∧
    (Simulation.seeded 2 1 [1000, 10] [0, 0] 10 : Simulation ℚ).stepAdvection.energy
      ≤ (((Simulation.seeded 2 1 [1000, 10] [0, 0] 10 : Simulation ℚ).width
            * (Simulation.seeded 2 1 [1000, 10] [0, 0] 10 : Simulation ℚ).height : Int) : ℚ)
          * ((99 / 100) ^ 2 * (1000 ^ 2 + 0 ^ 2)) :=
  have hx : ∀ i j : Int, 0 ≤ i →
      i < (Simulation.seeded 2 1 [1000, 10] [0, 0] 10 : Simulation ℚ).width →
      0 ≤ j → j < (Simulation.seeded 2 1 [1000, 10] [0, 0] 10 : Simulation ℚ).height →
      |(Simulation.seeded 2 1 [1000, 10] [0, 0] 10 : Simulation ℚ).velocityX.get i j| ≤ 1000 := by
    intro i j hi0 hi hj0 hj
    simp only [Simulation.seeded] at hi hj
    interval_cases j
    interval_cases i
    all_goals
      simp [Simulation.seeded, Buffer.get, Buffer.get?, Buffer.wrap, readAt, mod_eq_emod]
    all_goals norm_num [abs_le]
  have hy : ∀ i j : Int, 0 ≤ i →
      i < (Simulation.seeded 2 1 [1000, 10] [0, 0] 10 : Simulation ℚ).width →
      0 ≤ j → j < (Simulation.seeded 2 1 [1000, 10] [0, 0] 10 : Simulation ℚ).height →
      |(Simulation.seeded 2 1 [1000, 10] [0, 0] 10 : Simulation ℚ).velocityY.get i j| ≤ 0 := by
    intro i j hi0 hi hj0 hj
    simp only [Simulation.seeded] at hi hj
    interval_cases j
    interval_cases i <;>
      simp [Simulation.seeded, Buffer.get, Buffer.get?, Buffer.wrap, readAt, mod_eq_emod]
  ⟨⟨by simp [Simulation.WF, DoubleBuffer.WF, Buffer.WF, Simulation.seeded], hx, hy⟩,
   advection_energy_bound (Simulation.seeded 2 1 [1000, 10] [0, 0] 10)
     (by simp [Simulation.WF, DoubleBuffer.WF, Buffer.WF, Simulation.seeded]) 1000 0 hx hy⟩

section scenario8

set_option maxHeartbeats 4000000
set_option linter.unreachableTactic false
set_option linter.unusedTactic false

/-- C8, as stated, fails.  On a 2 x 1 grid with `velocityX = [1000, 10]` and
`velocityY = 0`, curl factor 0, baseline 0 and `dt = 0.1`, the sum of squared velocities
is `1000100` before `step(dt)` and `1960200` after it: both cells trace back onto the
cell that holds 1000 and read `0.99 * 1000`. -/
theorem step_can_increase_energy :
    (Simulation.seeded 2 1 [1000, 10] [0, 0] 10 : Simulation ℚ).energy = 1000100 ∧
    ((Simulation.seeded 2 1 [1000, 10] [0, 0] 10 : Simulation ℚ).step Rat.sqrt (Config.mk 0 0) (1 / 10)).energy = 1960200 ∧
    ¬ (((Simulation.seeded 2 1 [1000, 10] [0, 0] 10 : Simulation ℚ).step Rat.sqrt (Config.mk 0 0) (1 / 10)).energy
        ≤ (Simulation.seeded 2 1 [1000, 10] [0, 0] 10 : Simulation ℚ).energy) := by
  have h0 : (Simulation.seeded 2 1 [1000, 10] [0, 0] 10 : Simulation ℚ)
      = (Simulation.mk 2 1
        ⟨⟨2, 1, [1000, 10]⟩,
          [0, 0]⟩
        ⟨⟨2, 1, [0, 0]⟩,
          [0, 0]⟩
        ⟨2, 1, [0, 0]⟩
        ⟨2, 1, [0, 0]⟩
        ⟨⟨2, 1, [0, 0]⟩,
          [0, 0]⟩
        10 (1 / 10) 0 : Simulation ℚ) := rfl
  have hC : (Simulation.mk 2 1
      ⟨⟨2, 1, [1000, 10]⟩,
        [0, 0]⟩
      ⟨⟨2, 1, [0, 0]⟩,
        [0, 0]⟩
      ⟨2, 1, [0, 0]⟩
      ⟨2, 1, [0, 0]⟩
      ⟨⟨2, 1, [0, 0]⟩,
        [0, 0]⟩
      10 (1 / 10) (1 / 10) : Simulation ℚ).stepCurl
      = (Simulation.mk 2 1
        ⟨⟨2, 1, [1000, 10]⟩,
          [0, 0]⟩
        ⟨⟨2, 1, [0, 0]⟩,
          [0, 0]⟩
        ⟨2, 1, [0, 0]⟩
        ⟨2, 1, [0, 0]⟩
        ⟨⟨2, 1, [0, 0]⟩,
          [0, 0]⟩
        10 (1 / 10) (1 / 10) : Simulation ℚ) := by
    rw [Simulation.stepCurl_eq_map _ (by simp [Simulation.WF, DoubleBuffer.WF, Buffer.WF])]
    simp [List.range_succ, Simulation.curlCell, Buffer.get, Buffer.get?, Buffer.wrap,
      readAt, mod_eq_emod]
    all_goals norm_num [Int.fract]
  have hV : (Simulation.mk 2 1
      ⟨⟨2, 1, [1000, 10]⟩,
        [0, 0]⟩
      ⟨⟨2, 1, [0, 0]⟩,
        [0, 0]⟩
      ⟨2, 1, [0, 0]⟩
      ⟨2, 1, [0, 0]⟩
      ⟨⟨2, 1, [0, 0]⟩,
        [0, 0]⟩
      10 (1 / 10) (1 / 10) : Simulation ℚ).stepVorticity Rat.sqrt (Config.mk 0 0)
      = (Simulation.mk 2 1
        ⟨⟨2, 1, [1000, 10]⟩,
          [1000, 10]⟩
        ⟨⟨2, 1, [0, 0]⟩,
          [0, 0]⟩
        ⟨2, 1, [0, 0]⟩
        ⟨2, 1, [0, 0]⟩
        ⟨⟨2, 1, [0, 0]⟩,
          [0, 0]⟩
        10 (1 / 10) (1 / 10) : Simulation ℚ) := by
    rw [Simulation.stepVorticity_eq, Simulation.withVelocity_fill_eq_map _ (by simp [Simulation.WF, DoubleBuffer.WF, Buffer.WF])]
    simp [List.range_succ, Simulation.vorticityCellX, Simulation.vorticityCellY, Simulation.withVelocity, Buffer.get, Buffer.get?, Buffer.wrap,
      readAt, mod_eq_emod]
    all_goals norm_num [Int.fract]
  have hD : (Simulation.mk 2 1
      ⟨⟨2, 1, [1000, 10]⟩,
        [1000, 10]⟩
      ⟨⟨2, 1, [0, 0]⟩,
        [0, 0]⟩
      ⟨2, 1, [0, 0]⟩
      ⟨2, 1, [0, 0]⟩
      ⟨⟨2, 1, [0, 0]⟩,
        [0, 0]⟩
      10 (1 / 10) (1 / 10) : Simulation ℚ).stepDivergence
      = (Simulation.mk 2 1
        ⟨⟨2, 1, [1000, 10]⟩,
          [1000, 10]⟩
        ⟨⟨2, 1, [0, 0]⟩,
          [0, 0]⟩
        ⟨2, 1, [0, 0]⟩
        ⟨2, 1, [0, 0]⟩
        ⟨⟨2, 1, [0, 0]⟩,
          [0, 0]⟩
        10 (1 / 10) (1 / 10) : Simulation ℚ) := by
    rw [Simulation.stepDivergence_eq_map _ (by simp [Simulation.WF, DoubleBuffer.WF, Buffer.WF])]
    simp [List.range_succ, Simulation.divergenceCell, Buffer.get, Buffer.get?, Buffer.wrap,
      readAt, mod_eq_emod]
    all_goals norm_num [Int.fract]
  have hPress : (Simulation.mk 2 1
      ⟨⟨2, 1, [1000, 10]⟩,
        [1000, 10]⟩
      ⟨⟨2, 1, [0, 0]⟩,
        [0, 0]⟩
      ⟨2, 1, [0, 0]⟩
      ⟨2, 1, [0, 0]⟩
      ⟨⟨2, 1, [0, 0]⟩,
        [0, 0]⟩
      10 (1 / 10) (1 / 10) : Simulation ℚ).stepPressure (Config.mk 0 0)
      = (Simulation.mk 2 1
        ⟨⟨2, 1, [1000, 10]⟩,
          [1000, 10]⟩
        ⟨⟨2, 1, [0, 0]⟩,
          [0, 0]⟩
        ⟨2, 1, [0, 0]⟩
        ⟨2, 1, [0, 0]⟩
        ⟨⟨2, 1, [0, 0]⟩,
          [0, 0]⟩
        10 (1 / 10) (1 / 10) : Simulation ℚ) := by
    obtain ⟨S, hS⟩ : ∃ S : Simulation ℚ, S = (Simulation.mk 2 1
        ⟨⟨2, 1, [1000, 10]⟩,
          [1000, 10]⟩
        ⟨⟨2, 1, [0, 0]⟩,
          [0, 0]⟩
        ⟨2, 1, [0, 0]⟩
        ⟨2, 1, [0, 0]⟩
        ⟨⟨2, 1, [0, 0]⟩,
          [0, 0]⟩
        10 (1 / 10) (1 / 10) : Simulation ℚ) := ⟨_, rfl⟩
    rw [← hS]
    have step : ∀ A B A' : List ℚ, A.length = 2 → B.length = 2 →
        ((List.range B.length).map fun (k : Nat) =>
          ({ S with pressure := ⟨⟨2, 1, A⟩, B⟩ } : Simulation ℚ).pressureCell
            ((k : Int) % 2) ((k : Int) / 2)) = A' →
        ({ S with pressure := ⟨⟨2, 1, A⟩, B⟩ } : Simulation ℚ).pressureIteration
          = { S with pressure := ⟨⟨2, 1, A'⟩, A⟩ } := by
      intro A B A' hlA hl hA
      subst hA
      rw [Simulation.pressureIteration_eq_map _ (by
        subst hS
        simp [Simulation.WF, DoubleBuffer.WF, Buffer.WF, hlA, hl])]
      subst hS
      rfl
    have h1 := step
      [0, 0]
      [0, 0]
      [0, 0]
      rfl rfl (by
      subst hS
      simp [List.range_succ, Simulation.pressureCell, Buffer.get, Buffer.get?, Buffer.wrap,
        readAt, mod_eq_emod]
      all_goals norm_num [Int.fract])
    have h2 := step
      [0, 0]
      [0, 0]
      [0, 0]
      rfl rfl (by
      subst hS
      simp [List.range_succ, Simulation.pressureCell, Buffer.get, Buffer.get?, Buffer.wrap,
        readAt, mod_eq_emod]
      all_goals norm_num [Int.fract])
    have h3 := step
      [0, 0]
      [0, 0]
      [0, 0]
      rfl rfl (by
      subst hS
      simp [List.range_succ, Simulation.pressureCell, Buffer.get, Buffer.get?, Buffer.wrap,
        readAt, mod_eq_emod]
      all_goals norm_num [Int.fract])
    have h4 := step
      [0, 0]
      [0, 0]
      [0, 0]
      rfl rfl (by
      subst hS
      simp [List.range_succ, Simulation.pressureCell, Buffer.get, Buffer.get?, Buffer.wrap,
        readAt, mod_eq_emod]
      all_goals norm_num [Int.fract])
    have h5 := step
      [0, 0]
      [0, 0]
      [0, 0]
      rfl rfl (by
      subst hS
      simp [List.range_succ, Simulation.pressureCell, Buffer.get, Buffer.get?, Buffer.wrap,
        readAt, mod_eq_emod]
      all_goals norm_num [Int.fract])
    have h6 := step
      [0, 0]
      [0, 0]
      [0, 0]
      rfl rfl (by
      subst hS
      simp [List.range_succ, Simulation.pressureCell, Buffer.get, Buffer.get?, Buffer.wrap,
        readAt, mod_eq_emod]
      all_goals norm_num [Int.fract])
    have h7 := step
      [0, 0]
      [0, 0]
      [0, 0]
      rfl rfl (by
      subst hS
      simp [List.range_succ, Simulation.pressureCell, Buffer.get, Buffer.get?, Buffer.wrap,
        readAt, mod_eq_emod]
      all_goals norm_num [Int.fract])
    have h8 := step
      [0, 0]
      [0, 0]
      [0, 0]
      rfl rfl (by
      subst hS
      simp [List.range_succ, Simulation.pressureCell, Buffer.get, Buffer.get?, Buffer.wrap,
        readAt, mod_eq_emod]
      all_goals norm_num [Int.fract])
    have h9 := step
      [0, 0]
      [0, 0]
      [0, 0]
      rfl rfl (by
      subst hS
      simp [List.range_succ, Simulation.pressureCell, Buffer.get, Buffer.get?, Buffer.wrap,
        readAt, mod_eq_emod]
      all_goals norm_num [Int.fract])
    have h10 := step
      [0, 0]
      [0, 0]
      [0, 0]
      rfl rfl (by
      subst hS
      simp [List.range_succ, Simulation.pressureCell, Buffer.get, Buffer.get?, Buffer.wrap,
        readAt, mod_eq_emod]
      all_goals norm_num [Int.fract])
    have hc : S.pressure.clear (Config.mk (0 : ℚ) 0).pressure
        = ⟨⟨2, 1, [0, 0]⟩,
          [0, 0]⟩ := by
      subst hS
      simp [DoubleBuffer.clear, Buffer.clear_eq, List.replicate]
    have hi : Simulation.pressureIteration^[10]
          { S with pressure := ⟨⟨2, 1, [0, 0]⟩,
            [0, 0]⟩ }
        = { S with pressure := ⟨⟨2, 1, [0, 0]⟩,
            [0, 0]⟩ } := by
      rw [Function.iterate_succ_apply, h1, Function.iterate_succ_apply, h2, Function.iterate_succ_apply, h3, Function.iterate_succ_apply, h4, Function.iterate_succ_apply, h5, Function.iterate_succ_apply, h6, Function.iterate_succ_apply, h7, Function.iterate_succ_apply, h8, Function.iterate_succ_apply, h9, Function.iterate_succ_apply, h10,
        Function.iterate_zero_apply]
    have hn : S.iterations = 10 := by rw [hS]
    have hP := Simulation.stepPressure_unfold (Config.mk 0 0) S 10 _ _ hn hc hi
    rw [hP]
    subst hS
    rfl
  have hG : (Simulation.mk 2 1
      ⟨⟨2, 1, [1000, 10]⟩,
        [1000, 10]⟩
      ⟨⟨2, 1, [0, 0]⟩,
        [0, 0]⟩
      ⟨2, 1, [0, 0]⟩
      ⟨2, 1, [0, 0]⟩
      ⟨⟨2, 1, [0, 0]⟩,
        [0, 0]⟩
      10 (1 / 10) (1 / 10) : Simulation ℚ).stepSubtractGradient
      = (Simulation.mk 2 1
        ⟨⟨2, 1, [1000, 10]⟩,
          [1000, 10]⟩
        ⟨⟨2, 1, [0, 0]⟩,
          [0, 0]⟩
        ⟨2, 1, [0, 0]⟩
        ⟨2, 1, [0, 0]⟩
        ⟨⟨2, 1, [0, 0]⟩,
          [0, 0]⟩
        10 (1 / 10) (1 / 10) : Simulation ℚ) := by
    rw [Simulation.stepSubtractGradient_eq, Simulation.withVelocity_fill_eq_map _ (by simp [Simulation.WF, DoubleBuffer.WF, Buffer.WF])]
    simp [List.range_succ, Simulation.gradientCellX, Simulation.gradientCellY, Simulation.withVelocity, Buffer.get, Buffer.get?, Buffer.wrap,
      readAt, mod_eq_emod]
    all_goals norm_num [Int.fract]
  have hA : (Simulation.mk 2 1
      ⟨⟨2, 1, [1000, 10]⟩,
        [1000, 10]⟩
      ⟨⟨2, 1, [0, 0]⟩,
        [0, 0]⟩
      ⟨2, 1, [0, 0]⟩
      ⟨2, 1, [0, 0]⟩
      ⟨⟨2, 1, [0, 0]⟩,
        [0, 0]⟩
      10 (1 / 10) (1 / 10) : Simulation ℚ).stepAdvection
      = (Simulation.mk 2 1
        ⟨⟨2, 1, [990, 990]⟩,
          [1000, 10]⟩
        ⟨⟨2, 1, [0, 0]⟩,
          [0, 0]⟩
        ⟨2, 1, [0, 0]⟩
        ⟨2, 1, [0, 0]⟩
        ⟨⟨2, 1, [0, 0]⟩,
          [0, 0]⟩
        10 (1 / 10) (1 / 10) : Simulation ℚ) := by
    rw [Simulation.stepAdvection_eq, Simulation.withVelocity_fill_eq_map _ (by simp [Simulation.WF, DoubleBuffer.WF, Buffer.WF])]
    simp [List.range_succ, Simulation.advectionCellX, Simulation.advectionCellY, Simulation.withVelocity, Buffer.sample, lerp, Buffer.get, Buffer.get?, Buffer.wrap,
      readAt, mod_eq_emod]
    all_goals norm_num [Int.fract]
  have hstep : (Simulation.seeded 2 1 [1000, 10] [0, 0] 10 : Simulation ℚ).step Rat.sqrt (Config.mk 0 0) (1 / 10)
      = (Simulation.mk 2 1
        ⟨⟨2, 1, [990, 990]⟩,
          [1000, 10]⟩
        ⟨⟨2, 1, [0, 0]⟩,
          [0, 0]⟩
        ⟨2, 1, [0, 0]⟩
        ⟨2, 1, [0, 0]⟩
        ⟨⟨2, 1, [0, 0]⟩,
          [0, 0]⟩
        10 (1 / 10) (1 / 10) : Simulation ℚ) := by
    rw [h0]
    show ((((((Simulation.mk 2 1
      ⟨⟨2, 1, [1000, 10]⟩,
        [0, 0]⟩
      ⟨⟨2, 1, [0, 0]⟩,
        [0, 0]⟩
      ⟨2, 1, [0, 0]⟩
      ⟨2, 1, [0, 0]⟩
      ⟨⟨2, 1, [0, 0]⟩,
        [0, 0]⟩
      10 (1 / 10) (1 / 10) : Simulation ℚ).stepCurl).stepVorticity Rat.sqrt
      (Config.mk 0 0)).stepDivergence).stepPressure (Config.mk 0 0)).stepSubtractGradient).stepAdvection
      = _
    rw [hC, hV, hD, hPress, hG, hA]
  have e1 : (Simulation.seeded 2 1 [1000, 10] [0, 0] 10 : Simulation ℚ).energy = 1000100 := by
    rw [h0]
    simp [Simulation.energy, cells, List.range_succ, Buffer.get, Buffer.get?, Buffer.wrap,
      readAt, mod_eq_emod]
    all_goals norm_num
  have e2 : ((Simulation.seeded 2 1 [1000, 10] [0, 0] 10 : Simulation ℚ).step Rat.sqrt (Config.mk 0 0) (1 / 10)).energy
      = 1960200 := by
    rw [hstep]
    simp [Simulation.energy, cells, List.range_succ, Buffer.get, Buffer.get?, Buffer.wrap,
      readAt, mod_eq_emod]
    all_goals norm_num
  refine ⟨e1, e2, ?_⟩
  rw [e1, e2]
  norm_num

end scenario8

/-! ## C11: `out` and the visible surface -/

/-- C11 (`out` writes only the next surface).  For every `DoubleBuffer`, every cell
`(x, y)` and value `v`, after `out(x, y, v)` and before any swap the surface `a` is
untouched: `get` reads the same cell and returns the same value at every integer
coordinate, and `sample` returns the same value at every point. -/
theorem out_keeps_visible_surface [LinearOrderedField α] [FloorRing α] (d : DoubleBuffer α)
    (x y : Int) (v : α) :
    (d.out x y v).a = d.a ∧
    (∀ cx cy : Int, (d.out x y v).get? cx cy = d.get? cx cy ∧
      (d.out x y v).get cx cy = d.get cx cy) ∧
    (∀ p q : α, (d.out x y v).sample p q = d.sample p q) := by
  have e : (d.out x y v).toBuffer = d.toBuffer := rfl
  refine ⟨rfl, fun cx cy => ⟨?_, ?_⟩, fun p q => ?_⟩
  · rw [e]
  · rw [e]
  · rw [e]

/-! ## C14, C16, C17, C20: the formulas of the stages -/

section formulas

variable [LinearOrderedField α]

theorem Simulation.curlCell_emod (t : Simulation α) (ht : t.WF) (x y : Int) :
    t.curlCell (x % t.width) (y % t.height)
      = (1 / 2) * ((t.velocityY.get (x + 1) y - t.velocityY.get (x - 1) y)
          + (t.velocityX.get x (y - 1) - t.velocityX.get x (y + 1))) := by
  obtain ⟨⟨⟨⟨hxw, hxh, _⟩, _⟩, hx1, hx2⟩, ⟨⟨⟨hyw, hyh, _⟩, _⟩, hy1, hy2⟩, _⟩ := ht
  have e1 := Buffer.get_emod_east t.velocityY.toBuffer hyw hyh x y
  have e2 := Buffer.get_emod_west t.velocityY.toBuffer hyw hyh x y
  have e3 := Buffer.get_emod_south t.velocityX.toBuffer hxw hxh x y
  have e4 := Buffer.get_emod_north t.velocityX.toBuffer hxw hxh x y
  rw [hy1, hy2] at e1 e2
  rw [hx1, hx2] at e3 e4
  unfold Simulation.curlCell
  simp only [e1, e2, e3, e4]
  ring

/-- The curl grid after `stepCurl`, at every coordinate. -/
theorem Simulation.stepCurl_get (t : Simulation α) (ht : t.WF) (x y : Int) :
    t.stepCurl.curl.get x y
      = (1 / 2) * ((t.velocityY.get (x + 1) y - t.velocityY.get (x - 1) y)
          + (t.velocityX.get x (y - 1) - t.velocityX.get x (y + 1))) := by
  obtain ⟨C, hC, -, hCget⟩ := t.stepCurl_spec ht
  rw [hC]
  show C.get x y = _
  rw [hCget, t.curlCell_emod ht]

end formulas

/-- C14 (divergence stage formula).  For a well-formed 2D simulation and every cell
`(i, j)`, after `stepDivergence`
`divergence(i, j) = 1/2 * ((velocityX(i+1, j) - velocityX(i-1, j))
  + (velocityY(i, j+1) - velocityY(i, j-1)))` with neighbours on the wrapped grid, and
both velocity components are unchanged by the stage. -/
theorem divergence_stage_formula [LinearOrderedField α] (s : Simulation α) (hs : s.WF)
    (i j : Int) :
    s.stepDivergence.divergence.get i j
        = (1 / 2) * ((s.velocityX.get (i + 1) j - s.velocityX.get (i - 1) j)
            + (s.velocityY.get i (j + 1) - s.velocityY.get i (j - 1))) ∧
    s.stepDivergence.velocityX = s.velocityX ∧
    s.stepDivergence.velocityY = s.velocityY := by
  refine ⟨Simulation.stepDivergence_get s hs i j, ?_, ?_⟩
  · rw [Simulation.stepDivergence_eq]
  · rw [Simulation.stepDivergence_eq]

/-- C14, at the cell `(1, 0)` of the 3 x 1 grid with `velocityX = [1, 0, 0]`. -/
theorem divergence_stage_formula_witness :
    (Simulation.seeded 3 1 [1, 0, 0] [0, 0, 0] 10 : Simulation ℚ).WF ∧
    ((Simulation.seeded 3 1 [1, 0, 0] [0, 0, 0] 10 : Simulation ℚ).stepDivergence.divergence.get 1 0
        = (1 / 2) * (((Simulation.seeded 3 1 [1, 0, 0] [0, 0, 0] 10 : Simulation ℚ).velocityX.get (1 + 1) 0
              - (Simulation.seeded 3 1 [1, 0, 0] [0, 0, 0] 10 : Simulation ℚ).velocityX.get (1 - 1) 0)
            + ((Simulation.seeded 3 1 [1, 0, 0] [0, 0, 0] 10 : Simulation ℚ).velocityY.get 1 (0 + 1)
              - (Simulation.seeded 3 1 [1, 0, 0] [0, 0, 0] 10 : Simulation ℚ).velocityY.get 1 (0 - 1))) ∧
      (Simulation.seeded 3 1 [1, 0, 0] [0, 0, 0] 10 : Simulation ℚ).stepDivergence.velocityX
        = (Simulation.seeded 3 1 [1, 0, 0] [0, 0, 0] 10 : Simulation ℚ).velocityX ∧
      (Simulation.seeded 3 1 [1, 0, 0] [0, 0, 0] 10 : Simulation ℚ).stepDivergence.velocityY
        = (Simulation.seeded 3 1 [1, 0, 0] [0, 0, 0] 10 : Simulation ℚ).velocityY) :=
  ⟨by simp [Simulation.WF, DoubleBuffer.WF, Buffer.WF, Simulation.seeded],
   divergence_stage_formula (Simulation.seeded 3 1 [1, 0, 0] [0, 0, 0] 10)
     (by simp [Simulation.WF, DoubleBuffer.WF, Buffer.WF, Simulation.seeded]) 1 0⟩

/-- C16 (gradient subtraction formula).  For a well-formed 2D simulation and every cell
`(i, j)`, after `stepSubtractGradient` the visible velocity is
`velocityX(i, j) - (p(i+1, j) - p(i-1, j))` and `velocityY(i, j) - (p(i, j+1) - p(i, j-1))`,
with neighbours on the wrapped grid and every read taken from the fields as they were
before the stage (the pressure is not changed by the stage). -/
theorem gradient_subtraction_formula [LinearOrderedField α] (s : Simulation α) (hs : s.WF)
    (i j : Int) :
    s.stepSubtractGradient.velocityX.get i j
        = s.velocityX.get i j - (s.pressure.get (i + 1) j - s.pressure.get (i - 1) j) ∧
    s.stepSubtractGradient.velocityY.get i j
        = s.velocityY.get i j - (s.pressure.get i (j + 1) - s.pressure.get i (j - 1)) ∧
    s.stepSubtractGradient.pressure = s.pressure := by
  obtain ⟨-, hX, hY⟩ := Simulation.stepSubtractGradient_spec s hs
  exact ⟨hX i j, hY i j, Simulation.stepSubtractGradient_pressure s⟩

/-- C16, at the cell `(1, 0)` of the 3 x 1 grid with `velocityX = [1, 0, 0]`. -/
theorem gradient_subtraction_formula_witness :
    (Simulation.seeded 3 1 [1, 0, 0] [0, 0, 0] 10 : Simulation ℚ).WF ∧
    ((Simulation.seeded 3 1 [1, 0, 0] [0, 0, 0] 10 : Simulation ℚ).stepSubtractGradient.velocityX.get 1 0
        = (Simulation.seeded 3 1 [1, 0, 0] [0, 0, 0] 10 : Simulation ℚ).velocityX.get 1 0
          - ((Simulation.seeded 3 1 [1, 0, 0] [0, 0, 0] 10 : Simulation ℚ).pressure.get (1 + 1) 0
            - (Simulation.seeded 3 1 [1, 0, 0] [0, 0, 0] 10 : Simulation ℚ).pressure.get (1 - 1) 0) ∧
      (Simulation.seeded 3 1 [1, 0, 0] [0, 0, 0] 10 : Simulation ℚ).stepSubtractGradient.velocityY.get 1 0
        = (Simulation.seeded 3 1 [1, 0, 0] [0, 0, 0] 10 : Simulation ℚ).velocityY.get 1 0
          - ((Simulation.seeded 3 1 [1, 0, 0] [0, 0, 0] 10 : Simulation ℚ).pressure.get 1 (0 + 1)
            - (Simulation.seeded 3 1 [1, 0, 0] [0, 0, 0] 10 : Simulation ℚ).pressure.get 1 (0 - 1)) ∧
      (Simulation.seeded 3 1 [1, 0, 0] [0, 0, 0] 10 : Simulation ℚ).stepSubtractGradient.pressure
        = (Simulation.seeded 3 1 [1, 0, 0] [0, 0, 0] 10 : Simulation ℚ).pressure) :=
  ⟨by simp [Simulation.WF, DoubleBuffer.WF, Buffer.WF, Simulation.seeded],
   gradient_subtraction_formula (Simulation.seeded 3 1 [1, 0, 0] [0, 0, 0] 10)
     (by simp [Simulation.WF, DoubleBuffer.WF, Buffer.WF, Simulation.seeded]) 1 0⟩

/-- C17 (semi-Lagrangian advection formula).  For a well-formed 2D simulation, every
`dt` (the field `dt` that `step` assigns) and every in-range cell `(i, j)`, after
`stepAdvection` the visible velocity is `0.99 * velocityX.sample(u, v)` and
`0.99 * velocityY.sample(u, v)` with `u = (i - velocityX(i, j) * dt) / width` and
`v = (j - velocityY(i, j) * dt) / height`, every `get` and `sample` reading the field as
it was before the stage. -/
theorem advection_formula [LinearOrderedField α] [FloorRing α] (s : Simulation α)
    (hs : s.WF) (i j : Int) (hi0 : 0 ≤ i) (hi : i < s.width) (hj0 : 0 ≤ j) (hj : j < s.height) :
    s.stepAdvection.velocityX.get i j
        = 99 / 100 * s.velocityX.sample
            (((i : α) - s.velocityX.get i j * s.dt) / (s.width : α))
            (((j : α) - s.velocityY.get i j * s.dt) / (s.height : α)) ∧
    s.stepAdvection.velocityY.get i j
        = 99 / 100 * s.velocityY.sample
            (((i : α) - s.velocityX.get i j * s.dt) / (s.width : α))
            (((j : α) - s.velocityY.get i j * s.dt) / (s.height : α)) := by
  obtain ⟨-, hX, hY⟩ :=
    Simulation.withVelocity_fill_spec s hs s.advectionCellX s.advectionCellY
  rw [Simulation.stepAdvection_eq, hX, hY, Int.emod_eq_of_lt hi0 hi, Int.emod_eq_of_lt hj0 hj]
  unfold Simulation.advectionCellX Simulation.advectionCellY
  exact ⟨mul_comm _ _, mul_comm _ _⟩

/-- C17, at the cell `(1, 0)` of the 2 x 1 grid with `velocityX = [1000, 10]`. -/
theorem advection_formula_witness :
    ((Simulation.seeded 2 1 [1000, 10] [0, 0] 10 : Simulation ℚ).WF ∧ (0 : Int) ≤ 1 ∧
      (1 : Int) < (Simulation.seeded 2 1 [1000, 10] [0, 0] 10 : Simulation ℚ).width ∧
      (0 : Int) ≤ 0 ∧
      (0 : Int) < (Simulation.seeded 2 1 [1000, 10] [0, 0] 10 : Simulation ℚ).height) ∧
    ((Simulation.seeded 2 1 [1000, 10] [0, 0] 10 : Simulation ℚ).stepAdvection.velocityX.get 1 0
        = 99 / 100 * (Simulation.seeded 2 1 [1000, 10] [0, 0] 10 : Simulation ℚ).velocityX.sample
            ((((1 : Int) : ℚ)
                - (Simulation.seeded 2 1 [1000, 10] [0, 0] 10 : Simulation ℚ).velocityX.get 1 0
                  * (Simulation.seeded 2 1 [1000, 10] [0, 0] 10 : Simulation ℚ).dt)
              / ((Simulation.seeded 2 1 [1000, 10] [0, 0] 10 : Simulation ℚ).width : ℚ))
            ((((0 : Int) : ℚ)
                - (Simulation.seeded 2 1 [1000, 10] [0, 0] 10 : Simulation ℚ).velocityY.get 1 0
                  * (Simulation.seeded 2 1 [1000, 10] [0, 0] 10 : Simulation ℚ).dt)
              / ((Simulation.seeded 2 1 [1000, 10] [0, 0] 10 : Simulation ℚ).height : ℚ)) ∧
      (Simulation.seeded 2 1 [1000, 10] [0, 0] 10 : Simulation ℚ).stepAdvection.velocityY.get 1 0
        = 99 / 100 * (Simulation.seeded 2 1 [1000, 10] [0, 0] 10 : Simulation ℚ).velocityY.sample
            ((((1 : Int) : ℚ)
                - (Simulation.seeded 2 1 [1000, 10] [0, 0] 10 : Simulation ℚ).velocityX.get 1 0
                  * (Simulation.seeded 2 1 [1000, 10] [0, 0] 10 : Simulation ℚ).dt)
              / ((Simulation.seeded 2 1 [1000, 10] [0, 0] 10 : Simulation ℚ).width : ℚ))
            ((((0 : Int) : ℚ)
                - (Simulation.seeded 2 1 [1000, 10] [0, 0] 10 : Simulation ℚ).velocityY.get 1 0
                  * (Simulation.seeded 2 1 [1000, 10] [0, 0] 10 : Simulation ℚ).dt)
              / ((Simulation.seeded 2 1 [1000, 10] [0, 0] 10 : Simulation ℚ).height : ℚ))) :=
  ⟨⟨by simp [Simulation.WF, DoubleBuffer.WF, Buffer.WF, Simulation.seeded], by decide,
      by decide, by decide, by decide⟩,
   advection_formula (Simulation.seeded 2 1 [1000, 10] [0, 0] 10)
     (by simp [Simulation.WF, DoubleBuffer.WF, Buffer.WF, Simulation.seeded]) 1 0
     (by decide) (by decide) (by decide) (by decide)⟩

/-- C20 (curl stage formula).  For a well-formed 2D simulation and every cell `(i, j)`,
after `stepCurl`
`curl(i, j) = 1/2 * ((velocityY(i+1, j) - velocityY(i-1, j))
  + (velocityX(i, j-1) - velocityX(i, j+1)))` with neighbours on the wrapped grid; so
when both velocity components are uniform the curl is 0 at every cell. -/
theorem curl_stage_formula [LinearOrderedField α] (s : Simulation α) (hs : s.WF) (i j : Int) :
    s.stepCurl.curl.get i j
        = (1 / 2) * ((s.velocityY.get (i + 1) j - s.velocityY.get (i - 1) j)
            + (s.velocityX.get i (j - 1) - s.velocityX.get i (j + 1))) ∧
    ∀ a b : α, (∀ x y : Int, s.velocityX.get x y = a) → (∀ x y : Int, s.velocityY.get x y = b) →
      s.stepCurl.curl.get i j = 0 := by
  refine ⟨Simulation.stepCurl_get s hs i j, fun a b ha hb => ?_⟩
  rw [Simulation.stepCurl_get s hs i j, ha, ha, hb, hb]
  ring

/-- C20, at the cell `(1, 0)` of the 2 x 2 grid with the uniform velocity `(5, 7)`. -/
theorem curl_stage_formula_witness :
    ((Simulation.seeded 2 2 [5, 5, 5, 5] [7, 7, 7, 7] 10 : Simulation ℚ).WF ∧ (∀ x y : Int, (Simulation.seeded 2 2 [5, 5, 5, 5] [7, 7, 7, 7] 10 : Simulation ℚ).velocityX.get x y = 5) ∧
      (∀ x y : Int, (Simulation.seeded 2 2 [5, 5, 5, 5] [7, 7, 7, 7] 10 : Simulation ℚ).velocityY.get x y = 7)) ∧
    (Simulation.seeded 2 2 [5, 5, 5, 5] [7, 7, 7, 7] 10 : Simulation ℚ).stepCurl.curl.get 1 0
        = (1 / 2) * (((Simulation.seeded 2 2 [5, 5, 5, 5] [7, 7, 7, 7] 10 : Simulation ℚ).velocityY.get (1 + 1) 0 - (Simulation.seeded 2 2 [5, 5, 5, 5] [7, 7, 7, 7] 10 : Simulation ℚ).velocityY.get (1 - 1) 0)
            + ((Simulation.seeded 2 2 [5, 5, 5, 5] [7, 7, 7, 7] 10 : Simulation ℚ).velocityX.get 1 (0 - 1) - (Simulation.seeded 2 2 [5, 5, 5, 5] [7, 7, 7, 7] 10 : Simulation ℚ).velocityX.get 1 (0 + 1))) ∧
    (Simulation.seeded 2 2 [5, 5, 5, 5] [7, 7, 7, 7] 10 : Simulation ℚ).stepCurl.curl.get 1 0 = 0 :=
  ⟨⟨by simp [Simulation.WF, DoubleBuffer.WF, Buffer.WF, Simulation.seeded],
      fun x y => get_replicate (by decide) (by decide) 4 (by decide) 5 x y,
      fun x y => get_replicate (by decide) (by decide) 4 (by decide) 7 x y⟩,
   (curl_stage_formula (Simulation.seeded 2 2 [5, 5, 5, 5] [7, 7, 7, 7] 10 : Simulation ℚ)
     (by simp [Simulation.WF, DoubleBuffer.WF, Buffer.WF, Simulation.seeded]) 1 0).1,
   (curl_stage_formula (Simulation.seeded 2 2 [5, 5, 5, 5] [7, 7, 7, 7] 10 : Simulation ℚ)
     (by simp [Simulation.WF, DoubleBuffer.WF, Buffer.WF, Simulation.seeded]) 1 0).2 5 7
     (fun x y => get_replicate (by decide) (by decide) 4 (by decide) 5 x y)
     (fun x y => get_replicate (by decide) (by decide) 4 (by decide) 7 x y)⟩

/-! ## C13: the constructors -/

/-- C13, as stated, fails: no constructor checks its extents.  `new Buffer(0, 5)` and
`new Simulation(0, 5)` succeed with empty surfaces, and `new Buffer(-2, -3)` succeeds
with six cells. -/
theorem degenerate_extents_are_accepted :
    (Buffer.new 0 5 : Except String (Buffer ℚ)) = .ok ⟨0, 5, []⟩ ∧
    (Simulation.new 0 5 : Except String (Simulation ℚ))
      = .ok (Simulation.seeded 0 5 [] [] 10) ∧
    (Buffer.new (-2) (-3) : Except String (Buffer ℚ)) = .ok ⟨-2, -3, [0, 0, 0, 0, 0, 0]⟩ := by
  refine ⟨rfl, rfl, rfl⟩

theorem float32Array_natCast [Zero α] (n : Nat) :
    (float32Array (n : Int) : Except String (List α)) = .ok (List.replicate n 0) := by
  unfold float32Array
  rw [if_neg (by omega), Int.toNat_ofNat]

/-- C13, amended.  The only check at construction is the one of `Float32Array`: for
integer extents, `new Buffer(width, height)` and `new Simulation(width, height)` throw a
`RangeError` exactly when `width * height < 0`; otherwise, a zero extent and two
negative extents included, they succeed and every surface has `width * height` cells,
all zero. -/
theorem construction_checks_only_the_size [LinearOrderedField α] [FloorRing α]
    (width height : Int) :
    (Buffer.new width height : Except String (Buffer α))
      = (if width * height < 0 then .error "RangeError: Invalid typed array length"
         else .ok ⟨width, height, List.replicate (width * height).toNat 0⟩) ∧
    (Simulation.new width height : Except String (Simulation α))
      = (if width * height < 0 then .error "RangeError: Invalid typed array length"
         else .ok (Simulation.seeded width height
            (List.replicate (width * height).toNat 0)
            (List.replicate (width * height).toNat 0) 10)) := by
  have hB : (Buffer.new width height : Except String (Buffer α))
      = (if width * height < 0 then .error "RangeError: Invalid typed array length"
         else .ok ⟨width, height, List.replicate (width * height).toNat 0⟩) := by
    unfold Buffer.new float32Array
    by_cases h : width * height < 0
    · simp only [if_pos h]
      rfl
    · simp only [if_neg h]
      rfl
  have hD : (DoubleBuffer.new width height : Except String (DoubleBuffer α))
      = (if width * height < 0 then .error "RangeError: Invalid typed array length"
         else .ok ⟨⟨width, height, List.replicate (width * height).toNat 0⟩,
            List.replicate (width * height).toNat 0⟩) := by
    unfold DoubleBuffer.new
    rw [hB]
    by_cases h : width * height < 0
    · simp only [if_pos h]
      rfl
    · simp only [if_neg h]
      show (do
          let b ← float32Array (((List.replicate (width * height).toNat (0 : α)).length : Nat) : Int)
          pure (⟨⟨width, height, List.replicate (width * height).toNat 0⟩, b⟩ : DoubleBuffer α))
        = _
      rw [float32Array_natCast, List.length_replicate]
      rfl
  refine ⟨hB, ?_⟩
  unfold Simulation.new
  rw [hD, hB]
  by_cases h : width * height < 0
  · simp only [if_pos h]
    rfl
  · simp only [if_neg h]
    rfl

/-! ## C15: the 3D pressure pass -/

section scenario15

set_option maxHeartbeats 4000000

/-- C15 fails on the code: the 3D pass divides by 8, not by 6.  On a 2 x 2 x 2 grid with
pressure 1 at every cell and divergence 0, one pass of the 3D `stepPressure` leaves
`(6 * 1 - 0) / 8 = 3/4` at every cell, where `(6 * 1 - 0) / 6 = 1` would make the uniform
field a fixed point. -/
theorem pressure_pass_3d_divides_by_eight :
    ((Fluids3.Simulation.mk 2 2 2
        ⟨⟨2, 2, 2, [0, 0, 0, 0, 0, 0, 0, 0]⟩, [0, 0, 0, 0, 0, 0, 0, 0]⟩
        ⟨⟨2, 2, 2, [0, 0, 0, 0, 0, 0, 0, 0]⟩, [0, 0, 0, 0, 0, 0, 0, 0]⟩
        ⟨⟨2, 2, 2, [0, 0, 0, 0, 0, 0, 0, 0]⟩, [0, 0, 0, 0, 0, 0, 0, 0]⟩
        ⟨2, 2, 2, [0, 0, 0, 0, 0, 0, 0, 0]⟩ ⟨2, 2, 2, [0, 0, 0, 0, 0, 0, 0, 0]⟩
        ⟨⟨2, 2, 2, [1, 1, 1, 1, 1, 1, 1, 1]⟩, [0, 0, 0, 0, 0, 0, 0, 0]⟩ 4 (1 / 10) 0
        : Fluids3.Simulation ℚ).pressureIteration).pressure
      = ⟨⟨2, 2, 2, [3 / 4, 3 / 4, 3 / 4, 3 / 4, 3 / 4, 3 / 4, 3 / 4, 3 / 4]⟩,
          [1, 1, 1, 1, 1, 1, 1, 1]⟩ ∧
    ((6 : ℚ) * 1 - 0) / 8 = 3 / 4 ∧ ((6 : ℚ) * 1 - 0) / 6 = 1 := by
  refine ⟨?_, by norm_num, by norm_num⟩
  simp [Fluids3.Simulation.pressureIteration, Fluids3.sweep3, forRange, List.range_succ,
    Fluids3.DoubleBuffer.out, Fluids3.DoubleBuffer.swap, Fluids3.Buffer.get,
    Fluids3.Buffer.get?, Fluids3.Buffer.wrap, Fluids3.Buffer.index, readAt, writeAt,
    mod_eq_emod]
  norm_num

end scenario15

/-! ## C12: impulse injection -/

section injection

variable [LinearOrderedField α] [FloorRing α]

/-- `Math.round((u + i / W) * W) = Math.round(u * W) + i` for an integer `i`. -/
theorem mathRound_shift (u : α) (i : Int) {W : Int} (hW : 0 < W) :
    mathRound ((u + (i : α) / (W : α)) * (W : α)) = mathRound (u * (W : α)) + i := by
  have hW' : (W : α) ≠ 0 := by
    have : (0 : α) < (W : α) := by exact_mod_cast hW
    exact ne_of_gt this
  unfold mathRound
  have e : (u + (i : α) / (W : α)) * (W : α) + 1 / 2 = u * (W : α) + 1 / 2 + (i : α) := by
    field_simp
    ring
  rw [e, Int.floor_add_int]

/-- The nested loops of `advance` visit the offsets of `impulseCells` in turn. -/
theorem forInclusive_nested_eq_foldl {σ : Type} (body : Int → Int → σ → σ) (s : σ) :
    forInclusive (-3) 3 (fun i t => forInclusive (-3) 3 (fun j r => body i j r) t) s
      = impulseCells.foldl (fun t c => body c.1 c.2 t) s := by
  unfold forInclusive impulseCells
  rw [foldl_flatMap_eq]
  simp only [List.foldl_map]
  rfl

/-- A fold of the loop body of `advance` writes the two values at the flat indices
`index(x, y)` of the rounded positions, on the surface `a` of each component. -/
theorem foldl_impulseBody (u v vx vy : α) (cs : List (Int × Int)) (sim : Simulation α) :
    cs.foldl (fun t c => impulseBody u v vx vy c.1 c.2 t) sim
      = { sim with
          velocityX := { sim.velocityX with
            a := cs.foldl (fun a c => writeAt a
              (mathRound ((u + (c.1 : α) / (sim.width : α)) * (sim.velocityX.width : α))
                + mathRound ((v + (c.2 : α) / (sim.height : α)) * (sim.velocityX.height : α))
                  * sim.velocityX.width) vx) sim.velocityX.a },
          velocityY := { sim.velocityY with
            a := cs.foldl (fun a c => writeAt a
              (mathRound ((u + (c.1 : α) / (sim.width : α)) * (sim.velocityY.width : α))
                + mathRound ((v + (c.2 : α) / (sim.height : α)) * (sim.velocityY.height : α))
                  * sim.velocityY.width) vy) sim.velocityY.a } } := by
  have h := foldl_lens (fun t : Simulation α => (t.velocityX.a, t.velocityY.a))
    (fun r t => { t with velocityX := { t.velocityX with a := r.1 },
                         velocityY := { t.velocityY with a := r.2 } })
    (fun t (c : Int × Int) r =>
      (writeAt r.1
          (mathRound ((u + (c.1 : α) / (t.width : α)) * (t.velocityX.width : α))
            + mathRound ((v + (c.2 : α) / (t.height : α)) * (t.velocityX.height : α))
              * t.velocityX.width) vx,
       writeAt r.2
          (mathRound ((u + (c.1 : α) / (t.width : α)) * (t.velocityY.width : α))
            + mathRound ((v + (c.2 : α) / (t.height : α)) * (t.velocityY.height : α))
              * t.velocityY.width) vy))
    (fun (c : Int × Int) t => impulseBody u v vx vy c.1 c.2 t)
    (fun _ _ => rfl) (fun _ _ => rfl) (fun _ _ _ => rfl) (fun _ => rfl) (fun _ _ => rfl)
    cs sim
  rw [h]
  exact congrArg
    (fun r : List α × List α =>
      { sim with velocityX := { sim.velocityX with a := r.1 },
                 velocityY := { sim.velocityY with a := r.2 } })
    (foldl_pair
      (fun (c : Int × Int) (a : List α) => writeAt a
        (mathRound ((u + (c.1 : α) / (sim.width : α)) * (sim.velocityX.width : α))
          + mathRound ((v + (c.2 : α) / (sim.height : α)) * (sim.velocityX.height : α))
            * sim.velocityX.width) vx)
      (fun (c : Int × Int) (a : List α) => writeAt a
        (mathRound ((u + (c.1 : α) / (sim.width : α)) * (sim.velocityY.width : α))
          + mathRound ((v + (c.2 : α) / (sim.height : α)) * (sim.velocityY.height : α))
            * sim.velocityY.width) vy)
      cs sim.velocityX.a sim.velocityY.a)

/-- The injection block of `advance` on a non-empty queue. -/
theorem inject_cons (sqrt : α → α) (sim : Simulation α) (first : Interaction α)
    (rest : List (Interaction α)) :
    inject sqrt ⟨sim, first :: rest⟩
      = ⟨impulseCells.foldl (fun t c => impulseBody first.u first.v
            (first.du / (if sqrt (first.du * first.du + first.dv * first.dv) = 0 then 1
              else sqrt (first.du * first.du + first.dv * first.dv)) * 40)
            (first.dv / (if sqrt (first.du * first.du + first.dv * first.dv) = 0 then 1
              else sqrt (first.du * first.du + first.dv * first.dv)) * 40) c.1 c.2 t) sim,
          []⟩ := by
  unfold inject
  simp only []
  rw [forInclusive_nested_eq_foldl]

end injection

/-- C12 fails on the code at the border.  On an 8 x 8 grid of zeros with one queued
interaction at `(u, v) = (0, 1/2)` and `(du, dv) = (1, 0)` (injected value 40 on
`velocityX`), the rounded position is the cell `(0, 4)`.  After the injection block the
cell `(7, 7)`, which is `(0 - 1, 4 + 3)` modulo the extents, still reads 0, and the cell
`(7, 0)`, which lies outside the wrapped neighbourhood (rows 1 to 7), reads 40: `set`
does not wrap, so `(-1, 1)` lands on the flat index 7. -/
theorem impulse_at_border_misses_cells :
    (inject Rat.sqrt (⟨Simulation.seeded 8 8 (List.replicate 64 0) (List.replicate 64 0) 10,
        [⟨0, 1 / 2, 1, 0⟩]⟩ : World ℚ)).simulation.velocityX.get 7 7 = 0 ∧
    (inject Rat.sqrt (⟨Simulation.seeded 8 8 (List.replicate 64 0) (List.replicate 64 0) 10,
        [⟨0, 1 / 2, 1, 0⟩]⟩ : World ℚ)).simulation.velocityX.get 7 0 = 40 ∧
    (Simulation.seeded 8 8 (List.replicate 64 (0 : ℚ)) (List.replicate 64 0) 10).velocityX.get 7 0
      = 0 ∧
    mathRound ((0 : ℚ) * ((8 : Int) : ℚ)) = 0 ∧ mathRound ((1 / 2 : ℚ) * ((8 : Int) : ℚ)) = 4 ∧
    ((0 - 1 : Int) % 8 = 7 ∧ (4 + 3 : Int) % 8 = 7) ∧
    (1 : ℚ) / (if Rat.sqrt (1 * 1 + 0 * 0) = 0 then 1 else Rat.sqrt (1 * 1 + 0 * 0)) * 40 = 40 := by
  have hs1 : Rat.sqrt (1 * 1 + 0 * 0) = 1 := by
    have := Rat.sqrt_eq 1
    simp at this
    simp [this]
  have hval : (1 : ℚ) / (if Rat.sqrt (1 * 1 + 0 * 0) = 0 then 1 else Rat.sqrt (1 * 1 + 0 * 0)) * 40
      = 40 := by
    rw [hs1]; norm_num
  have hr0 : mathRound ((0 : ℚ) * ((8 : Int) : ℚ)) = 0 := by
    unfold mathRound; norm_num
  have hr4 : mathRound ((1 / 2 : ℚ) * ((8 : Int) : ℚ)) = 4 := by
    unfold mathRound; norm_num
  have hsurf : (inject Rat.sqrt (⟨Simulation.seeded 8 8 (List.replicate 64 0)
        (List.replicate 64 0) 10, [⟨0, 1 / 2, 1, 0⟩]⟩ : World ℚ)).simulation.velocityX.a
      = impulseCells.foldl (fun a c => writeAt a ((0 + c.1) + (4 + c.2) * 8) (40 : ℚ))
          (List.replicate 64 0) := by
    rw [inject_cons, foldl_impulseBody]
    apply List.foldl_ext
    intro a c _
    show writeAt a (mathRound (((0 : ℚ) + (c.1 : ℚ) / ((8 : Int) : ℚ)) * ((8 : Int) : ℚ))
        + mathRound (((1 / 2 : ℚ) + (c.2 : ℚ) / ((8 : Int) : ℚ)) * ((8 : Int) : ℚ)) * 8)
        ((1 : ℚ) / (if Rat.sqrt (1 * 1 + 0 * 0) = 0 then 1 else Rat.sqrt (1 * 1 + 0 * 0)) * 40)
      = _
    rw [mathRound_shift _ _ (by decide), mathRound_shift _ _ (by decide), hr0, hr4, hval]
  have hget : ∀ x y : Int, (inject Rat.sqrt (⟨Simulation.seeded 8 8 (List.replicate 64 0)
        (List.replicate 64 0) 10, [⟨0, 1 / 2, 1, 0⟩]⟩ : World ℚ)).simulation.velocityX.get x y
      = (readAt (impulseCells.foldl (fun a c => writeAt a ((0 + c.1) + (4 + c.2) * 8) (40 : ℚ))
          (List.replicate 64 0)) (mod x 8 + mod y 8 * 8)).getD 0 := by
    intro x y
    rw [← hsurf]
    rfl
  refine ⟨?_, ?_, ?_, hr0, hr4, by decide, hval⟩
  · rw [hget, show mod 7 8 + mod 7 8 * 8 = 63 by decide,
      readAt_foldl_writeAt_of_not_mem (fun c : Int × Int => (0 + c.1) + (4 + c.2) * 8)
        (fun _ => (40 : ℚ)) 63 impulseCells _ (by decide)]
    simp [readAt]
  · rw [hget, show mod 7 8 + mod 0 8 * 8 = 7 by decide,
      readAt_foldl_writeAt_of_mem (fun c : Int × Int => (0 + c.1) + (4 + c.2) * 8)
        (fun _ => (40 : ℚ)) 7 40 impulseCells _ (by decide) (by simp)
        ⟨(-1, -3), by decide, by decide⟩ (fun _ _ _ => rfl)]
    rfl
  · simp [Simulation.seeded, Buffer.get, Buffer.get?, Buffer.wrap, readAt, mod_eq_emod]

/-! ## C18, C19: vorticity confinement -/

section confinement

variable [LinearOrderedField α]

/-- The values that the body of `stepVorticity` writes, in terms of the locals
`forceX`, `forceY` and `length`. -/
theorem Simulation.vorticityCell_eq (sqrt : α → α) (config : Config α) (t : Simulation α)
    (i j : Int) :
    Simulation.vorticityCellX sqrt config t i j
        = t.velocityX.get i j
          + t.forceX i j / t.forceLength sqrt i j * (-config.vorticity * t.curl.get i j) * t.dt ∧
    Simulation.vorticityCellY sqrt config t i j
        = t.velocityY.get i j
          + t.forceY i j / t.forceLength sqrt i j * (config.vorticity * t.curl.get i j) * t.dt :=
  ⟨rfl, rfl⟩

/-- The visible velocity after `stepVorticity`, at an in-range cell. -/
theorem Simulation.stepVorticity_get (sqrt : α → α) (config : Config α) (s : Simulation α)
    (hs : s.WF) (i j : Int) (hi0 : 0 ≤ i) (hi : i < s.width) (hj0 : 0 ≤ j) (hj : j < s.height) :
    (s.stepVorticity sqrt config).velocityX.get i j
        = s.velocityX.get i j
          + s.forceX i j / s.forceLength sqrt i j * (-config.vorticity * s.curl.get i j) * s.dt ∧
    (s.stepVorticity sqrt config).velocityY.get i j
        = s.velocityY.get i j
          + s.forceY i j / s.forceLength sqrt i j * (config.vorticity * s.curl.get i j) * s.dt := by
  obtain ⟨-, hX, hY⟩ := Simulation.withVelocity_fill_spec s hs
    (Simulation.vorticityCellX sqrt config s) (Simulation.vorticityCellY sqrt config s)
  rw [Simulation.stepVorticity_eq, hX, hY, Int.emod_eq_of_lt hi0 hi, Int.emod_eq_of_lt hj0 hj]
  exact Simulation.vorticityCell_eq sqrt config s i j

/-- The denominator of the normalisation is positive as soon as the square root is not
negative. -/
theorem Simulation.forceLength_pos (sqrt : α → α) (t : Simulation α) (i j : Int)
    (h : 0 ≤ sqrt (t.forceX i j * t.forceX i j + t.forceY i j * t.forceY i j)) :
    0 < t.forceLength sqrt i j := by
  unfold Simulation.forceLength
  split
  · norm_num
  · next hne => exact lt_of_le_of_ne h (Ne.symm hne)

/-- The normalised force is the zero vector or has squared length 1. -/
theorem Simulation.force_normalised (sqrt : α → α) (t : Simulation α) (i j : Int)
    (h : 0 ≤ sqrt (t.forceX i j * t.forceX i j + t.forceY i j * t.forceY i j) ∧
      sqrt (t.forceX i j * t.forceX i j + t.forceY i j * t.forceY i j)
          * sqrt (t.forceX i j * t.forceX i j + t.forceY i j * t.forceY i j)
        = t.forceX i j * t.forceX i j + t.forceY i j * t.forceY i j) :
    (t.forceX i j / t.forceLength sqrt i j = 0 ∧ t.forceY i j / t.forceLength sqrt i j = 0) ∨
    (t.forceX i j / t.forceLength sqrt i j) ^ 2 + (t.forceY i j / t.forceLength sqrt i j) ^ 2
      = 1 := by
  by_cases h0 : sqrt (t.forceX i j * t.forceX i j + t.forceY i j * t.forceY i j) = 0
  · left
    have hq : t.forceX i j * t.forceX i j + t.forceY i j * t.forceY i j = 0 := by
      rw [← h.2, h0, mul_zero]
    obtain ⟨hx, hy⟩ := (mul_self_add_mul_self_eq_zero).1 hq
    rw [hx, hy, zero_div]
    exact ⟨rfl, rfl⟩
  · right
    have hL : t.forceLength sqrt i j
        = sqrt (t.forceX i j * t.forceX i j + t.forceY i j * t.forceY i j) := by
      unfold Simulation.forceLength
      rw [if_neg h0]
    rw [hL, div_pow, div_pow, ← add_div, pow_two, pow_two, pow_two, h.2]
    have hq : t.forceX i j * t.forceX i j + t.forceY i j * t.forceY i j ≠ 0 := by
      rw [← h.2]
      exact mul_ne_zero h0 h0
    exact div_self hq

end confinement

/-! The concrete field of the scenarios: the 1 x 3 grid with `velocityX = [2, 0, 0]`,
`dt = 1`, whose curl is `[0, 1, -1]`. -/

theorem sqrt_one_zero : Rat.sqrt 1 = 1 ∧ Rat.sqrt 0 = 0 := by
  have h1 := Rat.sqrt_eq 1
  have h0 := Rat.sqrt_eq 0
  rw [mul_one, abs_one] at h1
  rw [mul_zero, abs_zero] at h0
  exact ⟨h1, h0⟩

theorem shear_wf : (({ Simulation.seeded 1 3 [2, 0, 0] [0, 0, 0] 10 with dt := 1 } : Simulation ℚ).stepCurl).WF := by
  obtain ⟨C, hC, hwf, -⟩ := Simulation.stepCurl_spec ({ Simulation.seeded 1 3 [2, 0, 0] [0, 0, 0] 10 with dt := 1 } : Simulation ℚ)
    (by simp [Simulation.WF, DoubleBuffer.WF, Buffer.WF, Simulation.seeded])
  rw [hC]
  exact hwf

theorem shear_curl (x y : Int) :
    (({ Simulation.seeded 1 3 [2, 0, 0] [0, 0, 0] 10 with dt := 1 } : Simulation ℚ).stepCurl).curl.get x y
      = 1 / 2 * (({ Simulation.seeded 1 3 [2, 0, 0] [0, 0, 0] 10 with dt := 1 } : Simulation ℚ).velocityX.get x (y - 1) - ({ Simulation.seeded 1 3 [2, 0, 0] [0, 0, 0] 10 with dt := 1 } : Simulation ℚ).velocityX.get x (y + 1)) := by
  rw [Simulation.stepCurl_get _
    (by simp [Simulation.WF, DoubleBuffer.WF, Buffer.WF, Simulation.seeded])]
  have e : ∀ a b : Int, ({ Simulation.seeded 1 3 [2, 0, 0] [0, 0, 0] 10 with dt := 1 } : Simulation ℚ).velocityY.get a b = 0 := by
    intro a b
    exact get_replicate (by decide) (by decide) 3 (by decide) 0 a b
  rw [e, e]
  ring

theorem shear_values :
    (({ Simulation.seeded 1 3 [2, 0, 0] [0, 0, 0] 10 with dt := 1 } : Simulation ℚ).stepCurl).curl.get 0 1 = 1 ∧
    (({ Simulation.seeded 1 3 [2, 0, 0] [0, 0, 0] 10 with dt := 1 } : Simulation ℚ).stepCurl).curl.get 0 (1 - 1) = 0 ∧
    (({ Simulation.seeded 1 3 [2, 0, 0] [0, 0, 0] 10 with dt := 1 } : Simulation ℚ).stepCurl).curl.get 0 (1 + 1) = -1 ∧
    (({ Simulation.seeded 1 3 [2, 0, 0] [0, 0, 0] 10 with dt := 1 } : Simulation ℚ).stepCurl).curl.get (0 + 1) 1 = 1 ∧
    (({ Simulation.seeded 1 3 [2, 0, 0] [0, 0, 0] 10 with dt := 1 } : Simulation ℚ).stepCurl).curl.get (0 - 1) 1 = 1 ∧
    (({ Simulation.seeded 1 3 [2, 0, 0] [0, 0, 0] 10 with dt := 1 } : Simulation ℚ).stepCurl).velocityX.get 0 1 = 0 ∧
    (({ Simulation.seeded 1 3 [2, 0, 0] [0, 0, 0] 10 with dt := 1 } : Simulation ℚ).stepCurl).velocityY.get 0 1 = 0 ∧
    (({ Simulation.seeded 1 3 [2, 0, 0] [0, 0, 0] 10 with dt := 1 } : Simulation ℚ).stepCurl).dt = 1 ∧
    (({ Simulation.seeded 1 3 [2, 0, 0] [0, 0, 0] 10 with dt := 1 } : Simulation ℚ).stepCurl).width = 1 ∧
    (({ Simulation.seeded 1 3 [2, 0, 0] [0, 0, 0] 10 with dt := 1 } : Simulation ℚ).stepCurl).height = 3 := by
  have hc := shear_curl
  refine ⟨?_, ?_, ?_, ?_, ?_, ?_, ?_, ?_, ?_, ?_⟩
  · rw [hc]
    simp [Simulation.seeded, Buffer.get, Buffer.get?, Buffer.wrap, readAt, mod_eq_emod]
  · rw [hc]
    simp [Simulation.seeded, Buffer.get, Buffer.get?, Buffer.wrap, readAt, mod_eq_emod]
  · rw [hc]
    simp [Simulation.seeded, Buffer.get, Buffer.get?, Buffer.wrap, readAt, mod_eq_emod]
  · rw [hc]
    simp [Simulation.seeded, Buffer.get, Buffer.get?, Buffer.wrap, readAt, mod_eq_emod]
  · rw [hc]
    simp [Simulation.seeded, Buffer.get, Buffer.get?, Buffer.wrap, readAt, mod_eq_emod]
  · rw [Simulation.stepCurl_eq]
    simp [Simulation.seeded, Buffer.get, Buffer.get?, Buffer.wrap, readAt, mod_eq_emod]
  · rw [Simulation.stepCurl_eq]
    simp [Simulation.seeded, Buffer.get, Buffer.get?, Buffer.wrap, readAt, mod_eq_emod]
  · rw [Simulation.stepCurl_eq]
  · rw [Simulation.stepCurl_eq]
    rfl
  · rw [Simulation.stepCurl_eq]
    rfl

theorem shear_force :
    (({ Simulation.seeded 1 3 [2, 0, 0] [0, 0, 0] 10 with dt := 1 } : Simulation ℚ).stepCurl).forceX 0 1 = 1 ∧
    (({ Simulation.seeded 1 3 [2, 0, 0] [0, 0, 0] 10 with dt := 1 } : Simulation ℚ).stepCurl).forceY 0 1 = 0 ∧
    (({ Simulation.seeded 1 3 [2, 0, 0] [0, 0, 0] 10 with dt := 1 } : Simulation ℚ).stepCurl).forceLength Rat.sqrt 0 1 = 1 := by
  obtain ⟨-, c00, c02, ce, cw, -⟩ := shear_values
  have fx : (({ Simulation.seeded 1 3 [2, 0, 0] [0, 0, 0] 10 with dt := 1 } : Simulation ℚ).stepCurl).forceX 0 1 = 1 := by
    unfold Simulation.forceX
    simp only [c00, c02]
    norm_num
  have fy : (({ Simulation.seeded 1 3 [2, 0, 0] [0, 0, 0] 10 with dt := 1 } : Simulation ℚ).stepCurl).forceY 0 1 = 0 := by
    unfold Simulation.forceY
    simp only [ce, cw]
    norm_num
  refine ⟨fx, fy, ?_⟩
  unfold Simulation.forceLength
  rw [fx, fy]
  norm_num [sqrt_one_zero.1]

/-- C18, counterexample.  On the 1 x 3 grid with `velocityX = [2, 0, 0]`, `dt = 1` and
vorticity factor 1, `stepCurl` gives the curl `[0, 1, -1]`; at the cell `(0, 1)` the
gradient of `|curl|` is `(0, 1)`.  `stepVorticity` changes `velocityX` by `-1` and leaves
`velocityY`, while the formula of the claim leaves `velocityX` and changes `velocityY`
by `+1`: the code pairs the y difference with `velocityX` and the x difference with
`velocityY`. -/
theorem confinement_pairs_crossed_axes :
    ((({ Simulation.seeded 1 3 [2, 0, 0] [0, 0, 0] 10 with dt := 1 } : Simulation ℚ).stepCurl).stepVorticity Rat.sqrt ⟨0, 1⟩).velocityX.get 0 1 = -1 ∧
    Simulation.confinementSpecX Rat.sqrt ⟨0, 1⟩ (({ Simulation.seeded 1 3 [2, 0, 0] [0, 0, 0] 10 with dt := 1 } : Simulation ℚ).stepCurl) 0 1 = 0 ∧
    ((({ Simulation.seeded 1 3 [2, 0, 0] [0, 0, 0] 10 with dt := 1 } : Simulation ℚ).stepCurl).stepVorticity Rat.sqrt ⟨0, 1⟩).velocityY.get 0 1 = 0 ∧
    Simulation.confinementSpecY Rat.sqrt ⟨0, 1⟩ (({ Simulation.seeded 1 3 [2, 0, 0] [0, 0, 0] 10 with dt := 1 } : Simulation ℚ).stepCurl) 0 1 = 1 := by
  obtain ⟨c01, c00, c02, ce, cw, vx, vy, hdt, hw, hh⟩ := shear_values
  obtain ⟨fx, fy, fl⟩ := shear_force
  obtain ⟨hX, hY⟩ := Simulation.stepVorticity_get Rat.sqrt ⟨0, 1⟩ _ shear_wf 0 1
    (by decide) (by rw [hw]; decide) (by decide) (by rw [hh]; decide)
  refine ⟨?_, ?_, ?_, ?_⟩
  · rw [hX, c01, vx, fx, fl, hdt]
    norm_num
  · unfold Simulation.confinementSpecX
    simp only [c01, c00, c02, ce, cw, vx, hdt]
    norm_num [sqrt_one_zero.1]
  · rw [hY, c01, vy, fy, fl, hdt]
    norm_num
  · unfold Simulation.confinementSpecY
    simp only [c01, c00, c02, ce, cw, vy, hdt]
    norm_num [sqrt_one_zero.1]

/-- C18, amended (vorticity confinement formula).  For a well-formed 2D simulation,
every vorticity factor `f = config.vorticity`, every `dt` and every in-range cell
`(i, j)`, after `stepVorticity` the visible velocity is the old velocity plus
`dt * (-f * c * forceX / length, +f * c * forceY / length)`, where `c = curl(i, j)`,
`forceX = |curl(i, j+1)| - |curl(i, j-1)|` is the difference along y,
`forceY = |curl(i+1, j)| - |curl(i-1, j)|` is the difference along x, and `length` is
`sqrt(forceX^2 + forceY^2)`, replaced by `0.0001` when it is 0. -/
theorem vorticity_confinement_formula [LinearOrderedField α] (sqrt : α → α)
    (config : Config α) (s : Simulation α) (hs : s.WF) (i j : Int)
    (hi0 : 0 ≤ i) (hi : i < s.width) (hj0 : 0 ≤ j) (hj : j < s.height) :
    (s.stepVorticity sqrt config).velocityX.get i j
        = s.velocityX.get i j
          + s.dt * (-config.vorticity * s.curl.get i j
              * (s.forceX i j / s.forceLength sqrt i j)) ∧
    (s.stepVorticity sqrt config).velocityY.get i j
        = s.velocityY.get i j
          + s.dt * (config.vorticity * s.curl.get i j
              * (s.forceY i j / s.forceLength sqrt i j)) ∧
    s.forceX i j = |s.curl.get i (j + 1)| - |s.curl.get i (j - 1)| ∧
    s.forceY i j = |s.curl.get (i + 1) j| - |s.curl.get (i - 1) j| ∧
    s.forceLength sqrt i j
      = (if sqrt (s.forceX i j * s.forceX i j + s.forceY i j * s.forceY i j) = 0
          then 1 / 10000
          else sqrt (s.forceX i j * s.forceX i j + s.forceY i j * s.forceY i j)) := by
  obtain ⟨hX, hY⟩ := Simulation.stepVorticity_get sqrt config s hs i j hi0 hi hj0 hj
  refine ⟨?_, ?_, rfl, rfl, rfl⟩
  · rw [hX]
    ring
  · rw [hY]
    ring

/-- C18, amended, at the cell `(0, 1)` of the 1 x 3 grid with `velocityX = [2, 0, 0]`,
`dt = 1` and vorticity factor 1. -/
theorem vorticity_confinement_formula_witness :
    ((({ Simulation.seeded 1 3 [2, 0, 0] [0, 0, 0] 10 with dt := 1 } : Simulation ℚ).stepCurl).WF ∧ (0 : Int) ≤ 0 ∧ (0 : Int) < (({ Simulation.seeded 1 3 [2, 0, 0] [0, 0, 0] 10 with dt := 1 } : Simulation ℚ).stepCurl).width ∧ (0 : Int) ≤ 1 ∧
      (1 : Int) < (({ Simulation.seeded 1 3 [2, 0, 0] [0, 0, 0] 10 with dt := 1 } : Simulation ℚ).stepCurl).height) ∧
    ((({ Simulation.seeded 1 3 [2, 0, 0] [0, 0, 0] 10 with dt := 1 } : Simulation ℚ).stepCurl).stepVorticity Rat.sqrt ⟨0, 1⟩).velocityX.get 0 1
        = (({ Simulation.seeded 1 3 [2, 0, 0] [0, 0, 0] 10 with dt := 1 } : Simulation ℚ).stepCurl).velocityX.get 0 1
          + (({ Simulation.seeded 1 3 [2, 0, 0] [0, 0, 0] 10 with dt := 1 } : Simulation ℚ).stepCurl).dt * (-(⟨0, 1⟩ : Config ℚ).vorticity * (({ Simulation.seeded 1 3 [2, 0, 0] [0, 0, 0] 10 with dt := 1 } : Simulation ℚ).stepCurl).curl.get 0 1
              * ((({ Simulation.seeded 1 3 [2, 0, 0] [0, 0, 0] 10 with dt := 1 } : Simulation ℚ).stepCurl).forceX 0 1 / (({ Simulation.seeded 1 3 [2, 0, 0] [0, 0, 0] 10 with dt := 1 } : Simulation ℚ).stepCurl).forceLength Rat.sqrt 0 1)) ∧
    ((({ Simulation.seeded 1 3 [2, 0, 0] [0, 0, 0] 10 with dt := 1 } : Simulation ℚ).stepCurl).stepVorticity Rat.sqrt ⟨0, 1⟩).velocityX.get 0 1 = -1 :=
  ⟨⟨shear_wf, by decide, by rw [shear_values.2.2.2.2.2.2.2.2.1]; decide, by decide,
      by rw [shear_values.2.2.2.2.2.2.2.2.2]; decide⟩,
   (vorticity_confinement_formula Rat.sqrt ⟨0, 1⟩ ({ Simulation.seeded 1 3 [2, 0, 0] [0, 0, 0] 10 with dt := 1 } : Simulation ℚ).stepCurl shear_wf 0 1 (by decide)
      (by rw [shear_values.2.2.2.2.2.2.2.2.1]; decide) (by decide)
      (by rw [shear_values.2.2.2.2.2.2.2.2.2]; decide)).1,
   by
    rw [(vorticity_confinement_formula Rat.sqrt ⟨0, 1⟩ ({ Simulation.seeded 1 3 [2, 0, 0] [0, 0, 0] 10 with dt := 1 } : Simulation ℚ).stepCurl shear_wf 0 1 (by decide)
      (by rw [shear_values.2.2.2.2.2.2.2.2.1]; decide) (by decide)
      (by rw [shear_values.2.2.2.2.2.2.2.2.2]; decide)).1, shear_values.1,
      shear_values.2.2.2.2.2.1, shear_values.2.2.2.2.2.2.2.1, shear_force.1, shear_force.2.2]
    norm_num⟩

/-- C19, amended to exact arithmetic (vorticity normalisation is guarded).  Over exact
arithmetic, take a well-formed 2D simulation, an in-range cell `(i, j)` and a square root
that is exact and not negative at
`q = forceX^2 + forceY^2` of that cell.  Then the denominator `length` used by
`stepVorticity` is strictly positive; the normalised force `(forceX, forceY) / length`
is the zero vector or has squared length 1; the squared length of the velocity change of
the cell is at most `(curlFactor * curl(i, j) * dt)^2`; and with curl factor 0 the
velocity of the cell does not change. -/
theorem vorticity_normalisation_guarded [LinearOrderedField α] (sqrt : α → α)
    (config : Config α) (s : Simulation α) (hs : s.WF) (i j : Int)
    (hi0 : 0 ≤ i) (hi : i < s.width) (hj0 : 0 ≤ j) (hj : j < s.height)
    (hsqrt : 0 ≤ sqrt (s.forceX i j * s.forceX i j + s.forceY i j * s.forceY i j) ∧
      sqrt (s.forceX i j * s.forceX i j + s.forceY i j * s.forceY i j)
          * sqrt (s.forceX i j * s.forceX i j + s.forceY i j * s.forceY i j)
        = s.forceX i j * s.forceX i j + s.forceY i j * s.forceY i j) :
    0 < s.forceLength sqrt i j ∧
    ((s.forceX i j / s.forceLength sqrt i j = 0 ∧ s.forceY i j / s.forceLength sqrt i j = 0) ∨
      (s.forceX i j / s.forceLength sqrt i j) ^ 2
        + (s.forceY i j / s.forceLength sqrt i j) ^ 2 = 1) ∧
    ((s.stepVorticity sqrt config).velocityX.get i j - s.velocityX.get i j) ^ 2
        + ((s.stepVorticity sqrt config).velocityY.get i j - s.velocityY.get i j) ^ 2
      ≤ (config.vorticity * s.curl.get i j * s.dt) ^ 2 ∧
    (s.stepVorticity sqrt ⟨config.pressure, 0⟩).velocityX.get i j = s.velocityX.get i j ∧
    (s.stepVorticity sqrt ⟨config.pressure, 0⟩).velocityY.get i j = s.velocityY.get i j := by
  obtain ⟨hX, hY⟩ := Simulation.stepVorticity_get sqrt config s hs i j hi0 hi hj0 hj
  obtain ⟨hX0, hY0⟩ :=
    Simulation.stepVorticity_get sqrt ⟨config.pressure, 0⟩ s hs i j hi0 hi hj0 hj
  have hn := Simulation.force_normalised sqrt s i j hsqrt
  refine ⟨Simulation.forceLength_pos sqrt s i j hsqrt.1, hn, ?_, ?_, ?_⟩
  · rw [hX, hY]
    have e : (s.velocityX.get i j
          + s.forceX i j / s.forceLength sqrt i j * (-config.vorticity * s.curl.get i j) * s.dt
          - s.velocityX.get i j) ^ 2
        + (s.velocityY.get i j
          + s.forceY i j / s.forceLength sqrt i j * (config.vorticity * s.curl.get i j) * s.dt
          - s.velocityY.get i j) ^ 2
        = (config.vorticity * s.curl.get i j * s.dt) ^ 2
          * ((s.forceX i j / s.forceLength sqrt i j) ^ 2
            + (s.forceY i j / s.forceLength sqrt i j) ^ 2) := by
      ring
    rw [e]
    rcases hn with ⟨h1, h2⟩ | h1
    · rw [h1, h2]
      simp only [ne_eq, OfNat.ofNat_ne_zero, not_false_eq_true, zero_pow, add_zero, mul_zero]
      exact sq_nonneg _
    · rw [h1, mul_one]
  · rw [hX0]
    simp
  · rw [hY0]
    simp

/-- C19, at the cell `(0, 1)` of the 1 x 3 grid with `velocityX = [2, 0, 0]`, `dt = 1`
and vorticity factor 1, where `forceX = 1`, `forceY = 0` and the square root of 1 is 1. -/
theorem vorticity_normalisation_guarded_witness :
    ((({ Simulation.seeded 1 3 [2, 0, 0] [0, 0, 0] 10 with dt := 1 } : Simulation ℚ).stepCurl).WF ∧ (0 : Int) ≤ 0 ∧ (0 : Int) < (({ Simulation.seeded 1 3 [2, 0, 0] [0, 0, 0] 10 with dt := 1 } : Simulation ℚ).stepCurl).width ∧ (0 : Int) ≤ 1 ∧
      (1 : Int) < (({ Simulation.seeded 1 3 [2, 0, 0] [0, 0, 0] 10 with dt := 1 } : Simulation ℚ).stepCurl).height ∧
      (0 ≤ Rat.sqrt ((({ Simulation.seeded 1 3 [2, 0, 0] [0, 0, 0] 10 with dt := 1 } : Simulation ℚ).stepCurl).forceX 0 1 * (({ Simulation.seeded 1 3 [2, 0, 0] [0, 0, 0] 10 with dt := 1 } : Simulation ℚ).stepCurl).forceX 0 1
            + (({ Simulation.seeded 1 3 [2, 0, 0] [0, 0, 0] 10 with dt := 1 } : Simulation ℚ).stepCurl).forceY 0 1 * (({ Simulation.seeded 1 3 [2, 0, 0] [0, 0, 0] 10 with dt := 1 } : Simulation ℚ).stepCurl).forceY 0 1) ∧
        Rat.sqrt ((({ Simulation.seeded 1 3 [2, 0, 0] [0, 0, 0] 10 with dt := 1 } : Simulation ℚ).stepCurl).forceX 0 1 * (({ Simulation.seeded 1 3 [2, 0, 0] [0, 0, 0] 10 with dt := 1 } : Simulation ℚ).stepCurl).forceX 0 1
            + (({ Simulation.seeded 1 3 [2, 0, 0] [0, 0, 0] 10 with dt := 1 } : Simulation ℚ).stepCurl).forceY 0 1 * (({ Simulation.seeded 1 3 [2, 0, 0] [0, 0, 0] 10 with dt := 1 } : Simulation ℚ).stepCurl).forceY 0 1)
          * Rat.sqrt ((({ Simulation.seeded 1 3 [2, 0, 0] [0, 0, 0] 10 with dt := 1 } : Simulation ℚ).stepCurl).forceX 0 1 * (({ Simulation.seeded 1 3 [2, 0, 0] [0, 0, 0] 10 with dt := 1 } : Simulation ℚ).stepCurl).forceX 0 1
            + (({ Simulation.seeded 1 3 [2, 0, 0] [0, 0, 0] 10 with dt := 1 } : Simulation ℚ).stepCurl).forceY 0 1 * (({ Simulation.seeded 1 3 [2, 0, 0] [0, 0, 0] 10 with dt := 1 } : Simulation ℚ).stepCurl).forceY 0 1)
          = (({ Simulation.seeded 1 3 [2, 0, 0] [0, 0, 0] 10 with dt := 1 } : Simulation ℚ).stepCurl).forceX 0 1 * (({ Simulation.seeded 1 3 [2, 0, 0] [0, 0, 0] 10 with dt := 1 } : Simulation ℚ).stepCurl).forceX 0 1
            + (({ Simulation.seeded 1 3 [2, 0, 0] [0, 0, 0] 10 with dt := 1 } : Simulation ℚ).stepCurl).forceY 0 1 * (({ Simulation.seeded 1 3 [2, 0, 0] [0, 0, 0] 10 with dt := 1 } : Simulation ℚ).stepCurl).forceY 0 1)) ∧
    0 < (({ Simulation.seeded 1 3 [2, 0, 0] [0, 0, 0] 10 with dt := 1 } : Simulation ℚ).stepCurl).forceLength Rat.sqrt 0 1 ∧
    (((({ Simulation.seeded 1 3 [2, 0, 0] [0, 0, 0] 10 with dt := 1 } : Simulation ℚ).stepCurl).stepVorticity Rat.sqrt ⟨0, 1⟩).velocityX.get 0 1
          - (({ Simulation.seeded 1 3 [2, 0, 0] [0, 0, 0] 10 with dt := 1 } : Simulation ℚ).stepCurl).velocityX.get 0 1) ^ 2
        + (((({ Simulation.seeded 1 3 [2, 0, 0] [0, 0, 0] 10 with dt := 1 } : Simulation ℚ).stepCurl).stepVorticity Rat.sqrt ⟨0, 1⟩).velocityY.get 0 1
          - (({ Simulation.seeded 1 3 [2, 0, 0] [0, 0, 0] 10 with dt := 1 } : Simulation ℚ).stepCurl).velocityY.get 0 1) ^ 2
      ≤ ((⟨0, 1⟩ : Config ℚ).vorticity * (({ Simulation.seeded 1 3 [2, 0, 0] [0, 0, 0] 10 with dt := 1 } : Simulation ℚ).stepCurl).curl.get 0 1 * (({ Simulation.seeded 1 3 [2, 0, 0] [0, 0, 0] 10 with dt := 1 } : Simulation ℚ).stepCurl).dt) ^ 2 :=
  have hq : 0 ≤ Rat.sqrt ((({ Simulation.seeded 1 3 [2, 0, 0] [0, 0, 0] 10 with dt := 1 } : Simulation ℚ).stepCurl).forceX 0 1 * (({ Simulation.seeded 1 3 [2, 0, 0] [0, 0, 0] 10 with dt := 1 } : Simulation ℚ).stepCurl).forceX 0 1
            + (({ Simulation.seeded 1 3 [2, 0, 0] [0, 0, 0] 10 with dt := 1 } : Simulation ℚ).stepCurl).forceY 0 1 * (({ Simulation.seeded 1 3 [2, 0, 0] [0, 0, 0] 10 with dt := 1 } : Simulation ℚ).stepCurl).forceY 0 1) ∧
        Rat.sqrt ((({ Simulation.seeded 1 3 [2, 0, 0] [0, 0, 0] 10 with dt := 1 } : Simulation ℚ).stepCurl).forceX 0 1 * (({ Simulation.seeded 1 3 [2, 0, 0] [0, 0, 0] 10 with dt := 1 } : Simulation ℚ).stepCurl).forceX 0 1
            + (({ Simulation.seeded 1 3 [2, 0, 0] [0, 0, 0] 10 with dt := 1 } : Simulation ℚ).stepCurl).forceY 0 1 * (({ Simulation.seeded 1 3 [2, 0, 0] [0, 0, 0] 10 with dt := 1 } : Simulation ℚ).stepCurl).forceY 0 1)
          * Rat.sqrt ((({ Simulation.seeded 1 3 [2, 0, 0] [0, 0, 0] 10 with dt := 1 } : Simulation ℚ).stepCurl).forceX 0 1 * (({ Simulation.seeded 1 3 [2, 0, 0] [0, 0, 0] 10 with dt := 1 } : Simulation ℚ).stepCurl).forceX 0 1
            + (({ Simulation.seeded 1 3 [2, 0, 0] [0, 0, 0] 10 with dt := 1 } : Simulation ℚ).stepCurl).forceY 0 1 * (({ Simulation.seeded 1 3 [2, 0, 0] [0, 0, 0] 10 with dt := 1 } : Simulation ℚ).stepCurl).forceY 0 1)
          = (({ Simulation.seeded 1 3 [2, 0, 0] [0, 0, 0] 10 with dt := 1 } : Simulation ℚ).stepCurl).forceX 0 1 * (({ Simulation.seeded 1 3 [2, 0, 0] [0, 0, 0] 10 with dt := 1 } : Simulation ℚ).stepCurl).forceX 0 1
            + (({ Simulation.seeded 1 3 [2, 0, 0] [0, 0, 0] 10 with dt := 1 } : Simulation ℚ).stepCurl).forceY 0 1 * (({ Simulation.seeded 1 3 [2, 0, 0] [0, 0, 0] 10 with dt := 1 } : Simulation ℚ).stepCurl).forceY 0 1 := by
    rw [shear_force.1, shear_force.2.1]
    norm_num [sqrt_one_zero.1]
  have hw : (0 : Int) < (({ Simulation.seeded 1 3 [2, 0, 0] [0, 0, 0] 10 with dt := 1 } : Simulation ℚ).stepCurl).width := by
    rw [shear_values.2.2.2.2.2.2.2.2.1]; decide
  have hh : (1 : Int) < (({ Simulation.seeded 1 3 [2, 0, 0] [0, 0, 0] 10 with dt := 1 } : Simulation ℚ).stepCurl).height := by
    rw [shear_values.2.2.2.2.2.2.2.2.2]; decide
  ⟨⟨shear_wf, by decide, hw, by decide, hh, hq⟩,
   (vorticity_normalisation_guarded Rat.sqrt ⟨0, 1⟩ ({ Simulation.seeded 1 3 [2, 0, 0] [0, 0, 0] 10 with dt := 1 } : Simulation ℚ).stepCurl shear_wf 0 1 (by decide) hw
      (by decide) hh hq).1,
   (vorticity_normalisation_guarded Rat.sqrt ⟨0, 1⟩ ({ Simulation.seeded 1 3 [2, 0, 0] [0, 0, 0] 10 with dt := 1 } : Simulation ℚ).stepCurl shear_wf 0 1 (by decide) hw
      (by decide) hh hq).2.2.1⟩

/-! ## C26: `swap` -/

/-- C26 (`swap` is an involution that exchanges the surfaces).  For every `DoubleBuffer`
(2D and 3D), after one `swap` the visible surface is the former next surface and the next
surface is the former visible one, contents and extents untouched; after two consecutive
swaps the object is exactly as before, so every `get` and the target of every later
`out` are as before. -/
theorem swap_involution [LinearOrderedField α] (d : DoubleBuffer α)
    (e : Fluids3.DoubleBuffer α) :
    (d.swap.a = d.b ∧ d.swap.b = d.a ∧ d.swap.width = d.width ∧ d.swap.height = d.height) ∧
    d.swap.swap = d ∧
    (∀ x y : Int, d.swap.swap.get x y = d.get x y) ∧
    (∀ (x y : Int) (v : α), d.swap.swap.out x y v = d.out x y v) ∧
    (e.swap.a = e.b ∧ e.swap.b = e.a ∧ e.swap.width = e.width ∧ e.swap.height = e.height
      ∧ e.swap.depth = e.depth) ∧
    e.swap.swap = e ∧
    (∀ x y z : Int, e.swap.swap.get x y z = e.get x y z) ∧
    (∀ (x y z : Int) (v : α), e.swap.swap.out x y z v = e.out x y z v) :=
  ⟨⟨rfl, rfl, rfl, rfl⟩, rfl, fun _ _ => rfl, fun _ _ _ => rfl,
    ⟨rfl, rfl, rfl, rfl, rfl⟩, rfl, fun _ _ _ => rfl, fun _ _ _ _ => rfl⟩

/-! ## C27: one impulse per tick -/

/-- C27 (single impulse per tick).  With a non-empty queue, the injection block of
`advance` gives the same simulation whatever follows the first interaction in the queue,
and leaves the queue empty; with an empty queue it changes nothing, so `advance` is
`step(0.1)` on the simulation as it was. -/
theorem advance_uses_first_interaction [LinearOrderedField α] [FloorRing α] (sqrt : α → α)
    (config : Config α) (sim : Simulation α) (first : Interaction α)
    (rest : List (Interaction α)) :
    inject sqrt ⟨sim, first :: rest⟩ = inject sqrt ⟨sim, [first]⟩ ∧
    (inject sqrt ⟨sim, first :: rest⟩).interactions = [] ∧
    advance sqrt config ⟨sim, first :: rest⟩ = advance sqrt config ⟨sim, [first]⟩ ∧
    (advance sqrt config ⟨sim, first :: rest⟩).interactions = [] ∧
    inject sqrt ⟨sim, []⟩ = ⟨sim, []⟩ ∧
    advance sqrt config ⟨sim, []⟩ = ⟨sim.step sqrt config (1 / 10), []⟩ :=
  ⟨rfl, rfl, rfl, rfl, rfl, rfl⟩

/-! ## C21: the two surfaces after the pressure solve -/

/-- C21 (surface accounting of the pressure solve).  With `J` the Jacobi update of the
divergence grid, for a well-formed 2D simulation, every baseline `config.pressure` and
`N = iterations ≥ 1`, after `stepPressure` the visible surface read through `get` is `J`
applied `N - 1` times to the uniform baseline, and the hidden surface (read through
`get` after a `swap`) is `J` applied `N` times. -/
theorem pressure_surface_accounting [LinearOrderedField α] (config : Config α)
    (s : Simulation α) (hs : s.WF) (hN : 1 ≤ s.iterations) :
    (∀ x y : Int, (s.stepPressure config).pressure.get x y
      = (jacobi s.divergence.get)^[s.iterations - 1] (fun _ _ => config.pressure) x y) ∧
    (∀ x y : Int, (s.stepPressure config).pressure.swap.get x y
      = (jacobi s.divergence.get)^[s.iterations] (fun _ _ => config.pressure) x y) := by
  obtain ⟨P, hP, -, hvis, hhid⟩ := Simulation.stepPressure_spec config s hs
  rw [hP]
  refine ⟨fun x y => ?_, fun x y => ?_⟩
  · exact congrFun (congrFun (hvis hN) x) y
  · exact congrFun (congrFun hhid x) y

/-- C21, on the 3 x 1 grid with divergence `[0, 4, 0]`, baseline 1 and two passes: the
visible surface reads `J(1)(1, 0) = (1 + 1 + 1 + 1 - 4) / 4 = 0`. -/
theorem pressure_surface_accounting_witness :
    (({ Simulation.seeded 3 1 [0, 0, 0] [0, 0, 0] 2 with
          divergence := ⟨3, 1, [0, 4, 0]⟩ } : Simulation ℚ).WF ∧
      1 ≤ ({ Simulation.seeded 3 1 [0, 0, 0] [0, 0, 0] 2 with
          divergence := ⟨3, 1, [0, 4, 0]⟩ } : Simulation ℚ).iterations) ∧
    (({ Simulation.seeded 3 1 [0, 0, 0] [0, 0, 0] 2 with
          divergence := ⟨3, 1, [0, 4, 0]⟩ } : Simulation ℚ).stepPressure ⟨1, 0⟩).pressure.get 1 0
      = 0 :=
  ⟨⟨by simp [Simulation.WF, DoubleBuffer.WF, Buffer.WF, Simulation.seeded], by decide⟩,
   by
    rw [(pressure_surface_accounting ⟨1, 0⟩
      ({ Simulation.seeded 3 1 [0, 0, 0] [0, 0, 0] 2 with
          divergence := ⟨3, 1, [0, 4, 0]⟩ } : Simulation ℚ)
      (by simp [Simulation.WF, DoubleBuffer.WF, Buffer.WF, Simulation.seeded])
      (by decide)).1 1 0]
    simp [Simulation.seeded, jacobi, Buffer.get, Buffer.get?, Buffer.wrap, readAt, mod_eq_emod]
    norm_num⟩

/-! ## C22, C24: `sample` on grid points and the advection stage -/

section advection

variable [LinearOrderedField α] [FloorRing α]

/-- On a grid point `sample` reads the cell itself. -/
theorem Buffer.sample_grid (b : Buffer α) (hw : 0 < b.width) (hh : 0 < b.height) (i j : Int) :
    b.sample ((i : α) / (b.width : α)) ((j : α) / (b.height : α)) = b.get i j := by
  have hw' : (b.width : α) ≠ 0 := by
    have : (0 : α) < (b.width : α) := by exact_mod_cast hw
    exact ne_of_gt this
  have hh' : (b.height : α) ≠ 0 := by
    have : (0 : α) < (b.height : α) := by exact_mod_cast hh
    exact ne_of_gt this
  unfold Buffer.sample
  simp only [div_mul_cancel₀ _ hw', div_mul_cancel₀ _ hh', Int.floor_intCast, sub_self]
  unfold lerp
  ring

/-- The visible velocity after `stepAdvection`, at every coordinate. -/
theorem Simulation.stepAdvection_get (s : Simulation α) (hs : s.WF) (x y : Int) :
    s.stepAdvection.velocityX.get x y
        = s.velocityX.sample
            ((((x % s.width : Int) : α) - s.velocityX.get x y * s.dt) / (s.width : α))
            ((((y % s.height : Int) : α) - s.velocityY.get x y * s.dt) / (s.height : α))
          * (99 / 100) ∧
    s.stepAdvection.velocityY.get x y
        = s.velocityY.sample
            ((((x % s.width : Int) : α) - s.velocityX.get x y * s.dt) / (s.width : α))
            ((((y % s.height : Int) : α) - s.velocityY.get x y * s.dt) / (s.height : α))
          * (99 / 100) := by
  obtain ⟨-, hX, hY⟩ :=
    Simulation.withVelocity_fill_spec s hs s.advectionCellX s.advectionCellY
  rw [Simulation.stepAdvection_eq, hX, hY]
  obtain ⟨⟨⟨⟨hxw, hxh, _⟩, _⟩, hx1, hx2⟩, ⟨⟨⟨hyw, hyh, _⟩, _⟩, hy1, hy2⟩, _⟩ := hs
  have e1 := Buffer.get_emod s.velocityX.toBuffer hxw hxh x y
  have e2 := Buffer.get_emod s.velocityY.toBuffer hyw hyh x y
  rw [hx1, hx2] at e1
  rw [hy1, hy2] at e2
  unfold Simulation.advectionCellX Simulation.advectionCellY
  simp only [e1, e2, and_self]

end advection

/-- Every cell is at most the maximum of the grid. -/
theorem le_foldr_max [LinearOrderedField α] (l : List α) (a : α) (h : a ∈ l) : a ≤ l.foldr max 0 := by
  induction l with
  | nil => cases h
  | cons b l ih =>
    rcases List.mem_cons.mp h with rfl | h
    · exact le_max_left _ _
    · exact le_trans (ih h) (le_max_right _ _)

theorem Buffer.abs_get_le_maxAbs [LinearOrderedField α] (b : Buffer α) (hw : 0 < b.width) (hh : 0 < b.height)
    (x y : Int) : |b.get x y| ≤ b.maxAbs := by
  refine get_abs_le_of_inRange b hw hh _ (fun i j hi0 hi hj0 hj => ?_) x y
  unfold Buffer.maxAbs
  refine le_foldr_max _ _ (List.mem_map.mpr ⟨(i, j), ?_, rfl⟩)
  exact mem_cells.mpr ⟨⟨hi0, hi⟩, hj0, hj⟩

/-- C22 (`sample` agrees with `get` on grid points).  For every `Buffer` with positive
extents and all integers `i`, `j`, over exact arithmetic,
`sample(i / width, j / height) = get(i, j)`; so for a well-formed simulation with
`dt = 0`, `stepAdvection` multiplies every cell of both velocity components by `0.99`. -/
theorem sample_agrees_with_get [LinearOrderedField α] [FloorRing α] (b : Buffer α)
    (hw : 0 < b.width) (hh : 0 < b.height) (i j : Int) (s : Simulation α) (hs : s.WF)
    (hdt : s.dt = 0) (x y : Int) :
    b.sample ((i : α) / (b.width : α)) ((j : α) / (b.height : α)) = b.get i j ∧
    s.stepAdvection.velocityX.get x y = 99 / 100 * s.velocityX.get x y ∧
    s.stepAdvection.velocityY.get x y = 99 / 100 * s.velocityY.get x y := by
  obtain ⟨hX, hY⟩ := Simulation.stepAdvection_get s hs x y
  obtain ⟨⟨⟨⟨hxw, hxh, _⟩, _⟩, hx1, hx2⟩, ⟨⟨⟨hyw, hyh, _⟩, _⟩, hy1, hy2⟩, _⟩ := hs
  refine ⟨Buffer.sample_grid b hw hh i j, ?_, ?_⟩
  · rw [hX, hdt, mul_zero, mul_zero, sub_zero, sub_zero, ← hx1, ← hx2,
      Buffer.sample_grid _ hxw hxh, Buffer.get_emod _ hxw hxh, mul_comm]
  · rw [hY, hdt, mul_zero, mul_zero, sub_zero, sub_zero, ← hy1, ← hy2,
      Buffer.sample_grid _ hyw hyh, Buffer.get_emod _ hyw hyh, mul_comm]

/-- C22, on the 2 x 2 grid `[1, 2, 3, 4]` at the grid point `(3, 1)`, and on the 2 x 1
velocity `[1000, 10]` with `dt = 0` at the cell `(1, 0)`. -/
theorem sample_agrees_with_get_witness :
    ((0 : Int) < (⟨2, 2, [1, 2, 3, 4]⟩ : Buffer ℚ).width ∧
      (0 : Int) < (⟨2, 2, [1, 2, 3, 4]⟩ : Buffer ℚ).height ∧
      (Simulation.seeded 2 1 [1000, 10] [0, 0] 10 : Simulation ℚ).WF ∧
      (Simulation.seeded 2 1 [1000, 10] [0, 0] 10 : Simulation ℚ).dt = 0) ∧
    (⟨2, 2, [1, 2, 3, 4]⟩ : Buffer ℚ).sample
        (((3 : Int) : ℚ) / ((⟨2, 2, [1, 2, 3, 4]⟩ : Buffer ℚ).width : ℚ))
        (((1 : Int) : ℚ) / ((⟨2, 2, [1, 2, 3, 4]⟩ : Buffer ℚ).height : ℚ))
      = (⟨2, 2, [1, 2, 3, 4]⟩ : Buffer ℚ).get 3 1 ∧
    (Simulation.seeded 2 1 [1000, 10] [0, 0] 10 : Simulation ℚ).stepAdvection.velocityX.get 1 0
      = 99 / 100 * (Simulation.seeded 2 1 [1000, 10] [0, 0] 10 : Simulation ℚ).velocityX.get 1 0 :=
  ⟨⟨by decide, by decide,
      by simp [Simulation.WF, DoubleBuffer.WF, Buffer.WF, Simulation.seeded], rfl⟩,
   (sample_agrees_with_get ⟨2, 2, [1, 2, 3, 4]⟩ (by decide) (by decide) 3 1
      (Simulation.seeded 2 1 [1000, 10] [0, 0] 10)
      (by simp [Simulation.WF, DoubleBuffer.WF, Buffer.WF, Simulation.seeded]) rfl 1 0).1,
   (sample_agrees_with_get ⟨2, 2, [1, 2, 3, 4]⟩ (by decide) (by decide) 3 1
      (Simulation.seeded 2 1 [1000, 10] [0, 0] 10)
      (by simp [Simulation.WF, DoubleBuffer.WF, Buffer.WF, Simulation.seeded]) rfl 1 0).2.1⟩

/-- C24, amended to exact arithmetic (damped maximum principle of the advection).  Over
exact arithmetic, for a well-formed 2D simulation, every `dt` and every cell, after
`stepAdvection`
`|velocityX(i, j)| ≤ 0.99 * max |velocityX|`, the maximum being taken over all cells of
the field before the stage, and likewise for `velocityY`. -/
theorem advection_maximum_principle [LinearOrderedField α] [FloorRing α] (s : Simulation α)
    (hs : s.WF) (x y : Int) :
    |s.stepAdvection.velocityX.get x y| ≤ 99 / 100 * s.velocityX.maxAbs ∧
    |s.stepAdvection.velocityY.get x y| ≤ 99 / 100 * s.velocityY.maxAbs := by
  obtain ⟨hX, hY⟩ := Simulation.stepAdvection_get s hs x y
  obtain ⟨⟨⟨⟨hxw, hxh, _⟩, _⟩, -, -⟩, ⟨⟨⟨hyw, hyh, _⟩, _⟩, -, -⟩, _⟩ := hs
  have h99 : |(99 / 100 : α)| = 99 / 100 := abs_of_pos (by norm_num)
  constructor
  · rw [hX, abs_mul, h99, mul_comm]
    exact mul_le_mul_of_nonneg_left
      (Buffer.sample_abs_le _ _ (Buffer.abs_get_le_maxAbs _ hxw hxh) _ _) (by norm_num)
  · rw [hY, abs_mul, h99, mul_comm]
    exact mul_le_mul_of_nonneg_left
      (Buffer.sample_abs_le _ _ (Buffer.abs_get_le_maxAbs _ hyw hyh) _ _) (by norm_num)

/-- C24, on the 2 x 1 grid with `velocityX = [1000, 10]`, `dt = 0`, at the cell
`(1, 0)`: the maximum is 1000. -/
theorem advection_maximum_principle_witness :
    (Simulation.seeded 2 1 [1000, 10] [0, 0] 10 : Simulation ℚ).WF ∧
    (Simulation.seeded 2 1 [1000, 10] [0, 0] 10 : Simulation ℚ).velocityX.maxAbs = 1000 ∧
    |(Simulation.seeded 2 1 [1000, 10] [0, 0] 10 : Simulation ℚ).stepAdvection.velocityX.get 1 0|
      ≤ 99 / 100 * (Simulation.seeded 2 1 [1000, 10] [0, 0] 10 : Simulation ℚ).velocityX.maxAbs :=
  ⟨by simp [Simulation.WF, DoubleBuffer.WF, Buffer.WF, Simulation.seeded],
   by
    simp [Buffer.maxAbs, cells, Simulation.seeded, List.range_succ, Buffer.get, Buffer.get?,
      Buffer.wrap, readAt, mod_eq_emod]
    norm_num,
   (advection_maximum_principle (Simulation.seeded 2 1 [1000, 10] [0, 0] 10)
      (by simp [Simulation.WF, DoubleBuffer.WF, Buffer.WF, Simulation.seeded]) 1 0).1⟩

/-! ## C23: the pressure baseline -/

section baseline

variable [LinearOrderedField α]

/-- The Jacobi update commutes with adding a constant to the pressure. -/
theorem jacobi_add_const (d p : Int → Int → α) (c : α) :
    jacobi d (fun x y => p x y + c) = fun x y => jacobi d p x y + c := by
  funext x y
  unfold jacobi
  ring

theorem jacobi_iterate_add_const (d : Int → Int → α) (c : α) (n : Nat) (p : Int → Int → α) :
    (jacobi d)^[n] (fun x y => p x y + c) = fun x y => (jacobi d)^[n] p x y + c := by
  induction n with
  | zero => rfl
  | succ n ih =>
    rw [Function.iterate_succ_apply', ih, jacobi_add_const]
    funext x y
    rw [Function.iterate_succ_apply']

/-- Two uniform baselines give iterates that differ by the difference of the baselines. -/
theorem jacobi_iterate_baseline (d : Int → Int → α) (b1 b2 : α) (n : Nat) (x y : Int) :
    (jacobi d)^[n] (fun _ _ => b1) x y = (jacobi d)^[n] (fun _ _ => b2) x y + (b1 - b2) := by
  have h := jacobi_iterate_add_const d (b1 - b2) n (fun _ _ => b2)
  have e : (fun (_ _ : Int) => b2 + (b1 - b2)) = fun _ _ => b1 := by
    funext _ _
    ring
  rw [e] at h
  rw [h]

/-- Without a pass, the pressure solve exposes the former hidden surface. -/
theorem Simulation.stepPressure_zero (config : Config α) (s : Simulation α)
    (h0 : s.iterations = 0) :
    s.stepPressure config
      = { s with pressure := ⟨⟨s.pressure.width, s.pressure.height, s.pressure.b⟩,
            List.replicate s.pressure.a.length config.pressure⟩ } := by
  rw [Simulation.stepPressure_unfold config s 0 _ _ h0 rfl rfl]
  show ({ s with pressure := ⟨⟨(s.pressure.toBuffer.clear config.pressure).width,
      (s.pressure.toBuffer.clear config.pressure).height, s.pressure.b⟩,
      (s.pressure.toBuffer.clear config.pressure).a⟩ } : Simulation α) = _
  rw [Buffer.clear_eq]

/-- The visible pressures that two baselines leave differ by a constant. -/
theorem Simulation.stepPressure_baseline (c1 c2 : Config α) (s : Simulation α) (hs : s.WF) :
    ∃ P1 P2 : DoubleBuffer α,
      s.stepPressure c1 = { s with pressure := P1 } ∧
      s.stepPressure c2 = { s with pressure := P2 } ∧
      ({ s with pressure := P1 } : Simulation α).WF ∧
      ({ s with pressure := P2 } : Simulation α).WF ∧
      ∃ c : α, ∀ x y : Int, P1.get x y = P2.get x y + c := by
  obtain ⟨P1, h1, w1, v1, -⟩ := Simulation.stepPressure_spec c1 s hs
  obtain ⟨P2, h2, w2, v2, -⟩ := Simulation.stepPressure_spec c2 s hs
  refine ⟨P1, P2, h1, h2, w1, w2, ?_⟩
  by_cases hN : 1 ≤ s.iterations
  · refine ⟨c1.pressure - c2.pressure, fun x y => ?_⟩
    show P1.toBuffer.get x y = P2.toBuffer.get x y + _
    rw [v1 hN, v2 hN]
    exact jacobi_iterate_baseline _ _ _ _ x y
  · have h0 : s.iterations = 0 := by omega
    refine ⟨0, fun x y => ?_⟩
    rw [Simulation.stepPressure_zero c1 s h0] at h1
    rw [Simulation.stepPressure_zero c2 s h0] at h2
    have e1 : P1.toBuffer = ⟨s.pressure.width, s.pressure.height, s.pressure.b⟩ :=
      (congrArg (fun t : Simulation α => t.pressure.toBuffer) h1).symm
    have e2 : P2.toBuffer = ⟨s.pressure.width, s.pressure.height, s.pressure.b⟩ :=
      (congrArg (fun t : Simulation α => t.pressure.toBuffer) h2).symm
    show P1.toBuffer.get x y = P2.toBuffer.get x y + 0
    rw [e1, e2, add_zero]

end baseline

/-- C23, amended to exact arithmetic (the projection does not depend on the pressure
baseline).  Over exact arithmetic, for a well-formed 2D simulation, every iteration count (0 included) and any two configurations, hence any two
baselines, `stepDivergence`, `stepPressure`, `stepSubtractGradient` leave the same visible
velocity at every coordinate, and the two visible pressure fields differ by a constant. -/
theorem projection_baseline_independent [LinearOrderedField α] [FloorRing α]
    (s : Simulation α) (hs : s.WF) (c1 c2 : Config α) :
    (∀ x y : Int, (s.project c1).velocityX.get x y = (s.project c2).velocityX.get x y) ∧
    (∀ x y : Int, (s.project c1).velocityY.get x y = (s.project c2).velocityY.get x y) ∧
    ∃ c : α, ∀ x y : Int, (s.project c1).pressure.get x y = (s.project c2).pressure.get x y + c := by
  obtain ⟨D, hD, hDwf, -⟩ := Simulation.stepDivergence_spec s hs
  obtain ⟨P1, P2, h1, h2, w1, w2, c, hc⟩ :=
    Simulation.stepPressure_baseline c1 c2 { s with divergence := D } hDwf
  obtain ⟨-, hX1, hY1⟩ := Simulation.stepSubtractGradient_spec _ w1
  obtain ⟨-, hX2, hY2⟩ := Simulation.stepSubtractGradient_spec _ w2
  unfold Simulation.project
  rw [hD, h1, h2]
  refine ⟨fun x y => ?_, fun x y => ?_, c, fun x y => ?_⟩
  · rw [hX1, hX2]
    show s.velocityX.get x y - (P1.get (x + 1) y - P1.get (x - 1) y)
      = s.velocityX.get x y - (P2.get (x + 1) y - P2.get (x - 1) y)
    rw [hc, hc]
    ring
  · rw [hY1, hY2]
    show s.velocityY.get x y - (P1.get x (y + 1) - P1.get x (y - 1))
      = s.velocityY.get x y - (P2.get x (y + 1) - P2.get x (y - 1))
    rw [hc, hc]
    ring
  · rw [Simulation.stepSubtractGradient_pressure, Simulation.stepSubtractGradient_pressure]
    exact hc x y

/-- C23, on the 3 x 1 grid with `velocityX = [1, 0, 0]` and ten passes, for the baselines
0 and 7. -/
theorem projection_baseline_independent_witness :
    (Simulation.seeded 3 1 [1, 0, 0] [0, 0, 0] 10 : Simulation ℚ).WF ∧
    (∀ x y : Int,
      ((Simulation.seeded 3 1 [1, 0, 0] [0, 0, 0] 10 : Simulation ℚ).project ⟨0, 0⟩).velocityX.get x y
        = ((Simulation.seeded 3 1 [1, 0, 0] [0, 0, 0] 10 : Simulation ℚ).project
            ⟨7, 0⟩).velocityX.get x y) :=
  ⟨by simp [Simulation.WF, DoubleBuffer.WF, Buffer.WF, Simulation.seeded],
   (projection_baseline_independent (Simulation.seeded 3 1 [1, 0, 0] [0, 0, 0] 10)
      (by simp [Simulation.WF, DoubleBuffer.WF, Buffer.WF, Simulation.seeded]) ⟨0, 0⟩ ⟨7, 0⟩).1⟩

/-! ## C25: how far a tick can carry the velocity -/

theorem abs_offset_le (a : Int) : |a + 1| ≤ |a| + 1 ∧ |a - 1| ≤ |a| + 1 := by
  constructor
  · have h := abs_add a 1
    rwa [abs_one] at h
  · have h := abs_sub a 1
    rwa [abs_one] at h

theorem emod_offset (w c a : Int) :
    ((c + a) % w - c) % w = a % w ∧ (c - (c + a) % w) % w = (-a) % w := by
  constructor
  · rw [Int.sub_emod, Int.emod_emod, ← Int.sub_emod, add_sub_cancel_left]
  · rw [Int.sub_emod, Int.emod_emod, ← Int.sub_emod, sub_add_cancel_left]

theorem emod_min_le_abs {w : Int} (hw : 0 < w) (a : Int) : min (a % w) ((-a) % w) ≤ |a| := by
  rcases le_total 0 a with h | h
  · refine le_trans (min_le_left _ _) ?_
    rw [abs_of_nonneg h]
    have h1 := Int.emod_add_ediv a w
    have h2 : 0 ≤ a / w := Int.ediv_nonneg h (le_of_lt hw)
    nlinarith
  · refine le_trans (min_le_right _ _) ?_
    rw [abs_of_nonpos h]
    have h0 : 0 ≤ -a := by omega
    have h1 := Int.emod_add_ediv (-a) w
    have h2 : 0 ≤ (-a) / w := Int.ediv_nonneg h0 (le_of_lt hw)
    nlinarith

/-- The cell reached from `(ci, cj)` by the offset `(a, b)` lies within `|a| + |b|` on the
torus. -/
theorem torusDist_offset {w h : Int} (hw : 0 < w) (hh : 0 < h) (ci cj a b : Int) :
    torusDist w h (ci, cj) ((ci + a) % w, (cj + b) % h) ≤ |a| + |b| := by
  unfold torusDist
  simp only [(emod_offset w ci a).1, (emod_offset w ci a).2, (emod_offset h cj b).1,
    (emod_offset h cj b).2]
  exact add_le_add (emod_min_le_abs hw a) (emod_min_le_abs hh b)

section locality

variable [LinearOrderedField α]

/-- Around a cell where the divergence vanishes up to the distance `r + k`, the iterate
`k + 1` of the Jacobi update of a uniform field is that uniform value up to the
distance `r`. -/
theorem jacobi_iterate_local (d : Int → Int → α) (b : α) (ci cj : Int) (k : Nat) :
    ∀ r : Int, (∀ a c : Int, |a| + |c| ≤ r + (k : Int) → d (ci + a) (cj + c) = 0) →
      ∀ a c : Int, |a| + |c| ≤ r →
        (jacobi d)^[k + 1] (fun _ _ => b) (ci + a) (cj + c) = b := by
  induction k with
  | zero =>
    intro r hd a c hac
    rw [Function.iterate_succ_apply', Function.iterate_zero_apply]
    unfold jacobi
    rw [hd a c (by simpa using hac)]
    ring
  | succ k ih =>
    intro r hd a c hac
    have hd1 : ∀ a c : Int, |a| + |c| ≤ (r + 1) + (k : Int) → d (ci + a) (cj + c) = 0 := by
      intro a c h
      refine hd a c ?_
      push_cast
      omega
    have h0 : d (ci + a) (cj + c) = 0 := by
      refine hd a c ?_
      push_cast
      omega
    have e1 := ih (r + 1) hd1 (a + 1) c (by have := (abs_offset_le a).1; omega)
    have e2 := ih (r + 1) hd1 (a - 1) c (by have := (abs_offset_le a).2; omega)
    have e3 := ih (r + 1) hd1 a (c + 1) (by have := (abs_offset_le c).1; omega)
    have e4 := ih (r + 1) hd1 a (c - 1) (by have := (abs_offset_le c).2; omega)
    have hj : ∀ (p : Int → Int → α) (x y : Int), jacobi d p x y
        = (p (x + 1) y + p (x - 1) y + p x (y + 1) + p x (y - 1) - d x y) / 4 :=
      fun _ _ _ => rfl
    rw [← add_assoc] at e1 e3
    rw [← add_sub_assoc] at e2 e4
    rw [Function.iterate_succ_apply', hj, e1, e2, e3, e4, h0]
    ring

/-- The visible velocity after `stepVorticity`, at every coordinate. -/
theorem Simulation.stepVorticity_get_all (sqrt : α → α) (config : Config α) (t : Simulation α)
    (ht : t.WF) (x y : Int) :
    (t.stepVorticity sqrt config).velocityX.get x y
        = t.velocityX.get x y
          + t.forceX (x % t.width) (y % t.height)
              / t.forceLength sqrt (x % t.width) (y % t.height)
            * (-config.vorticity * t.curl.get x y) * t.dt ∧
    (t.stepVorticity sqrt config).velocityY.get x y
        = t.velocityY.get x y
          + t.forceY (x % t.width) (y % t.height)
              / t.forceLength sqrt (x % t.width) (y % t.height)
            * (config.vorticity * t.curl.get x y) * t.dt := by
  obtain ⟨-, hX, hY⟩ := Simulation.withVelocity_fill_spec t ht
    (Simulation.vorticityCellX sqrt config t) (Simulation.vorticityCellY sqrt config t)
  rw [Simulation.stepVorticity_eq, hX, hY]
  obtain ⟨⟨⟨⟨hxw, hxh, _⟩, _⟩, hx1, hx2⟩, ⟨⟨⟨hyw, hyh, _⟩, _⟩, hy1, hy2⟩,
    ⟨⟨hcw, hch, _⟩, hc1, hc2⟩, _⟩ := ht
  have e1 := Buffer.get_emod t.velocityX.toBuffer hxw hxh x y
  have e2 := Buffer.get_emod t.velocityY.toBuffer hyw hyh x y
  have e3 := Buffer.get_emod t.curl hcw hch x y
  rw [hx1, hx2] at e1
  rw [hy1, hy2] at e2
  rw [hc1, hc2] at e3
  rw [(Simulation.vorticityCell_eq sqrt config t _ _).1,
    (Simulation.vorticityCell_eq sqrt config t _ _).2, e1, e2, e3]
  exact ⟨rfl, rfl⟩

end locality

/-- A cell without velocity whose opposite neighbours carry equal pressures keeps no
velocity through `stepSubtractGradient` and `stepAdvection`. -/
theorem Simulation.still_cell [LinearOrderedField α] [FloorRing α] (t : Simulation α)
    (ht : t.WF) (ci cj : Int) (hX : t.velocityX.get ci cj = 0) (hY : t.velocityY.get ci cj = 0)
    (hpx : t.pressure.get (ci + 1) cj = t.pressure.get (ci - 1) cj)
    (hpy : t.pressure.get ci (cj + 1) = t.pressure.get ci (cj - 1)) :
    t.stepSubtractGradient.stepAdvection.velocityX.get ci cj = 0 ∧
    t.stepSubtractGradient.stepAdvection.velocityY.get ci cj = 0 := by
  obtain ⟨hwf5, hX5, hY5⟩ := Simulation.stepSubtractGradient_spec t ht
  have gX0 : t.stepSubtractGradient.velocityX.get ci cj = 0 := by
    rw [hX5, hX, hpx]
    ring
  have gY0 : t.stepSubtractGradient.velocityY.get ci cj = 0 := by
    rw [hY5, hY, hpy]
    ring
  obtain ⟨hX6, hY6⟩ := Simulation.stepAdvection_get _ hwf5 ci cj
  obtain ⟨⟨⟨⟨hxw, hxh, _⟩, _⟩, hx1, hx2⟩, ⟨⟨⟨hyw, hyh, _⟩, _⟩, hy1, hy2⟩, _⟩ := hwf5
  rw [hX6, hY6, gX0, gY0, zero_mul, sub_zero, sub_zero]
  constructor
  · rw [← hx1, ← hx2, Buffer.sample_grid _ hxw hxh, Buffer.get_emod _ hxw hxh]
    exact mul_eq_zero_of_left gX0 _
  · rw [← hy1, ← hy2, Buffer.sample_grid _ hyw hyh, Buffer.get_emod _ hyw hyh]
    exact mul_eq_zero_of_left gY0 _

/-- C25, amended to exact arithmetic (finite propagation per tick).  Over exact
arithmetic, take a well-formed 2D simulation with `N = iterations ≥ 1` passes, any
vorticity factor, baseline, square root and `dt`, and a cell `c`, given by any of its
integer coordinates.  If `velocityX` and `velocityY` are 0 at every cell within toroidal
Manhattan distance `N + 1` of `c` (`c` included) before `step`, they are 0 at `c` after
`step`. -/
theorem finite_propagation [LinearOrderedField α] [FloorRing α] (sqrt : α → α)
    (config : Config α) (dt : α) (s : Simulation α) (hs : s.WF) (hN : 1 ≤ s.iterations)
    (ci cj : Int)
    (hzero : ∀ x y : Int, 0 ≤ x → x < s.width → 0 ≤ y → y < s.height →
      torusDist s.width s.height (ci, cj) (x, y) ≤ (s.iterations : Int) + 1 →
      s.velocityX.get x y = 0 ∧ s.velocityY.get x y = 0) :
    (s.step sqrt config dt).velocityX.get ci cj = 0 ∧
    (s.step sqrt config dt).velocityY.get ci cj = 0 := by
  obtain ⟨hw, hh⟩ := Simulation.wf_pos hs
  -- the hypothesis, by offsets from `c`
  have hoff : ∀ a b : Int, |a| + |b| ≤ (s.iterations : Int) + 1 →
      s.velocityX.get (ci + a) (cj + b) = 0 ∧ s.velocityY.get (ci + a) (cj + b) = 0 := by
    intro a b hab
    obtain ⟨⟨⟨⟨hxw, hxh, _⟩, _⟩, hx1, hx2⟩, ⟨⟨⟨hyw, hyh, _⟩, _⟩, hy1, hy2⟩, _⟩ := hs
    have e1 := Buffer.get_emod s.velocityX.toBuffer hxw hxh (ci + a) (cj + b)
    have e2 := Buffer.get_emod s.velocityY.toBuffer hyw hyh (ci + a) (cj + b)
    rw [hx1, hx2] at e1
    rw [hy1, hy2] at e2
    have h := hzero ((ci + a) % s.width) ((cj + b) % s.height)
      (Int.emod_nonneg _ (ne_of_gt hw)) (Int.emod_lt_of_pos _ hw)
      (Int.emod_nonneg _ (ne_of_gt hh)) (Int.emod_lt_of_pos _ hh)
      (le_trans (torusDist_offset hw hh ci cj a b) hab)
    exact ⟨e1.symm.trans h.1, e2.symm.trans h.2⟩
  -- `stepCurl`
  have hs0 : ({ s with dt := dt } : Simulation α).WF := hs
  obtain ⟨C, hC, hCwf, -⟩ := Simulation.stepCurl_spec _ hs0
  have hcurl : ∀ a b : Int, |a| + |b| ≤ (s.iterations : Int) →
      C.get (ci + a) (cj + b) = 0 := by
    intro a b hab
    have h := Simulation.stepCurl_get _ hs0 (ci + a) (cj + b)
    rw [hC] at h
    refine h.trans ?_
    show (1 / 2 : α) * ((s.velocityY.get (ci + a + 1) (cj + b)
        - s.velocityY.get (ci + a - 1) (cj + b))
      + (s.velocityX.get (ci + a) (cj + b - 1) - s.velocityX.get (ci + a) (cj + b + 1))) = 0
    rw [add_assoc ci a 1, add_sub_assoc ci a 1, add_sub_assoc cj b 1, add_assoc cj b 1,
      (hoff (a + 1) b (by have := (abs_offset_le a).1; omega)).2,
      (hoff (a - 1) b (by have := (abs_offset_le a).2; omega)).2,
      (hoff a (b - 1) (by have := (abs_offset_le b).2; omega)).1,
      (hoff a (b + 1) (by have := (abs_offset_le b).1; omega)).1]
    ring
  -- `stepVorticity`
  have hwf2 : (({ s with dt := dt, curl := C } : Simulation α).stepVorticity sqrt config).WF := by
    rw [Simulation.stepVorticity_eq]
    exact (Simulation.withVelocity_fill_spec _ hCwf _ _).1
  have hit2 : (({ s with dt := dt, curl := C } : Simulation α).stepVorticity
      sqrt config).iterations = s.iterations := by
    rw [Simulation.stepVorticity_eq]
    rfl
  have hv2 : ∀ a b : Int, |a| + |b| ≤ (s.iterations : Int) →
      (({ s with dt := dt, curl := C } : Simulation α).stepVorticity
        sqrt config).velocityX.get (ci + a) (cj + b) = 0 ∧
      (({ s with dt := dt, curl := C } : Simulation α).stepVorticity
        sqrt config).velocityY.get (ci + a) (cj + b) = 0 := by
    intro a b hab
    obtain ⟨hX, hY⟩ := Simulation.stepVorticity_get_all sqrt config
      ({ s with dt := dt, curl := C } : Simulation α) hCwf (ci + a) (cj + b)
    rw [hX, hY]
    show s.velocityX.get (ci + a) (cj + b) + _ * (-config.vorticity * C.get (ci + a) (cj + b)) * _
        = 0 ∧
      s.velocityY.get (ci + a) (cj + b) + _ * (config.vorticity * C.get (ci + a) (cj + b)) * _
        = 0
    rw [hcurl a b hab, (hoff a b (by omega)).1, (hoff a b (by omega)).2]
    simp
  -- `stepDivergence`
  obtain ⟨D, hD, hDwf, -⟩ := Simulation.stepDivergence_spec _ hwf2
  have hdiv : ∀ a b : Int, |a| + |b| ≤ (s.iterations : Int) - 1 →
      D.get (ci + a) (cj + b) = 0 := by
    intro a b hab
    have h := Simulation.stepDivergence_get _ hwf2 (ci + a) (cj + b)
    rw [hD] at h
    refine h.trans ?_
    rw [add_assoc ci a 1, add_sub_assoc ci a 1, add_sub_assoc cj b 1, add_assoc cj b 1,
      (hv2 (a + 1) b (by have := (abs_offset_le a).1; omega)).1,
      (hv2 (a - 1) b (by have := (abs_offset_le a).2; omega)).1,
      (hv2 a (b - 1) (by have := (abs_offset_le b).2; omega)).2,
      (hv2 a (b + 1) (by have := (abs_offset_le b).1; omega)).2]
    ring
  -- `stepPressure`
  obtain ⟨P, hP, hPwf, hvis, -⟩ := Simulation.stepPressure_spec config _ hDwf
  have hp : ∀ a b : Int, |a| + |b| ≤ 1 → P.get (ci + a) (cj + b) = config.pressure := by
    intro a b hab
    have hv := hvis (by rw [show _ = s.iterations from hit2]; exact hN)
    show P.toBuffer.get (ci + a) (cj + b) = _
    rw [hv, show _ = s.iterations from hit2]
    obtain ⟨k, hk⟩ : ∃ k : Nat, s.iterations = k + 1 := ⟨s.iterations - 1, by omega⟩
    rw [hk, Nat.add_sub_cancel]
    cases k with
    | zero => rfl
    | succ k =>
      refine jacobi_iterate_local _ _ ci cj k 1 (fun a c hac => ?_) a b hab
      refine hdiv a c ?_
      rw [hk]
      push_cast
      omega
  -- `stepSubtractGradient`
  obtain ⟨hwf5, hX5, hY5⟩ := Simulation.stepSubtractGradient_spec _ hPwf
  have h00 := hv2 0 0 (by simp)
  rw [add_zero, add_zero] at h00
  have hpe := hp 1 0 (by simp)
  have hpw := hp (-1) 0 (by simp)
  have hps := hp 0 1 (by simp)
  have hpn := hp 0 (-1) (by simp)
  rw [add_zero] at hpe hpw hps hpn
  rw [← sub_eq_add_neg] at hpw hpn
  -- `stepAdvection`
  show (((((({ s with dt := dt } : Simulation α).stepCurl).stepVorticity sqrt
      config).stepDivergence).stepPressure config).stepSubtractGradient).stepAdvection.velocityX.get
        ci cj = 0 ∧
    (((((({ s with dt := dt } : Simulation α).stepCurl).stepVorticity sqrt
      config).stepDivergence).stepPressure config).stepSubtractGradient).stepAdvection.velocityY.get
        ci cj = 0
  rw [hC, hD, hP]
  obtain ⟨hX6, hY6⟩ := Simulation.stepAdvection_get _ hwf5 ci cj
  exact Simulation.still_cell _ hPwf ci cj h00.1 h00.2 (hpe.trans hpw.symm)
    (hps.trans hpn.symm)

/-- On the 8 x 1 grid whose only velocity is `velocityX = 5` at the cell `(4, 0)`, with
two passes, every cell within the distance `N + 1 = 3` of `(0, 0)` carries no velocity:
the distance from `(0, 0)` to `(4, 0)` is 4. -/
theorem far_cell_is_still (x y : Int) (hx0 : 0 ≤ x) (hx : x < (Simulation.seeded 8 1 [0, 0, 0, 0, 5, 0, 0, 0] [0, 0, 0, 0, 0, 0, 0, 0] 2 : Simulation ℚ).width) (hy0 : 0 ≤ y)
    (hy : y < (Simulation.seeded 8 1 [0, 0, 0, 0, 5, 0, 0, 0] [0, 0, 0, 0, 0, 0, 0, 0] 2 : Simulation ℚ).height)
    (hd : torusDist (Simulation.seeded 8 1 [0, 0, 0, 0, 5, 0, 0, 0] [0, 0, 0, 0, 0, 0, 0, 0] 2 : Simulation ℚ).width (Simulation.seeded 8 1 [0, 0, 0, 0, 5, 0, 0, 0] [0, 0, 0, 0, 0, 0, 0, 0] 2 : Simulation ℚ).height (0, 0) (x, y) ≤ ((Simulation.seeded 8 1 [0, 0, 0, 0, 5, 0, 0, 0] [0, 0, 0, 0, 0, 0, 0, 0] 2 : Simulation ℚ).iterations : Int) + 1) :
    (Simulation.seeded 8 1 [0, 0, 0, 0, 5, 0, 0, 0] [0, 0, 0, 0, 0, 0, 0, 0] 2 : Simulation ℚ).velocityX.get x y = 0 ∧ (Simulation.seeded 8 1 [0, 0, 0, 0, 5, 0, 0, 0] [0, 0, 0, 0, 0, 0, 0, 0] 2 : Simulation ℚ).velocityY.get x y = 0 := by
  have hx8 : x < 8 := hx
  have hy1 : y < 1 := hy
  have hd3 : torusDist 8 1 (0, 0) (x, y) ≤ 3 := hd
  have hy0 : y = 0 := by omega
  subst hy0
  have h4 : x ≠ 4 := by
    rintro rfl
    revert hd3
    decide
  interval_cases x
  all_goals
    first
    | exact absurd rfl h4
    | simp [Simulation.seeded, Buffer.get, Buffer.get?, Buffer.wrap, readAt, mod_eq_emod]

/-- C25, on the 8 x 1 grid whose only velocity is `velocityX = 5` at the cell `(4, 0)`,
with two passes, vorticity factor 1, `dt = 1/10`, for the cell `(0, 0)`. -/
theorem finite_propagation_witness :
    ((Simulation.seeded 8 1 [0, 0, 0, 0, 5, 0, 0, 0] [0, 0, 0, 0, 0, 0, 0, 0] 2 : Simulation ℚ).WF ∧ 1 ≤ (Simulation.seeded 8 1 [0, 0, 0, 0, 5, 0, 0, 0] [0, 0, 0, 0, 0, 0, 0, 0] 2 : Simulation ℚ).iterations ∧ (Simulation.seeded 8 1 [0, 0, 0, 0, 5, 0, 0, 0] [0, 0, 0, 0, 0, 0, 0, 0] 2 : Simulation ℚ).velocityX.get 4 0 = 5 ∧
      ∀ x y : Int, 0 ≤ x → x < (Simulation.seeded 8 1 [0, 0, 0, 0, 5, 0, 0, 0] [0, 0, 0, 0, 0, 0, 0, 0] 2 : Simulation ℚ).width → 0 ≤ y → y < (Simulation.seeded 8 1 [0, 0, 0, 0, 5, 0, 0, 0] [0, 0, 0, 0, 0, 0, 0, 0] 2 : Simulation ℚ).height →
        torusDist (Simulation.seeded 8 1 [0, 0, 0, 0, 5, 0, 0, 0] [0, 0, 0, 0, 0, 0, 0, 0] 2 : Simulation ℚ).width (Simulation.seeded 8 1 [0, 0, 0, 0, 5, 0, 0, 0] [0, 0, 0, 0, 0, 0, 0, 0] 2 : Simulation ℚ).height (0, 0) (x, y) ≤ ((Simulation.seeded 8 1 [0, 0, 0, 0, 5, 0, 0, 0] [0, 0, 0, 0, 0, 0, 0, 0] 2 : Simulation ℚ).iterations : Int) + 1 →
        (Simulation.seeded 8 1 [0, 0, 0, 0, 5, 0, 0, 0] [0, 0, 0, 0, 0, 0, 0, 0] 2 : Simulation ℚ).velocityX.get x y = 0 ∧ (Simulation.seeded 8 1 [0, 0, 0, 0, 5, 0, 0, 0] [0, 0, 0, 0, 0, 0, 0, 0] 2 : Simulation ℚ).velocityY.get x y = 0) ∧
    ((Simulation.seeded 8 1 [0, 0, 0, 0, 5, 0, 0, 0] [0, 0, 0, 0, 0, 0, 0, 0] 2 : Simulation ℚ).step Rat.sqrt ⟨0, 1⟩ (1 / 10)).velocityX.get 0 0 = 0 ∧
    ((Simulation.seeded 8 1 [0, 0, 0, 0, 5, 0, 0, 0] [0, 0, 0, 0, 0, 0, 0, 0] 2 : Simulation ℚ).step Rat.sqrt ⟨0, 1⟩ (1 / 10)).velocityY.get 0 0 = 0 :=
  ⟨⟨by simp [Simulation.WF, DoubleBuffer.WF, Buffer.WF, Simulation.seeded], by decide,
      by simp [Simulation.seeded, Buffer.get, Buffer.get?, Buffer.wrap, readAt, mod_eq_emod],
      far_cell_is_still⟩,
   finite_propagation Rat.sqrt ⟨0, 1⟩ (1 / 10) (Simulation.seeded 8 1 [0, 0, 0, 0, 5, 0, 0, 0] [0, 0, 0, 0, 0, 0, 0, 0] 2 : Simulation ℚ)
     (by simp [Simulation.WF, DoubleBuffer.WF, Buffer.WF, Simulation.seeded]) (by decide) 0 0
     far_cell_is_still⟩

/-! ## The claims in the arithmetic of the code

The theorems of this part evaluate the methods of `Rounded`: doubles for every operation,
single precision for every stored cell. -/

/-- The rounding on a few numbers: the doubles of `0.1`, `0.2` and `0.99`, the single
precision of the double `0.99`, and two ties at three bits, `9/8` between `1` and `5/4`
and `11/8` between `5/4` and `3/2`, which go to the even significand. -/
theorem rounding_examples :
    Rounded.double (1 / 10) = 3602879701896397 / 36028797018963968 ∧
    Rounded.double (1 / 5) = 3602879701896397 / 18014398509481984 ∧
    Rounded.double (99 / 100) = 4458563631096791 / 4503599627370496 ∧
    Rounded.fround (Rounded.double (99 / 100)) = 4152361 / 4194304 ∧
    Rounded.roundTo 3 (9 / 8) = 1 ∧ Rounded.roundTo 3 (11 / 8) = 3 / 2 ∧
    Rounded.double 3 = 3 ∧ Rounded.fround (-1 / 8) = -1 / 8 ∧
    Rounded.sqrt 2 = 6369051672525773 / 4503599627370496 ∧ Rounded.sqrt (1 / 4) = 1 / 2 := by
  decide!

/-- C3, as stated, fails on the code.  On the 1 x 1 grid holding 3 every corner cell is
3, and `sample(0.2, 0)` computes `3 * 0.8 + 3 * 0.2` in doubles, where both products
round up: the result is `3 + 2^-51 = 3.0000000000000004`, above the largest corner. -/
theorem sample_exceeds_corners :
    ((⟨1, 1, [3]⟩ : Buffer ℚ).get 0 0 = 3 ∧ (⟨1, 1, [3]⟩ : Buffer ℚ).get 1 0 = 3 ∧
      (⟨1, 1, [3]⟩ : Buffer ℚ).get 0 1 = 3 ∧ (⟨1, 1, [3]⟩ : Buffer ℚ).get 1 1 = 3) ∧
    Rounded.double (1 / 5) = 3602879701896397 / 18014398509481984 ∧
    Rounded.Buffer.sample ⟨1, 1, [3]⟩ (Rounded.double (1 / 5)) 0
      = 6755399441055745 / 2251799813685248 ∧
    (3 : ℚ) < Rounded.Buffer.sample ⟨1, 1, [3]⟩ (Rounded.double (1 / 5)) 0 := by
  decide!

/-- C10, as stated, fails on the code.  On the 3 x 1 grid `[1, 2, 4]` take the double
`u = 1091166727433353 / 2^51 = 0.4845753698005564`, for which `u + 1` is computed without
rounding.  Then `sample(u + 1, 0) = 2.907452218803339` and
`sample(u, 0) = 2.9074522188033383` differ: the products `u * 3` and `(u + 1) * 3` round
differently. -/
theorem sample_not_periodic_in_doubles :
    Rounded.double (1091166727433353 / 2251799813685248)
      = 1091166727433353 / 2251799813685248 ∧
    Rounded.add (1091166727433353 / 2251799813685248) 1
      = 1091166727433353 / 2251799813685248 + 1 ∧
    Rounded.Buffer.sample ⟨3, 1, [1, 2, 4]⟩
        (Rounded.add (1091166727433353 / 2251799813685248) 1) 0
      = 818375045575015 / 281474976710656 ∧
    Rounded.Buffer.sample ⟨3, 1, [1, 2, 4]⟩ (1091166727433353 / 2251799813685248) 0
      = 3273500182300059 / 1125899906842624 ∧
    Rounded.Buffer.sample ⟨3, 1, [1, 2, 4]⟩
        (Rounded.add (1091166727433353 / 2251799813685248) 1) 0
      ≠ Rounded.Buffer.sample ⟨3, 1, [1, 2, 4]⟩ (1091166727433353 / 2251799813685248) 0 := by
  decide!

/-- C19, as stated, fails on the code.  On the 1 x 3 grid with `velocityX = [2, 0, 0]`,
vorticity factor 1 and `dt = 0.1`, `stepCurl` gives the curl 1 at the cell `(0, 1)` and
`stepVorticity` stores `fround(0 + (-1) * 0.1)` there: `velocityX` changes by
`-13421773 / 2^27 = -0.10000000149`, `velocityY` does not change, and the length of the
change exceeds `|curlFactor * curl * dt| = 0.1`. -/
theorem vorticity_change_exceeds_bound :
    (Rounded.Simulation.stepCurl
      { Simulation.seeded 1 3 [2, 0, 0] [0, 0, 0] 10 with
        dt := Rounded.double (1 / 10) }).curl.get 0 1 = 1 ∧
    (Rounded.Simulation.stepVorticity ⟨0, 1⟩ (Rounded.Simulation.stepCurl
      { Simulation.seeded 1 3 [2, 0, 0] [0, 0, 0] 10 with
        dt := Rounded.double (1 / 10) })).velocityX.get 0 1
      - (Rounded.Simulation.stepCurl
      { Simulation.seeded 1 3 [2, 0, 0] [0, 0, 0] 10 with
        dt := Rounded.double (1 / 10) }).velocityX.get 0 1 = -13421773 / 134217728 ∧
    (Rounded.Simulation.stepVorticity ⟨0, 1⟩ (Rounded.Simulation.stepCurl
      { Simulation.seeded 1 3 [2, 0, 0] [0, 0, 0] 10 with
        dt := Rounded.double (1 / 10) })).velocityY.get 0 1
      - (Rounded.Simulation.stepCurl
      { Simulation.seeded 1 3 [2, 0, 0] [0, 0, 0] 10 with
        dt := Rounded.double (1 / 10) }).velocityY.get 0 1 = 0 ∧
    Rounded.mul (Rounded.mul 1 1) (Rounded.double (1 / 10))
      = 3602879701896397 / 36028797018963968 ∧
    ((3602879701896397 : ℚ) / 36028797018963968) ^ 2
      < (-13421773 / 134217728) ^ 2 + 0 ^ 2 := by
  decide!

/-- C23, as stated, fails on the code.  On the 3 x 1 grid with `velocityX = [1, 0, 0]`
and ten passes, the projection with baseline 0 leaves `velocityX(0, 0) = 174763 / 2^18`;
with baseline `2^30` every stored pressure rounds back to `2^30` in single precision, the
gradient vanishes and `velocityX(0, 0)` stays 1. -/
theorem projection_depends_on_baseline :
    (Rounded.Simulation.stepSubtractGradient (Rounded.Simulation.stepPressure ⟨0, 0⟩
      (Rounded.Simulation.stepDivergence
        (Simulation.seeded 3 1 [1, 0, 0] [0, 0, 0] 10)))).velocityX.get 0 0
      = 174763 / 262144 ∧
    (Rounded.Simulation.stepSubtractGradient (Rounded.Simulation.stepPressure ⟨1073741824, 0⟩
      (Rounded.Simulation.stepDivergence
        (Simulation.seeded 3 1 [1, 0, 0] [0, 0, 0] 10)))).velocityX.get 0 0
      = 1 := by
  decide!

/-- C24, as stated, fails on the code.  On the 2 x 1 grid with `velocityX = [1, 1]` and
`dt = 0.1` the largest `|velocityX|` is 1; `stepAdvection` samples 1, multiplies by the
double `0.99` and stores the product in single precision, which rounds up to
`4152361 / 2^22 = 0.9900000095367432`, above `0.99 * 1`. -/
theorem advection_exceeds_damped_maximum :
    ({ Simulation.seeded 2 1 [1, 1] [0, 0] 10 with
        dt := Rounded.double (1 / 10) } : Simulation ℚ).velocityX.maxAbs = 1 ∧
    (Rounded.Simulation.stepAdvection
      { Simulation.seeded 2 1 [1, 1] [0, 0] 10 with
        dt := Rounded.double (1 / 10) }).velocityX.get 0 0 = 4152361 / 4194304 ∧
    (99 / 100 : ℚ) * 1 < 4152361 / 4194304 ∧
    Rounded.mul (Rounded.double (99 / 100)) 1 < 4152361 / 4194304 := by
  decide!

/-- C25, as stated, fails on the code.  On the 22 x 3 grid whose only velocity is
`velocityX = 2` at the cell `(12, 0)`, with two passes, vorticity factor 1, baseline 0
and `dt = 0.1`, every cell within toroidal Manhattan distance 3 of `(15, 1)` carries no
velocity; the advection back-traces `(15, 1)` to `x = (15 / 22) * 22`, which is
`14.999999999999998` in doubles, so `sample` blends in the cell `(14, 1)` and
`velocityX(15, 1)` is `-13287555 / 2^79`, about `-2.2e-17`, after `step`. -/
theorem rounding_carries_velocity :
    (∀ c ∈ cells 22 3, torusDist 22 3 (15, 1) c ≤ 2 + 1 →
      (Simulation.seeded 22 3 ((List.replicate 66 0).set 12 2) (List.replicate 66 0)
        2 : Simulation ℚ).velocityX.get c.1 c.2 = 0 ∧
      (Simulation.seeded 22 3 ((List.replicate 66 0).set 12 2) (List.replicate 66 0)
        2 : Simulation ℚ).velocityY.get c.1 c.2 = 0) ∧
    Rounded.mul (Rounded.div 15 22) 22 = 8444249301319679 / 562949953421312 ∧
    (Rounded.Simulation.step ⟨0, 1⟩ (Rounded.double (1 / 10))
      (Simulation.seeded 22 3 ((List.replicate 66 0).set 12 2) (List.replicate 66 0)
        2)).velocityX.get 15 1 = -13287555 / 604462909807314587353088 := by
  decide!

end Fluids
